import Mathlib

/-!
Tile compositing orchestrator of the Android WebKit port.

A shallow embedding of `GLWebViewState` (GLWebViewState.cpp) and of the per-frame
routine `BaseLayerAndroid::drawBasePictureInGL` (BaseLayerAndroid.cpp).

Conventions of the embedding

* `double` and `float` values (wall-clock times, scales, opacities) are exact
  rationals; the sentinel `-1` of `m_updateTime` and `m_transitionTime` is kept.
  Where `setViewport` turns scalars into tile indices, the single-precision
  operations round to the nearest `float` (`roundFloat32`), conversions to `int`
  are `truncate`, and `int` arithmetic wraps at 32 bits (`wrapInt32`).
* `TiledPage*` and `BaseLayerAndroid*` pointers are natural numbers; a null
  pointer is `none`.
* The calls made on collaborators (tiled pages, the tiles manager, base layers)
  are appended, in program order, to the trace `m_calls`.
* Values the source obtains from collaborators are inputs: the constants of
  `GLWebViewState.h` and `TilesManager` are the fields of `Constants`; the answers
  of `TiledPage::ready`, of `moving()` and of `WTF::currentTime()` during one
  frame are the fields of `FrameInput`.
* The inline accessors of `GLWebViewState.h` that only read or assign one member
  (`updateTime()`, `setUpdateTime`, `futureScale()`, `setFutureScale`,
  `futureViewport()`, `setFutureViewport`, `currentScale()`, `setCurrentScale`,
  `scaleRequestState()`, `setScaleRequestState`, `preZoomBounds()`,
  `setPreZoomBounds`, `viewportTileBounds()`) are written as that member.
* Locks (`android::Mutex`) and reference counts are left out: every function here
  runs on the frame thread.
-/

namespace WebCore

/-! ## Machine arithmetic -/

/-- The value of an `int` (32 bits, two's complement) that holds the integer `n`
after wrap-around. -/
def wrapInt32 (n : Int) : Int := (n + 2 ^ 31) % 2 ^ 32 - 2 ^ 31

/-- Addition of two `int` values. -/
def addInt32 (a b : Int) : Int := wrapInt32 (a + b)

/-- Subtraction of two `int` values. -/
def subInt32 (a b : Int) : Int := wrapInt32 (a - b)

/-- Multiplication of two `int` values. -/
def mulInt32 (a b : Int) : Int := wrapInt32 (a * b)

/-- Rounding of a rational that is not negative to the nearest integer, a tie going
to the even one. -/
def roundHalfEven (q : ℚ) : Int :=
  let f := Int.floor q
  let r := q - f
  if r < 1 / 2 then f
  else if 1 / 2 < r then f + 1
  else if f % 2 = 0 then f else f + 1

/-- The `float` (IEEE 754 binary32) nearest to `x`, a tie going to the even
significand: the result of a single-precision operation whose exact result is `x`.
The significand has 24 bits, the least exponent is -126 (below it the spacing stays
2^-149). Overflow is not modelled: a magnitude of 2^128 or more stands for an
infinity. -/
def roundFloat32 (x : ℚ) : ℚ :=
  if x = 0 then 0
  else
    let e := max (Int.log 2 |x|) (-126)
    let ulp : ℚ := 2 ^ (e - 23)
    let n := roundHalfEven (|x| / ulp)
    if x < 0 then -(n * ulp) else n * ulp

/-- C function `floorf`. -/
def floorf (x : ℚ) : ℚ := Int.floor x

/-- C function `ceilf`. -/
def ceilf (x : ℚ) : ℚ := Int.ceil x

/-- The conversion `static_cast<int>` of a floating-point value: truncation towards
zero. For a value outside the range of `int` the conversion is undefined in C++; the
model returns the least `int`, as the conversion instruction of x86 does. -/
def truncate (x : ℚ) : Int :=
  let n := if 0 ≤ x then Int.floor x else Int.ceil x
  if -2 ^ 31 ≤ n ∧ n < 2 ^ 31 then n else -2 ^ 31

/-- A value that is zero or of at least the least normal magnitude: rounding it to
`float` does not underflow. -/
def normalFloat (x : ℚ) : Prop := x = 0 ∨ (2 : ℚ) ^ (-126 : Int) ≤ |x|

/-! ## Geometry -/

/-- Skia integer rectangle (left, top, right, bottom). -/
structure SkIRect where
  fLeft : Int
  fTop : Int
  fRight : Int
  fBottom : Int
deriving DecidableEq, Repr

/-- Skia scalar rectangle (left, top, right, bottom). -/
structure SkRect where
  fLeft : ℚ
  fTop : ℚ
  fRight : ℚ
  fBottom : ℚ
deriving DecidableEq

/-- Result of `SkIRect::setEmpty()`. -/
def SkIRect.empty : SkIRect := ⟨0, 0, 0, 0⟩

/-- Result of `SkRect::setEmpty()`. -/
def SkRect.empty : SkRect := ⟨0, 0, 0, 0⟩

/-- Skia `SkIRect::isEmpty()`. -/
def SkIRect.isEmpty (r : SkIRect) : Bool :=
  decide (r.fLeft ≥ r.fRight) || decide (r.fTop ≥ r.fBottom)

/-- Skia `SkIRect::width()`: a difference of two `int` values. -/
def SkIRect.width (r : SkIRect) : Int := subInt32 r.fRight r.fLeft

/-- Skia `SkIRect::height()`: a difference of two `int` values. -/
def SkIRect.height (r : SkIRect) : Int := subInt32 r.fBottom r.fTop

/-- WebCore integer rectangle (location and size). -/
structure IntRect where
  x : Int
  y : Int
  width : Int
  height : Int
deriving DecidableEq, Repr

/-- The default-constructed `IntRect`. -/
def IntRect.zero : IntRect := ⟨0, 0, 0, 0⟩

/-- Modelled from the spec: `IntRect::isEmpty()` of WebCore's `IntRect.h`, which is
not among the sources; a rectangle without area (width or height not positive)
invalidates nothing. -/
def IntRect.isEmpty (r : IntRect) : Bool :=
  decide (r.width ≤ 0) || decide (r.height ≤ 0)

/-- WebCore `IntRect::maxX()`. -/
def IntRect.maxX (r : IntRect) : Int := r.x + r.width

/-- WebCore `IntRect::maxY()`. -/
def IntRect.maxY (r : IntRect) : Int := r.y + r.height

/-- Modelled from the spec: `IntRect::unite(other)` of WebCore's `IntRect.cpp`,
which is not among the sources; the accumulated rectangle becomes the smallest
rectangle covering both, and an empty rectangle contributes nothing. -/
def IntRect.unite (r other : IntRect) : IntRect :=
  if other.isEmpty then r
  else if r.isEmpty then other
  else
    let l := min r.x other.x
    let t := min r.y other.y
    let rr := max r.maxX other.maxX
    let b := max r.maxY other.maxY
    ⟨l, t, rr - l, b - t⟩

/-- Modelled from the spec: containment of rectangles, `IntRect::contains(other)`
of WebCore's `IntRect.h`, which is not among the sources. -/
def IntRect.contains (r other : IntRect) : Bool :=
  decide (r.x ≤ other.x) && decide (other.maxX ≤ r.maxX) &&
    decide (r.y ≤ other.y) && decide (other.maxY ≤ r.maxY)

/-! ## Orchestrator state -/

/-- The enum `GLWebViewState::ScaleRequestState`. -/
inductive ScaleRequestState where
  | kNoScaleRequest
  | kWillScheduleRequest
  | kRequestNewScale
  | kReceivedNewScale
deriving DecidableEq, Repr

/-- A `TiledPage*`. -/
abbrev TiledPage := Nat

/-- A `BaseLayerAndroid*`; `none` is the null pointer. -/
abbrev LayerPtr := Option Nat

/-- The macro `FIRST_TILED_PAGE_ID`, defined as 1. -/
def FIRST_TILED_PAGE_ID : Nat := 1

/-- The macro `SECOND_TILED_PAGE_ID`, defined as 2. -/
def SECOND_TILED_PAGE_ID : Nat := 2

/-- The macro `FRAMERATE_CAP`, defined as 0.01666 (seconds). -/
def FRAMERATE_CAP : ℚ := 1666 / 100000

/-- One call made on a collaborator object. -/
inductive Call where
  | setUsable (page : TiledPage) (usable : Bool)
  | invalidateRect (page : TiledPage) (rect : IntRect) (pictureCount : Nat)
  | updateBaseTileSize (page : TiledPage)
  | setScale (page : TiledPage) (scale : ℚ)
  | prepare (page : TiledPage) (goingDown goingLeft : Bool) (bounds : SkIRect)
  | draw (page : TiledPage) (transparency : ℚ) (bounds : SkIRect)
  | setMaxTextureCount (max : Int)
  | resetTextureUsage (page : TiledPage)
  | setShowVisualIndicator (show_ : Bool)
  | swapExtra (oldLayer newLayer : Nat)
  | setGLWebViewState (layer : Nat)
  | layerSetExtra (layer : Nat)
  | updateFixedLayersPositions (visibleRect : SkRect)
  | updateGLPositions (clipWidth clipHeight : Int)
  | layerSetScale (scale : ℚ)
  | reserveGLTextures
  | cleanupLayersTextures (hasRoot : Bool)
  | createGLTextures
  | layerDrawGL
deriving DecidableEq

/-- Constants declared outside the two source files: the static delays of
`GLWebViewState.h` and the tile geometry of `TilesManager`. -/
structure Constants where
  s_updateInitialDelay : ℚ
  s_updateDelay : ℚ
  s_zoomInTransitionDelay : ℚ
  s_invZoomInTransitionDelay : ℚ
  s_zoomOutTransitionDelay : ℚ
  s_invZoomOutTransitionDelay : ℚ
  tileWidth : ℚ
  tileHeight : ℚ
  expandedTileBoundsX : Int
  expandedTileBoundsY : Int

/-- The data members of `GLWebViewState` that the two source files read or write,
the file-static `gPrevTime`, and the trace of collaborator calls. -/
structure GLWebViewState where
  m_scaleRequestState : ScaleRequestState
  m_currentScale : ℚ
  m_futureScale : ℚ
  m_updateTime : ℚ
  m_transitionTime : ℚ
  m_baseLayer : LayerPtr
  m_currentBaseLayer : LayerPtr
  m_currentPictureCounter : Nat
  m_usePageA : Bool
  m_baseLayerUpdate : Bool
  m_viewport : SkRect
  m_previousViewport : SkRect
  m_futureViewportTileBounds : SkIRect
  m_viewportTileBounds : SkIRect
  m_preZoomBounds : SkIRect
  m_invalidateRect : IntRect
  m_lastInval : IntRect
  m_tiledPageA : TiledPage
  m_tiledPageB : TiledPage
  gPrevTime : ℚ
  m_calls : List Call
deriving DecidableEq

/-- The constructor `GLWebViewState::GLWebViewState` (lines 61-86); the two pages
are identified by the ids they are created with. -/
def GLWebViewState.initial : GLWebViewState where
  m_scaleRequestState := .kNoScaleRequest
  m_currentScale := 1
  m_futureScale := 1
  m_updateTime := -1
  m_transitionTime := -1
  m_baseLayer := none
  m_currentBaseLayer := none
  m_currentPictureCounter := 0
  m_usePageA := true
  m_baseLayerUpdate := true
  m_viewport := SkRect.empty
  m_previousViewport := SkRect.empty
  m_futureViewportTileBounds := SkIRect.empty
  m_viewportTileBounds := SkIRect.empty
  m_preZoomBounds := SkIRect.empty
  m_invalidateRect := IntRect.zero
  m_lastInval := IntRect.zero
  m_tiledPageA := FIRST_TILED_PAGE_ID
  m_tiledPageB := SECOND_TILED_PAGE_ID
  gPrevTime := 0
  m_calls := []

/-- Append one collaborator call to the trace. -/
def GLWebViewState.record (st : GLWebViewState) (c : Call) : GLWebViewState :=
  { st with m_calls := st.m_calls ++ [c] }

/-! ## GLWebViewState.cpp -/

/-- Member function `GLWebViewState::inval` (lines 154-166); the counter is an `unsigned int`. -/
def GLWebViewState.inval (rect : IntRect) (st : GLWebViewState) : GLWebViewState :=
  if st.m_baseLayerUpdate then
    let st1 := { st with m_currentPictureCounter := (st.m_currentPictureCounter + 1) % 2 ^ 32 }
    if !rect.isEmpty then
      (st1.record (.invalidateRect st1.m_tiledPageA rect st1.m_currentPictureCounter)).record
        (.invalidateRect st1.m_tiledPageB rect st1.m_currentPictureCounter)
    else st1
  else
    { st with m_invalidateRect := st.m_invalidateRect.unite rect }

/-- Member function `GLWebViewState::setBaseLayer` (lines 98-122). -/
def GLWebViewState.setBaseLayer (layer : LayerPtr) (rect : IntRect)
    (showVisualIndicator : Bool) (st : GLWebViewState) : GLWebViewState :=
  let st1 :=
    if layer.isNone then
      (st.record (.setUsable st.m_tiledPageA false)).record (.setUsable st.m_tiledPageB false)
    else st
  let st2 :=
    match st1.m_baseLayer, layer with
    | some old, some new => st1.record (.swapExtra old new)
    | _, _ => st1
  let st3 := { st2 with m_baseLayer := layer }
  let st4 :=
    match st3.m_baseLayer with
    | some l => st3.record (.setGLWebViewState l)
    | none => st3
  let st5 := if st4.m_baseLayerUpdate then { st4 with m_currentBaseLayer := layer } else st4
  let st6 := st5.inval rect
  st6.record (.setShowVisualIndicator showVisualIndicator)

/-- Member function `GLWebViewState::unlockBaseLayerUpdate` (lines 124-133). -/
def GLWebViewState.unlockBaseLayerUpdate (st : GLWebViewState) : GLWebViewState :=
  let st1 := { st with m_baseLayerUpdate := true }
  let st2 := { st1 with m_currentBaseLayer := st1.m_baseLayer }
  let st3 := st2.inval st2.m_invalidateRect
  { st3 with m_invalidateRect := IntRect.zero }

/-- Member function `GLWebViewState::setExtra` (lines 135-152). -/
def GLWebViewState.setExtra (layer : Nat) (rect : IntRect) (allowSame : Bool)
    (st : GLWebViewState) : GLWebViewState :=
  if !st.m_baseLayerUpdate then st
  else
    let st1 := st.record (.layerSetExtra layer)
    if !allowSame && decide (st1.m_lastInval = rect) then st1
    else
      let st2 := if !rect.isEmpty then st1.inval rect else st1
      let st3 := if !st2.m_lastInval.isEmpty then st2.inval st2.m_lastInval else st2
      { st3 with m_lastInval := rect }

/-- Member function `GLWebViewState::scheduleUpdate` (lines 179-208). -/
def GLWebViewState.scheduleUpdate (c : Constants) (currentTime : ℚ) (viewport : SkIRect)
    (scale : ℚ) (st : GLWebViewState) : GLWebViewState :=
  if st.m_updateTime = -1 then
    { st with
      m_scaleRequestState := .kWillScheduleRequest
      m_updateTime := currentTime + c.s_updateInitialDelay
      m_futureScale := scale
      m_futureViewportTileBounds := viewport }
  else if currentTime < st.m_updateTime then st
  else if st.m_futureScale = scale then
    { st with
      m_scaleRequestState := .kRequestNewScale
      m_updateTime := -1 }
  else
    { st with
      m_updateTime := currentTime + c.s_updateDelay
      m_futureScale := scale
      m_futureViewportTileBounds := viewport }

/-- Member function `GLWebViewState::zoomInTransitionTime` (lines 210-215): the returned time and
the state after the call. -/
def GLWebViewState.zoomInTransitionTime (c : Constants) (currentTime : ℚ)
    (st : GLWebViewState) : ℚ × GLWebViewState :=
  let st1 :=
    if st.m_transitionTime = -1 then
      { st with m_transitionTime := currentTime + c.s_zoomInTransitionDelay }
    else st
  (st1.m_transitionTime, st1)

/-- Member function `GLWebViewState::zoomOutTransitionTime` (lines 217-222). -/
def GLWebViewState.zoomOutTransitionTime (c : Constants) (currentTime : ℚ)
    (st : GLWebViewState) : ℚ × GLWebViewState :=
  let st1 :=
    if st.m_transitionTime = -1 then
      { st with m_transitionTime := currentTime + c.s_zoomOutTransitionDelay }
    else st
  (st1.m_transitionTime, st1)

/-- Member function `GLWebViewState::zoomInTransparency` (lines 225-230): `fmin(1, fmax(0, t))`. -/
def GLWebViewState.zoomInTransparency (c : Constants) (currentTime : ℚ)
    (st : GLWebViewState) : ℚ × GLWebViewState :=
  let r := st.zoomInTransitionTime c currentTime
  let t := r.1 - currentTime
  let t1 := t * c.s_invZoomInTransitionDelay
  (min 1 (max 0 t1), r.2)

/-- Member function `GLWebViewState::zoomOutTransparency` (lines 232-237). -/
def GLWebViewState.zoomOutTransparency (c : Constants) (currentTime : ℚ)
    (st : GLWebViewState) : ℚ × GLWebViewState :=
  let r := st.zoomOutTransitionTime c currentTime
  let t := r.1 - currentTime
  let t1 := t * c.s_invZoomOutTransitionDelay
  (min 1 (max 0 t1), r.2)

/-- Member function `GLWebViewState::sibling` (lines 239-242). -/
def GLWebViewState.sibling (st : GLWebViewState) (page : TiledPage) : TiledPage :=
  if page = st.m_tiledPageA then st.m_tiledPageB else st.m_tiledPageA

/-- Member function `GLWebViewState::frontPage` (lines 244-248). -/
def GLWebViewState.frontPage (st : GLWebViewState) : TiledPage :=
  if st.m_usePageA then st.m_tiledPageA else st.m_tiledPageB

/-- Member function `GLWebViewState::backPage` (lines 250-254). -/
def GLWebViewState.backPage (st : GLWebViewState) : TiledPage :=
  if st.m_usePageA then st.m_tiledPageB else st.m_tiledPageA

/-- Member function `GLWebViewState::swapPages` (lines 256-264). -/
def GLWebViewState.swapPages (st : GLWebViewState) : GLWebViewState :=
  let st1 := { st with m_usePageA := xor st.m_usePageA true }
  let working := if st1.m_usePageA then st1.m_tiledPageB else st1.m_tiledPageA
  let st2 := st1.record (.resetTextureUsage working)
  { st2 with m_scaleRequestState := .kNoScaleRequest }

/-- Lines 288-295 of `setViewport`: the tile bounds of a viewport at a scale. The
scalars are `float`: each division and product is rounded to single precision
before `floorf` or `ceilf` and the conversion to `int`. -/
def viewportTileBoundsFor (c : Constants) (viewport : SkRect) (scale : ℚ) : SkIRect :=
  let invTileContentWidth := roundFloat32 (scale / c.tileWidth)
  let invTileContentHeight := roundFloat32 (scale / c.tileHeight)
  ⟨truncate (floorf (roundFloat32 (viewport.fLeft * invTileContentWidth))),
   truncate (floorf (roundFloat32 (viewport.fTop * invTileContentHeight))),
   truncate (ceilf (roundFloat32 (viewport.fRight * invTileContentWidth))),
   truncate (ceilf (roundFloat32 (viewport.fBottom * invTileContentHeight)))⟩

/-- Lines 297-298 of `setViewport`: the texture count for given tile bounds, computed
in `int`. -/
def maxTextureCountFor (c : Constants) (bounds : SkIRect) : Int :=
  mulInt32
    (mulInt32
      (addInt32 (addInt32 bounds.width (mulInt32 c.expandedTileBoundsX 2)) 1)
      (addInt32 (addInt32 bounds.height (mulInt32 c.expandedTileBoundsY 2)) 1))
    2

/-- Member function `GLWebViewState::setViewport` (lines 276-302). -/
def GLWebViewState.setViewport (c : Constants) (viewport : SkRect) (scale : ℚ)
    (st : GLWebViewState) : GLWebViewState :=
  let st1 := { st with m_previousViewport := st.m_viewport }
  if st1.m_viewport = viewport ∧ st1.m_futureScale = scale then st1
  else
    let st2 := { st1 with m_viewport := viewport }
    let st3 := { st2 with m_viewportTileBounds := viewportTileBoundsFor c viewport scale }
    let maxTextureCount : Int := maxTextureCountFor c st3.m_viewportTileBounds
    ((st3.record (.setMaxTextureCount maxTextureCount)).record
      (.updateBaseTileSize st3.m_tiledPageA)).record (.updateBaseTileSize st3.m_tiledPageB)

/-- Modelled from the spec: the inline accessor `resetTransitionTime()` of
`GLWebViewState.h`, which closes the crossfade window (no transition time). -/
def GLWebViewState.resetTransitionTime (st : GLWebViewState) : GLWebViewState :=
  { st with m_transitionTime := -1 }

/-- Modelled from the spec: the inline accessor `lockBaseLayerUpdate()` of
`GLWebViewState.h`, which pauses invalidation propagation (updates locked). -/
def GLWebViewState.lockBaseLayerUpdate (st : GLWebViewState) : GLWebViewState :=
  { st with m_baseLayerUpdate := false }

/-! ## BaseLayerAndroid.cpp -/

/-- The members of `BaseLayerAndroid` read by `drawBasePictureInGL`. -/
structure BaseLayerAndroid where
  contentIsEmpty : Bool
  hasGLWebViewState : Bool
  m_previousVisible : SkRect
deriving DecidableEq

/-- What one frame obtains from its environment: the clock, the answer of each
`TiledPage::ready` call (by source line) and the answer of `moving()`. -/
structure FrameInput where
  currentTime : ℚ
  backReadyFuture : Bool
  frontReadyPre : Bool
  backReadyPre : Bool
  frontReadyFinal : Bool
  moving : Bool
deriving DecidableEq

/-- Lines 139-141: record the pre-zoom bounds. -/
def framePreZoom (scale : ℚ) (st : GLWebViewState) : GLWebViewState :=
  if scale = st.m_currentScale ∨ st.m_preZoomBounds.isEmpty = true then
    { st with m_preZoomBounds := st.m_viewportTileBounds }
  else st

/-- Lines 143-164: feed the scale into the state machine; the Boolean is
`prepareNextTiledPage`. -/
def frameSchedule (c : Constants) (currentTime scale : ℚ) (st : GLWebViewState) :
    GLWebViewState × Bool :=
  let viewportTileBounds := st.m_viewportTileBounds
  let r : GLWebViewState × Bool :=
    if st.m_currentScale ≠ scale
        ∧ (st.m_scaleRequestState = .kNoScaleRequest
          ∨ st.m_scaleRequestState = .kWillScheduleRequest
          ∨ st.m_futureScale ≠ scale) then
      let st1 := st.scheduleUpdate c currentTime viewportTileBounds scale
      (st1, decide (st1.m_scaleRequestState = .kRequestNewScale))
    else (st, false)
  if (r.1.m_scaleRequestState = .kRequestNewScale
        ∨ r.1.m_scaleRequestState = .kReceivedNewScale)
      ∧ r.1.m_futureViewportTileBounds ≠ viewportTileBounds then
    (r.1, true)
  else r

/-- Lines 166-170: the state after the optional unlock, and `zooming`. -/
def frameZooming (st : GLWebViewState) : GLWebViewState × Bool :=
  if st.m_scaleRequestState ≠ .kNoScaleRequest then (st.unlockBaseLayerUpdate, true)
  else (st, false)

/-- Lines 172-179: prepare the back page when asked to. -/
def framePrepare (prepareNextTiledPage goingDown goingLeft : Bool) (scale : ℚ)
    (st : GLWebViewState) : GLWebViewState :=
  if prepareNextTiledPage then
    let viewportTileBounds := st.m_viewportTileBounds
    let nextTiledPage := st.backPage
    let st1 := st.record (.setScale nextTiledPage scale)
    let st2 := { st1 with m_futureViewportTileBounds := viewportTileBounds }
    let st3 := st2.unlockBaseLayerUpdate
    st3.record (.prepare nextTiledPage goingDown goingLeft viewportTileBounds)
  else st

/-- Lines 184-189: a fired request whose back page is ready has been received. -/
def frameReceive (backReadyFuture : Bool) (st : GLWebViewState) : GLWebViewState :=
  if st.m_scaleRequestState = .kRequestNewScale then
    if backReadyFuture then { st with m_scaleRequestState := .kReceivedNewScale } else st
  else st

/-- Lines 181-212: the crossfade; returns the state, `transparency` and `doSwap`. -/
def frameTransition (c : Constants) (currentTime scale : ℚ) (st : GLWebViewState) :
    GLWebViewState × ℚ × Bool :=
  if st.m_scaleRequestState = .kReceivedNewScale then
    let nextTiledPage := st.backPage
    let tt : ℚ × GLWebViewState :=
      if scale < st.m_currentScale then st.zoomOutTransitionTime c currentTime
      else st.zoomInTransitionTime c currentTime
    let transitionTime := tt.1
    let st1 := tt.2
    let r : ℚ × ℚ × GLWebViewState :=
      if scale < st1.m_currentScale then
        let z := st1.zoomOutTransparency c currentTime
        (1 - z.1, 1, z.2)
      else
        let z := st1.zoomInTransparency c currentTime
        (1, z.1, z.2)
    let newTilesTransparency := r.1
    let transparency := r.2.1
    let st2 := r.2.2
    let st3 := st2.record (.draw nextTiledPage newTilesTransparency st2.m_viewportTileBounds)
    if currentTime > transitionTime then (st3.resetTransitionTime, transparency, true)
    else (st3, transparency, false)
  else (st, 1, false)

/-- Lines 214-244: display the current page; returns the state and `doSwap`. -/
def frameDisplay (inp : FrameInput) (goingDown goingLeft zooming doSwap : Bool)
    (transparency : ℚ) (st : GLWebViewState) : GLWebViewState × Bool :=
  let tiledPage := st.frontPage
  let st1 := st.record (.setScale tiledPage st.m_currentScale)
  let preZoomBounds := st1.m_preZoomBounds
  let nextTiledPage := st1.backPage
  if (!doSwap && !zooming && !inp.moving) = true then
    let st2 :=
      if inp.frontReadyPre = false then
        ((st1.lockBaseLayerUpdate.record (.setScale nextTiledPage st1.m_currentScale)).record
          (.prepare nextTiledPage goingDown goingLeft preZoomBounds))
      else st1
    if inp.backReadyPre = true then
      ((st2.record (.draw nextTiledPage transparency preZoomBounds)).unlockBaseLayerUpdate, true)
    else
      (st2.record (.draw tiledPage transparency preZoomBounds), doSwap)
  else
    ((st1.unlockBaseLayerUpdate.record
        (.prepare tiledPage goingDown goingLeft preZoomBounds)).record
      (.draw tiledPage transparency preZoomBounds), doSwap)

/-- Lines 246-256: the return value, then the optional swap. -/
def frameFinish (inp : FrameInput) (doSwap : Bool) (scale : ℚ) (st : GLWebViewState) :
    Bool × GLWebViewState :=
  let ret : Bool :=
    decide (st.m_scaleRequestState ≠ .kNoScaleRequest) || !inp.frontReadyFinal
  if doSwap then (ret, { st with m_currentScale := scale }.swapPages)
  else (ret, st)

/-- Member function `BaseLayerAndroid::drawBasePictureInGL` (lines 122-257), acting on the
`GLWebViewState` the layer points to. -/
def drawBasePictureInGL (c : Constants) (inp : FrameInput) (layer : BaseLayerAndroid)
    (viewport : SkRect) (scale : ℚ) (st : GLWebViewState) : Bool × GLWebViewState :=
  if layer.contentIsEmpty then (false, st)
  else if !layer.hasGLWebViewState then (false, st)
  else
    let currentTime := inp.currentTime
    let goingDown : Bool := decide (layer.m_previousVisible.fTop - viewport.fTop ≤ 0)
    let goingLeft : Bool := decide (layer.m_previousVisible.fLeft - viewport.fLeft ≥ 0)
    let st1 := st.setViewport c viewport scale
    let st2 := framePreZoom scale st1
    let s := frameSchedule c currentTime scale st2
    let z := frameZooming s.1
    let st3 := framePrepare s.2 goingDown goingLeft scale z.1
    let st4 := frameReceive inp.backReadyFuture st3
    let t := frameTransition c currentTime scale st4
    let d := frameDisplay inp goingDown goingLeft z.2 t.2.2 t.2.1 t.1
    frameFinish inp d.2 scale d.1

/-- Lines 129-164: the state after the scale handling, and `prepareNextTiledPage`. -/
def frameScheduled (c : Constants) (inp : FrameInput) (viewport : SkRect) (scale : ℚ)
    (st : GLWebViewState) : GLWebViewState × Bool :=
  frameSchedule c inp.currentTime scale (framePreZoom scale (st.setViewport c viewport scale))

/-- Lines 129-189: the state in which the transition is evaluated (line 193). -/
def frameReceived (c : Constants) (inp : FrameInput) (layer : BaseLayerAndroid)
    (viewport : SkRect) (scale : ℚ) (st : GLWebViewState) : GLWebViewState :=
  let goingDown : Bool := decide (layer.m_previousVisible.fTop - viewport.fTop ≤ 0)
  let goingLeft : Bool := decide (layer.m_previousVisible.fLeft - viewport.fLeft ≥ 0)
  let s := frameScheduled c inp viewport scale st
  let z := frameZooming s.1
  frameReceive inp.backReadyFuture (framePrepare s.2 goingDown goingLeft scale z.1)

/-- Lines 129-244: the state before the return value is computed and before any
swap, and `doSwap`. -/
def frameBeforeFinish (c : Constants) (inp : FrameInput) (layer : BaseLayerAndroid)
    (viewport : SkRect) (scale : ℚ) (st : GLWebViewState) : GLWebViewState × Bool :=
  let goingDown : Bool := decide (layer.m_previousVisible.fTop - viewport.fTop ≤ 0)
  let goingLeft : Bool := decide (layer.m_previousVisible.fLeft - viewport.fLeft ≥ 0)
  let z := frameZooming (frameScheduled c inp viewport scale st).1
  let t := frameTransition c inp.currentTime scale (frameReceived c inp layer viewport scale st)
  frameDisplay inp goingDown goingLeft z.2 t.2.2 t.2.1 t.1

/-- Member function `BaseLayerAndroid::drawGL` (lines 260-359). `children` is
`none` when the layer has no child and otherwise the answer of the composited
root's `drawGL`; the calls on the GL context and the shader are outside the
orchestrator state. The result is `none` when line 317 dereferences a null
`m_glWebViewState`; otherwise it is the return value, the layer with
`m_previousVisible` updated, and the view state. -/
def BaseLayerAndroid.drawGL (c : Constants) (inp : FrameInput) (children : Option Bool)
    (viewRect : IntRect) (visibleRect : SkRect) (scale : ℚ) (layer : BaseLayerAndroid)
    (st : GLWebViewState) : Option (Bool × BaseLayerAndroid × GLWebViewState) :=
  let r := drawBasePictureInGL c inp layer visibleRect scale st
  let layer1 : BaseLayerAndroid := { layer with m_previousVisible := visibleRect }
  match children with
  | some drawn =>
    if layer.hasGLWebViewState then
      let st1 := (r.2.record (.updateFixedLayersPositions visibleRect)).record
        (.updateGLPositions viewRect.width viewRect.height)
      let scale1 :=
        if st1.m_scaleRequestState = .kReceivedNewScale then st1.m_futureScale
        else st1.m_currentScale
      let st2 := ((((st1.record (.layerSetScale scale1)).record .reserveGLTextures).record
        (.cleanupLayersTextures true)).record .createGLTextures).record .layerDrawGL
      some (r.1 || drawn, layer1, st2)
    else none
  | none => some (r.1, layer1, r.2.record (.cleanupLayersTextures false))

/-- Member function `GLWebViewState::drawGL` (lines 304-327). `currentTime` is the
clock read at line 310, `layer` the object `m_currentBaseLayer` points to when
it is not null; `inp` and `children` are what the base layer's `drawGL` obtains
from its environment. -/
def GLWebViewState.drawGL (c : Constants) (currentTime : ℚ) (inp : FrameInput)
    (children : Option Bool) (layer : BaseLayerAndroid) (rect : IntRect) (viewport : SkRect)
    (scale : ℚ) (st : GLWebViewState) : Option (Bool × BaseLayerAndroid × GLWebViewState) :=
  let delta := currentTime - st.gPrevTime
  if delta < FRAMERATE_CAP then some (true, layer, st)
  else
    let st1 := { st with gPrevTime := currentTime }
    match st1.m_currentBaseLayer with
    | none => some (false, layer, st1)
    | some _ => layer.drawGL c inp children rect viewport scale st1

/-- The `draw` calls of a trace: page, opacity and bounds. -/
def drawsOf (calls : List Call) : List (TiledPage × ℚ × SkIRect) :=
  calls.filterMap fun k =>
    match k with
    | .draw page transparency bounds => some (page, transparency, bounds)
    | _ => none

/-- The `setScale` and `prepare` calls of a trace, in order. -/
def preparesOf (calls : List Call) : List Call :=
  calls.filter fun k =>
    match k with
    | .setScale _ _ => true
    | .prepare _ _ _ _ => true
    | _ => false

/-! ## Runs of the orchestrator -/

/-- The operations a client performs on a `GLWebViewState`: a frame, and the
content-update entry points. -/
inductive ClientOp where
  | frame (inp : FrameInput) (layer : BaseLayerAndroid) (viewport : SkRect) (scale : ℚ)
  | inval (rect : IntRect)
  | setBaseLayer (layer : LayerPtr) (rect : IntRect) (showVisualIndicator : Bool)
  | setExtra (layer : Nat) (rect : IntRect) (allowSame : Bool)
  | unlockBaseLayerUpdate

/-- The state after one client operation. -/
def ClientOp.run (c : Constants) (op : ClientOp) (st : GLWebViewState) : GLWebViewState :=
  match op with
  | .frame inp layer viewport scale => (drawBasePictureInGL c inp layer viewport scale st).2
  | .inval rect => st.inval rect
  | .setBaseLayer layer rect showVisualIndicator => st.setBaseLayer layer rect showVisualIndicator
  | .setExtra layer rect allowSame => st.setExtra layer rect allowSame
  | .unlockBaseLayerUpdate => st.unlockBaseLayerUpdate

/-- The state after a sequence of client operations, first operation first. -/
def runOps (c : Constants) (ops : List ClientOp) (st : GLWebViewState) : GLWebViewState :=
  ops.foldl (fun s op => op.run c s) st

/-- States reached from the constructor by client operations. -/
def Reachable (c : Constants) (st : GLWebViewState) : Prop :=
  ∃ ops : List ClientOp, runOps c ops GLWebViewState.initial = st

/-- Every state-changing member function of `GLWebViewState.cpp`, callable
directly, together with a frame. -/
inductive Method where
  | client (op : ClientOp)
  | scheduleUpdate (currentTime : ℚ) (viewport : SkIRect) (scale : ℚ)
  | zoomInTransitionTime (currentTime : ℚ)
  | zoomOutTransitionTime (currentTime : ℚ)
  | zoomInTransparency (currentTime : ℚ)
  | zoomOutTransparency (currentTime : ℚ)
  | swapPages
  | setViewport (viewport : SkRect) (scale : ℚ)

/-- The state after one member-function call. -/
def Method.run (c : Constants) (m : Method) (st : GLWebViewState) : GLWebViewState :=
  match m with
  | .client op => op.run c st
  | .scheduleUpdate currentTime viewport scale => st.scheduleUpdate c currentTime viewport scale
  | .zoomInTransitionTime currentTime => (st.zoomInTransitionTime c currentTime).2
  | .zoomOutTransitionTime currentTime => (st.zoomOutTransitionTime c currentTime).2
  | .zoomInTransparency currentTime => (st.zoomInTransparency c currentTime).2
  | .zoomOutTransparency currentTime => (st.zoomOutTransparency c currentTime).2
  | .swapPages => st.swapPages
  | .setViewport viewport scale => st.setViewport c viewport scale

/-- The state after a sequence of member-function calls. -/
def runMethods (c : Constants) (ms : List Method) (st : GLWebViewState) : GLWebViewState :=
  ms.foldl (fun s m => m.run c s) st

/-- Repeated `scheduleUpdate` calls with one viewport and scale, at the listed times. -/
def scheduleUpdates (c : Constants) (times : List ℚ) (viewport : SkIRect) (scale : ℚ)
    (st : GLWebViewState) : GLWebViewState :=
  times.foldl (fun s t => s.scheduleUpdate c t viewport scale) st

/-! ## AndroidAnimation.cpp -/

/-- The members of `AndroidAnimation` read and written by `checkIterationsAndProgress`.
`alternate` says whether `m_direction` is `Animation::AnimationDirectionAlternate`;
`swapDirectionCalls` counts the calls of `swapDirection()`, which is declared in
`AndroidAnimation.h`; `bezierSolve` is `UnitBezier::solve` for the control points of
the timing function when that is a cubic-bezier timing function, and `none`
otherwise. -/
structure AndroidAnimation where
  m_beginTime : ℚ
  m_elapsedTime : ℚ
  m_duration : ℚ
  m_iterationCount : Int
  m_currentIteration : Int
  alternate : Bool
  swapDirectionCalls : Nat
  bezierSolve : Option (ℚ → ℚ → ℚ)

/-- Member function `AndroidAnimation::currentProgress` (lines 92-106): the returned
progress and the animation after the call. -/
def AndroidAnimation.currentProgress (time : ℚ) (a : AndroidAnimation) :
    ℚ × AndroidAnimation :=
  let a1 := if a.m_beginTime ≤ 1 / 1000000 then { a with m_beginTime := time } else a
  let a2 := { a1 with m_elapsedTime := time - a1.m_beginTime }
  let a3 := if a2.m_duration ≤ 0 then { a2 with m_duration := 1 / 1000000 } else a2
  if a3.m_elapsedTime < 0 then (0, a3)
  else (a3.m_elapsedTime / a3.m_duration, a3)

/-- Member function `AndroidAnimation::checkIterationsAndProgress` (lines 108-136):
`none` when it returns false, otherwise the value stored in `finalProgress`; and the
animation after the call. `iterationCountInfinite` is the constant
`Animation::IterationCountInfinite`. -/
def AndroidAnimation.checkIterationsAndProgress (iterationCountInfinite : Int) (time : ℚ)
    (a : AndroidAnimation) : Option ℚ × AndroidAnimation :=
  let r := a.currentProgress time
  let progress := r.1
  let a1 := r.2
  let currentIteration := truncate progress
  let a2 :=
    if currentIteration ≠ a1.m_currentIteration then
      if a1.alternate then { a1 with swapDirectionCalls := a1.swapDirectionCalls + 1 }
      else a1
    else a1
  let a3 := { a2 with m_currentIteration := currentIteration }
  let progress1 := progress - a3.m_currentIteration
  if a3.m_currentIteration ≥ a3.m_iterationCount
      ∧ a3.m_iterationCount ≠ iterationCountInfinite then (none, a3)
  else
    let progress2 :=
      match a3.bezierSolve with
      | some solve =>
        if a3.m_duration > 0 then solve progress1 (1 / (200 * a3.m_duration)) else progress1
      | none => progress1
    (some progress2, a3)

/-- A keyframe of a transform animation: its key time and the identity of its list
of transform operations. -/
structure TransformAnimationValue where
  keyTime : ℚ
  value : Nat
deriving DecidableEq

/-- The variables of the search loop of `AndroidTransformAnimation::evaluate`
(lines 242-257): `fromValue` (null before the first iteration), `distance` and
`foundAt`. -/
structure KeyframeSearch where
  fromValue : Option TransformAnimationValue
  distance : ℚ
  foundAt : Nat
deriving DecidableEq

/-- One iteration of the loop of lines 247-257, for index `i` and keyframe `value`
of a list of `size` keyframes. -/
def keyframeStep (size : Nat) (progress : ℚ) (s : KeyframeSearch) (i : Nat)
    (value : TransformAnimationValue) : KeyframeSearch :=
  let key := value.keyTime
  let d := |progress - key|
  if s.fromValue.isNone ∨ (d < s.distance ∧ i + 1 < size) then ⟨some value, d, i⟩
  else s

/-- The loop of lines 247-257 over the keyframes that remain from index `i` on (the
index is an `unsigned int`; lists are shorter than 2^32). -/
def keyframeLoop (size : Nat) (progress : ℚ) :
    List TransformAnimationValue → Nat → KeyframeSearch → KeyframeSearch
  | [], _, s => s
  | value :: rest, i, s =>
    keyframeLoop size progress rest (i + 1) (keyframeStep size progress s i value)

/-- What `AndroidTransformAnimation::evaluate` does: it returns false (`finished`),
it returns true without setting a transform (`pending`), or it blends from
`fromValue` to `toValue` with the remapped progress and sets the transform
(`blended`). The remapped progress is `none` when the divisor `delta` is zero, where
the floating-point quotient is not a number of the model. -/
inductive Evaluation where
  | finished
  | pending
  | blended (fromValue toValue : TransformAnimationValue) (delta : ℚ)
      (rprogress : Option ℚ)
deriving DecidableEq

/-- Member function `AndroidTransformAnimation::evaluate` (lines 227-299), up to the
choice of the two keyframes and of the progress between them, which the blending of
lines 270-296 receives. `operations` is `m_operations`. The result is `none` when
line 259 or 265 would dereference a null `fromValue`. -/
def AndroidTransformAnimation.evaluate (iterationCountInfinite : Int)
    (operations : List TransformAnimationValue) (time : ℚ) (a : AndroidAnimation) :
    Option (Evaluation × AndroidAnimation) :=
  let r := a.checkIterationsAndProgress iterationCountInfinite time
  match r.1 with
  | none => some (.finished, r.2)
  | some progress =>
    if progress < 0 then some (.pending, r.2)
    else if operations.length = 0 then some (.pending, r.2)
    else
      let s := keyframeLoop operations.length progress operations 0 ⟨none, 0, 0⟩
      match s.fromValue with
      | none => none
      | some fromValue =>
        let toValue :=
          if h : s.foundAt + 1 < operations.length then operations.get ⟨s.foundAt + 1, h⟩
          else fromValue
        let delta := toValue.keyTime - fromValue.keyTime
        let rprogress : Option ℚ :=
          if delta = 0 then none else some ((progress - fromValue.keyTime) / delta)
        some (.blended fromValue toValue delta rprogress, r.2)

/-! ## Sample inputs -/

/-- Sample constants: delays of 300 ms, 100 ms, 100 ms and 200 ms with their
reciprocals, tiles of 256 by 256, one tile of margin. -/
def sampleConstants : Constants where
  s_updateInitialDelay := 3 / 10
  s_updateDelay := 1 / 10
  s_zoomInTransitionDelay := 1 / 10
  s_invZoomInTransitionDelay := 10
  s_zoomOutTransitionDelay := 1 / 5
  s_invZoomOutTransitionDelay := 5
  tileWidth := 256
  tileHeight := 256
  expandedTileBoundsX := 1
  expandedTileBoundsY := 1

/-- Sample viewport tile bounds. -/
def sampleBounds : SkIRect := ⟨0, 0, 4, 4⟩

/-- The constructor state after `scheduleUpdate(0, sampleBounds, 2)`: an update
is scheduled for time 3/10 with target scale 2. -/
def scheduledState : GLWebViewState :=
  GLWebViewState.initial.scheduleUpdate sampleConstants 0 sampleBounds 2

/-- The constructor state with a crossfade window open until time 1. -/
def transitionState : GLWebViewState :=
  { GLWebViewState.initial with m_transitionTime := 1 }

/-- An update time is recorded only while the state machine waits for it. -/
def GLWebViewState.UpdateTimeIdle (st : GLWebViewState) : Prop :=
  st.m_scaleRequestState ≠ .kWillScheduleRequest → st.m_updateTime = -1

/-- The changes of the scale-request state along one pass of the cycle: staying,
`kNoScaleRequest` to `kWillScheduleRequest`, and from a state of the chain
`kWillScheduleRequest`, `kRequestNewScale`, `kReceivedNewScale`, `kNoScaleRequest`
to a later one. -/
def cycleForward : ScaleRequestState → ScaleRequestState → Bool
  | .kNoScaleRequest, .kNoScaleRequest => true
  | .kNoScaleRequest, .kWillScheduleRequest => true
  | .kWillScheduleRequest, _ => true
  | .kRequestNewScale, .kRequestNewScale => true
  | .kRequestNewScale, .kReceivedNewScale => true
  | .kRequestNewScale, .kNoScaleRequest => true
  | .kReceivedNewScale, .kReceivedNewScale => true
  | .kReceivedNewScale, .kNoScaleRequest => true
  | _, _ => false

/-- A layer with content, attached to the view state, last drawn at the origin. -/
def sampleLayer : BaseLayerAndroid := ⟨false, true, SkRect.empty⟩

/-- A viewport of 512 by 512 content pixels at the origin. -/
def sampleViewport : SkRect := ⟨0, 0, 512, 512⟩

/-- A frame at time `t` in which no page reports ready and the view is still. -/
def waitingFrame (t : ℚ) : FrameInput := ⟨t, false, false, false, false, false⟩

/-- Two frames at scale 2, at times 0 and 1: the request for scale 2 is scheduled,
then fired. -/
def zoomOps : List ClientOp :=
  [.frame (waitingFrame 0) sampleLayer sampleViewport 2,
   .frame (waitingFrame 1) sampleLayer sampleViewport 2]

/-- The state after `zoomOps`. -/
def firedState : GLWebViewState := runOps sampleConstants zoomOps GLWebViewState.initial

/-- Successive `inval` calls, first rectangle first. -/
def invals (rects : List IntRect) (st : GLWebViewState) : GLWebViewState :=
  rects.foldl (fun s r => s.inval r) st

/-- The tile bounds of a viewport at a scale: floor of the scaled left and top
edges and ceiling of the scaled right and bottom edges, in tile units. -/
def tileBounds (c : Constants) (viewport : SkRect) (scale : ℚ) : SkIRect :=
  ⟨Int.floor (viewport.fLeft * scale / c.tileWidth),
   Int.floor (viewport.fTop * scale / c.tileHeight),
   Int.ceil (viewport.fRight * scale / c.tileWidth),
   Int.ceil (viewport.fBottom * scale / c.tileHeight)⟩

/-- The tile bounds as single-precision arithmetic delivers them: the reciprocal
tile size and each of its products with a viewport edge are rounded to the nearest
`float` before the floor or the ceiling is taken. -/
def roundedTileBounds (c : Constants) (viewport : SkRect) (scale : ℚ) : SkIRect :=
  ⟨Int.floor (roundFloat32 (viewport.fLeft * roundFloat32 (scale / c.tileWidth))),
   Int.floor (roundFloat32 (viewport.fTop * roundFloat32 (scale / c.tileHeight))),
   Int.ceil (roundFloat32 (viewport.fRight * roundFloat32 (scale / c.tileWidth))),
   Int.ceil (roundFloat32 (viewport.fBottom * roundFloat32 (scale / c.tileHeight)))⟩

/-- The computation of the tile bounds is defined: the tile sizes are not zero, the
rounded reciprocal tile sizes are finite, and the four bounds fit an `int`. -/
def tileBoundsDefined (c : Constants) (viewport : SkRect) (scale : ℚ) : Prop :=
  c.tileWidth ≠ 0 ∧ c.tileHeight ≠ 0 ∧
  |roundFloat32 (scale / c.tileWidth)| < 2 ^ 128 ∧
  |roundFloat32 (scale / c.tileHeight)| < 2 ^ 128 ∧
  (-2 ^ 31 ≤ (roundedTileBounds c viewport scale).fLeft ∧
    (roundedTileBounds c viewport scale).fLeft < 2 ^ 31) ∧
  (-2 ^ 31 ≤ (roundedTileBounds c viewport scale).fTop ∧
    (roundedTileBounds c viewport scale).fTop < 2 ^ 31) ∧
  (-2 ^ 31 ≤ (roundedTileBounds c viewport scale).fRight ∧
    (roundedTileBounds c viewport scale).fRight < 2 ^ 31) ∧
  (-2 ^ 31 ≤ (roundedTileBounds c viewport scale).fBottom ∧
    (roundedTileBounds c viewport scale).fBottom < 2 ^ 31)

/-- No rounding occurs in the computation of the tile bounds: the reciprocal tile
sizes and their products with the viewport edges are `float` values. -/
def tileBoundsExact (c : Constants) (viewport : SkRect) (scale : ℚ) : Prop :=
  roundFloat32 (scale / c.tileWidth) = scale / c.tileWidth ∧
  roundFloat32 (scale / c.tileHeight) = scale / c.tileHeight ∧
  roundFloat32 (viewport.fLeft * (scale / c.tileWidth))
    = viewport.fLeft * (scale / c.tileWidth) ∧
  roundFloat32 (viewport.fTop * (scale / c.tileHeight))
    = viewport.fTop * (scale / c.tileHeight) ∧
  roundFloat32 (viewport.fRight * (scale / c.tileWidth))
    = viewport.fRight * (scale / c.tileWidth) ∧
  roundFloat32 (viewport.fBottom * (scale / c.tileHeight))
    = viewport.fBottom * (scale / c.tileHeight)

/-- No underflow occurs in the computation of the tile bounds: the reciprocal tile
sizes and their products with the viewport edges are zero or of normal magnitude. -/
def tileBoundsNormal (c : Constants) (viewport : SkRect) (scale : ℚ) : Prop :=
  normalFloat (scale / c.tileWidth) ∧ normalFloat (scale / c.tileHeight) ∧
  normalFloat (viewport.fLeft * roundFloat32 (scale / c.tileWidth)) ∧
  normalFloat (viewport.fTop * roundFloat32 (scale / c.tileHeight)) ∧
  normalFloat (viewport.fRight * roundFloat32 (scale / c.tileWidth)) ∧
  normalFloat (viewport.fBottom * roundFloat32 (scale / c.tileHeight))

/-- The `float` nearest to one third, 11184811 / 2^25 (0.33333334). -/
def thirdScale : ℚ := 11184811 / 33554432

/-- A viewport of 768 by 768 content pixels at the origin. -/
def wideViewport : SkRect := ⟨0, 0, 768, 768⟩

/-- A rectangle of 10 by 10 at the origin. -/
def sampleRect : IntRect := ⟨0, 0, 10, 10⟩

/-- The constructor state with updates locked. -/
def lockedState : GLWebViewState := GLWebViewState.initial.lockBaseLayerUpdate

/-- A frame at time `t` in which the back page reports ready for the future scale
(line 187) and nothing else is ready. -/
def readyFrame (t : ℚ) : FrameInput := ⟨t, true, false, false, false, false⟩

/-- The state after one frame at scale 2 at time 0: the request is scheduled. -/
def willState : GLWebViewState :=
  runOps sampleConstants [.frame (waitingFrame 0) sampleLayer sampleViewport 2]
    GLWebViewState.initial

/-- Two frames at scale 2, at times 0 and 1, the back page reporting ready in the
second: the request is scheduled, then fired and received. -/
def crossfadeOps : List ClientOp :=
  [.frame (waitingFrame 0) sampleLayer sampleViewport 2,
   .frame (readyFrame 1) sampleLayer sampleViewport 2]

/-- The state after `crossfadeOps`: the crossfade to scale 2 is running. -/
def crossfadeState : GLWebViewState :=
  runOps sampleConstants crossfadeOps GLWebViewState.initial

/-- A frame at time `t` in a still view in which both pages report ready. -/
def settledFrame (t : ℚ) : FrameInput := ⟨t, false, true, true, true, false⟩

/-- Frames that all carry the same scale argument, as client operations. -/
def framesAt (scale : ℚ) (frames : List (FrameInput × BaseLayerAndroid × SkRect)) :
    List ClientOp :=
  frames.map fun f => .frame f.1 f.2.1 f.2.2 scale

/-- The `invalidateRect` calls of a trace: page, rectangle and picture count. -/
def invalidationsOf (calls : List Call) : List (TiledPage × IntRect × Nat) :=
  calls.filterMap fun k =>
    match k with
    | .invalidateRect page rect pictureCount => some (page, rect, pictureCount)
    | _ => none

/-- Whether the clock read by a client operation is not negative; only frames read
the clock. -/
def ClientOp.timeNonneg : ClientOp → Bool
  | .frame inp _ _ _ => decide (0 ≤ inp.currentTime)
  | _ => true

/-- States reached from the constructor by client operations whose frames read a
clock that is not negative. -/
def ReachableNonneg (c : Constants) (st : GLWebViewState) : Prop :=
  ∃ ops : List ClientOp, (∀ op ∈ ops, op.timeNonneg = true) ∧
    runOps c ops GLWebViewState.initial = st

/-- While waiting in `kWillScheduleRequest` the recorded update time is a time of
the clock, hence not the sentinel. -/
def GLWebViewState.UpdateTimeSet (st : GLWebViewState) : Prop :=
  st.m_scaleRequestState = .kWillScheduleRequest → 0 ≤ st.m_updateTime

/-- A frame at time `t` in a still view in which the front page reports ready and
the back page does not. -/
def frontReadyFrame (t : ℚ) : FrameInput := ⟨t, false, true, false, true, false⟩

/-- The state after one still frame at the current scale in which no page reports
ready: the back page is being prepared and updates are locked. -/
def lockedFrameState : GLWebViewState :=
  runOps sampleConstants [.frame (waitingFrame 0) sampleLayer sampleViewport 1]
    GLWebViewState.initial

/-- The crossfade to scale 2 interrupted by a frame at scale 3 at time 2: a new
request is scheduled while the window of the interrupted crossfade stays recorded. -/
def staleWillState : GLWebViewState :=
  runOps sampleConstants [.frame (waitingFrame 2) sampleLayer sampleViewport 3] crossfadeState

/-- The state after a further frame at scale 3 at time 3: the request for scale 3
is fired, the back page is not ready yet. -/
def staleWindowState : GLWebViewState :=
  runOps sampleConstants [.frame (waitingFrame 3) sampleLayer sampleViewport 3] staleWillState

/-- The client operations that lead to `staleWindowState`. -/
def staleWindowOps : List ClientOp :=
  crossfadeOps ++
    [.frame (waitingFrame 2) sampleLayer sampleViewport 3,
     .frame (waitingFrame 3) sampleLayer sampleViewport 3]

/-- An animation of 10 seconds begun at time 10, one iteration, linear timing. -/
def sampleAnimation : AndroidAnimation :=
  ⟨10, 0, 10, 1, 0, false, 0, none⟩

/-- Three keyframes at key times 0, 1/2 and 1. -/
def sampleKeyframes : List TransformAnimationValue := [⟨0, 0⟩, ⟨1 / 2, 1⟩, ⟨1, 2⟩]

/-! ## Members left unchanged by each operation -/

@[simp] theorem record_state (st : GLWebViewState) (k : Call) :
    (st.record k).m_scaleRequestState = st.m_scaleRequestState := by
  rfl

@[simp] theorem record_updateTime (st : GLWebViewState) (k : Call) :
    (st.record k).m_updateTime = st.m_updateTime := by
  rfl

@[simp] theorem record_currentScale (st : GLWebViewState) (k : Call) :
    (st.record k).m_currentScale = st.m_currentScale := by
  rfl

@[simp] theorem record_futureScale (st : GLWebViewState) (k : Call) :
    (st.record k).m_futureScale = st.m_futureScale := by
  rfl

@[simp] theorem record_pageA (st : GLWebViewState) (k : Call) :
    (st.record k).m_tiledPageA = st.m_tiledPageA := by
  rfl

@[simp] theorem record_pageB (st : GLWebViewState) (k : Call) :
    (st.record k).m_tiledPageB = st.m_tiledPageB := by
  rfl

@[simp] theorem inval_state (rect : IntRect) (st : GLWebViewState) :
    (st.inval rect).m_scaleRequestState = st.m_scaleRequestState := by
  simp [GLWebViewState.inval, apply_ite GLWebViewState.m_scaleRequestState]

@[simp] theorem inval_updateTime (rect : IntRect) (st : GLWebViewState) :
    (st.inval rect).m_updateTime = st.m_updateTime := by
  simp [GLWebViewState.inval, apply_ite GLWebViewState.m_updateTime]

@[simp] theorem inval_currentScale (rect : IntRect) (st : GLWebViewState) :
    (st.inval rect).m_currentScale = st.m_currentScale := by
  simp [GLWebViewState.inval, apply_ite GLWebViewState.m_currentScale]

@[simp] theorem inval_futureScale (rect : IntRect) (st : GLWebViewState) :
    (st.inval rect).m_futureScale = st.m_futureScale := by
  simp [GLWebViewState.inval, apply_ite GLWebViewState.m_futureScale]

@[simp] theorem inval_pageA (rect : IntRect) (st : GLWebViewState) :
    (st.inval rect).m_tiledPageA = st.m_tiledPageA := by
  simp [GLWebViewState.inval, apply_ite GLWebViewState.m_tiledPageA]

@[simp] theorem inval_pageB (rect : IntRect) (st : GLWebViewState) :
    (st.inval rect).m_tiledPageB = st.m_tiledPageB := by
  simp [GLWebViewState.inval, apply_ite GLWebViewState.m_tiledPageB]

@[simp] theorem unlockBaseLayerUpdate_state (st : GLWebViewState) :
    (st.unlockBaseLayerUpdate).m_scaleRequestState = st.m_scaleRequestState := by
  simp [GLWebViewState.unlockBaseLayerUpdate]

@[simp] theorem unlockBaseLayerUpdate_updateTime (st : GLWebViewState) :
    (st.unlockBaseLayerUpdate).m_updateTime = st.m_updateTime := by
  simp [GLWebViewState.unlockBaseLayerUpdate]

@[simp] theorem unlockBaseLayerUpdate_currentScale (st : GLWebViewState) :
    (st.unlockBaseLayerUpdate).m_currentScale = st.m_currentScale := by
  simp [GLWebViewState.unlockBaseLayerUpdate]

@[simp] theorem unlockBaseLayerUpdate_futureScale (st : GLWebViewState) :
    (st.unlockBaseLayerUpdate).m_futureScale = st.m_futureScale := by
  simp [GLWebViewState.unlockBaseLayerUpdate]

@[simp] theorem unlockBaseLayerUpdate_pageA (st : GLWebViewState) :
    (st.unlockBaseLayerUpdate).m_tiledPageA = st.m_tiledPageA := by
  simp [GLWebViewState.unlockBaseLayerUpdate]

@[simp] theorem unlockBaseLayerUpdate_pageB (st : GLWebViewState) :
    (st.unlockBaseLayerUpdate).m_tiledPageB = st.m_tiledPageB := by
  simp [GLWebViewState.unlockBaseLayerUpdate]

@[simp] theorem lockBaseLayerUpdate_state (st : GLWebViewState) :
    (st.lockBaseLayerUpdate).m_scaleRequestState = st.m_scaleRequestState := by
  rfl

@[simp] theorem lockBaseLayerUpdate_updateTime (st : GLWebViewState) :
    (st.lockBaseLayerUpdate).m_updateTime = st.m_updateTime := by
  rfl

@[simp] theorem lockBaseLayerUpdate_currentScale (st : GLWebViewState) :
    (st.lockBaseLayerUpdate).m_currentScale = st.m_currentScale := by
  rfl

@[simp] theorem lockBaseLayerUpdate_futureScale (st : GLWebViewState) :
    (st.lockBaseLayerUpdate).m_futureScale = st.m_futureScale := by
  rfl

@[simp] theorem lockBaseLayerUpdate_pageA (st : GLWebViewState) :
    (st.lockBaseLayerUpdate).m_tiledPageA = st.m_tiledPageA := by
  rfl

@[simp] theorem lockBaseLayerUpdate_pageB (st : GLWebViewState) :
    (st.lockBaseLayerUpdate).m_tiledPageB = st.m_tiledPageB := by
  rfl

@[simp] theorem setBaseLayer_state (layer : LayerPtr) (rect : IntRect) (b : Bool) (st : GLWebViewState) :
    (st.setBaseLayer layer rect b).m_scaleRequestState = st.m_scaleRequestState := by
  rcases layer with _ | l <;> rcases h : st.m_baseLayer with _ | o <;>
    simp [GLWebViewState.setBaseLayer, h, apply_ite GLWebViewState.m_scaleRequestState]

@[simp] theorem setBaseLayer_updateTime (layer : LayerPtr) (rect : IntRect) (b : Bool) (st : GLWebViewState) :
    (st.setBaseLayer layer rect b).m_updateTime = st.m_updateTime := by
  rcases layer with _ | l <;> rcases h : st.m_baseLayer with _ | o <;>
    simp [GLWebViewState.setBaseLayer, h, apply_ite GLWebViewState.m_updateTime]

@[simp] theorem setBaseLayer_currentScale (layer : LayerPtr) (rect : IntRect) (b : Bool) (st : GLWebViewState) :
    (st.setBaseLayer layer rect b).m_currentScale = st.m_currentScale := by
  rcases layer with _ | l <;> rcases h : st.m_baseLayer with _ | o <;>
    simp [GLWebViewState.setBaseLayer, h, apply_ite GLWebViewState.m_currentScale]

@[simp] theorem setBaseLayer_futureScale (layer : LayerPtr) (rect : IntRect) (b : Bool) (st : GLWebViewState) :
    (st.setBaseLayer layer rect b).m_futureScale = st.m_futureScale := by
  rcases layer with _ | l <;> rcases h : st.m_baseLayer with _ | o <;>
    simp [GLWebViewState.setBaseLayer, h, apply_ite GLWebViewState.m_futureScale]

@[simp] theorem setBaseLayer_pageA (layer : LayerPtr) (rect : IntRect) (b : Bool) (st : GLWebViewState) :
    (st.setBaseLayer layer rect b).m_tiledPageA = st.m_tiledPageA := by
  rcases layer with _ | l <;> rcases h : st.m_baseLayer with _ | o <;>
    simp [GLWebViewState.setBaseLayer, h, apply_ite GLWebViewState.m_tiledPageA]

@[simp] theorem setBaseLayer_pageB (layer : LayerPtr) (rect : IntRect) (b : Bool) (st : GLWebViewState) :
    (st.setBaseLayer layer rect b).m_tiledPageB = st.m_tiledPageB := by
  rcases layer with _ | l <;> rcases h : st.m_baseLayer with _ | o <;>
    simp [GLWebViewState.setBaseLayer, h, apply_ite GLWebViewState.m_tiledPageB]

@[simp] theorem setExtra_state (layer : Nat) (rect : IntRect) (b : Bool) (st : GLWebViewState) :
    (st.setExtra layer rect b).m_scaleRequestState = st.m_scaleRequestState := by
  simp [GLWebViewState.setExtra, apply_ite GLWebViewState.m_scaleRequestState]

@[simp] theorem setExtra_updateTime (layer : Nat) (rect : IntRect) (b : Bool) (st : GLWebViewState) :
    (st.setExtra layer rect b).m_updateTime = st.m_updateTime := by
  simp [GLWebViewState.setExtra, apply_ite GLWebViewState.m_updateTime]

@[simp] theorem setExtra_currentScale (layer : Nat) (rect : IntRect) (b : Bool) (st : GLWebViewState) :
    (st.setExtra layer rect b).m_currentScale = st.m_currentScale := by
  simp [GLWebViewState.setExtra, apply_ite GLWebViewState.m_currentScale]

@[simp] theorem setExtra_futureScale (layer : Nat) (rect : IntRect) (b : Bool) (st : GLWebViewState) :
    (st.setExtra layer rect b).m_futureScale = st.m_futureScale := by
  simp [GLWebViewState.setExtra, apply_ite GLWebViewState.m_futureScale]

@[simp] theorem setExtra_pageA (layer : Nat) (rect : IntRect) (b : Bool) (st : GLWebViewState) :
    (st.setExtra layer rect b).m_tiledPageA = st.m_tiledPageA := by
  simp [GLWebViewState.setExtra, apply_ite GLWebViewState.m_tiledPageA]

@[simp] theorem setExtra_pageB (layer : Nat) (rect : IntRect) (b : Bool) (st : GLWebViewState) :
    (st.setExtra layer rect b).m_tiledPageB = st.m_tiledPageB := by
  simp [GLWebViewState.setExtra, apply_ite GLWebViewState.m_tiledPageB]

@[simp] theorem setViewport_state (c : Constants) (viewport : SkRect) (scale : ℚ) (st : GLWebViewState) :
    (st.setViewport c viewport scale).m_scaleRequestState = st.m_scaleRequestState := by
  simp [GLWebViewState.setViewport, apply_ite GLWebViewState.m_scaleRequestState]

@[simp] theorem setViewport_updateTime (c : Constants) (viewport : SkRect) (scale : ℚ) (st : GLWebViewState) :
    (st.setViewport c viewport scale).m_updateTime = st.m_updateTime := by
  simp [GLWebViewState.setViewport, apply_ite GLWebViewState.m_updateTime]

@[simp] theorem setViewport_currentScale (c : Constants) (viewport : SkRect) (scale : ℚ) (st : GLWebViewState) :
    (st.setViewport c viewport scale).m_currentScale = st.m_currentScale := by
  simp [GLWebViewState.setViewport, apply_ite GLWebViewState.m_currentScale]

@[simp] theorem setViewport_futureScale (c : Constants) (viewport : SkRect) (scale : ℚ) (st : GLWebViewState) :
    (st.setViewport c viewport scale).m_futureScale = st.m_futureScale := by
  simp [GLWebViewState.setViewport, apply_ite GLWebViewState.m_futureScale]

@[simp] theorem setViewport_pageA (c : Constants) (viewport : SkRect) (scale : ℚ) (st : GLWebViewState) :
    (st.setViewport c viewport scale).m_tiledPageA = st.m_tiledPageA := by
  simp [GLWebViewState.setViewport, apply_ite GLWebViewState.m_tiledPageA]

@[simp] theorem setViewport_pageB (c : Constants) (viewport : SkRect) (scale : ℚ) (st : GLWebViewState) :
    (st.setViewport c viewport scale).m_tiledPageB = st.m_tiledPageB := by
  simp [GLWebViewState.setViewport, apply_ite GLWebViewState.m_tiledPageB]

@[simp] theorem resetTransitionTime_state (st : GLWebViewState) :
    (st.resetTransitionTime).m_scaleRequestState = st.m_scaleRequestState := by
  rfl

@[simp] theorem resetTransitionTime_updateTime (st : GLWebViewState) :
    (st.resetTransitionTime).m_updateTime = st.m_updateTime := by
  rfl

@[simp] theorem resetTransitionTime_currentScale (st : GLWebViewState) :
    (st.resetTransitionTime).m_currentScale = st.m_currentScale := by
  rfl

@[simp] theorem resetTransitionTime_futureScale (st : GLWebViewState) :
    (st.resetTransitionTime).m_futureScale = st.m_futureScale := by
  rfl

@[simp] theorem resetTransitionTime_pageA (st : GLWebViewState) :
    (st.resetTransitionTime).m_tiledPageA = st.m_tiledPageA := by
  rfl

@[simp] theorem resetTransitionTime_pageB (st : GLWebViewState) :
    (st.resetTransitionTime).m_tiledPageB = st.m_tiledPageB := by
  rfl

@[simp] theorem zoomInTransitionTime_state (c : Constants) (t : ℚ) (st : GLWebViewState) :
    ((st.zoomInTransitionTime c t).2).m_scaleRequestState = st.m_scaleRequestState := by
  simp [GLWebViewState.zoomInTransitionTime, apply_ite GLWebViewState.m_scaleRequestState]

@[simp] theorem zoomInTransitionTime_updateTime (c : Constants) (t : ℚ) (st : GLWebViewState) :
    ((st.zoomInTransitionTime c t).2).m_updateTime = st.m_updateTime := by
  simp [GLWebViewState.zoomInTransitionTime, apply_ite GLWebViewState.m_updateTime]

@[simp] theorem zoomInTransitionTime_currentScale (c : Constants) (t : ℚ) (st : GLWebViewState) :
    ((st.zoomInTransitionTime c t).2).m_currentScale = st.m_currentScale := by
  simp [GLWebViewState.zoomInTransitionTime, apply_ite GLWebViewState.m_currentScale]

@[simp] theorem zoomInTransitionTime_futureScale (c : Constants) (t : ℚ) (st : GLWebViewState) :
    ((st.zoomInTransitionTime c t).2).m_futureScale = st.m_futureScale := by
  simp [GLWebViewState.zoomInTransitionTime, apply_ite GLWebViewState.m_futureScale]

@[simp] theorem zoomInTransitionTime_pageA (c : Constants) (t : ℚ) (st : GLWebViewState) :
    ((st.zoomInTransitionTime c t).2).m_tiledPageA = st.m_tiledPageA := by
  simp [GLWebViewState.zoomInTransitionTime, apply_ite GLWebViewState.m_tiledPageA]

@[simp] theorem zoomInTransitionTime_pageB (c : Constants) (t : ℚ) (st : GLWebViewState) :
    ((st.zoomInTransitionTime c t).2).m_tiledPageB = st.m_tiledPageB := by
  simp [GLWebViewState.zoomInTransitionTime, apply_ite GLWebViewState.m_tiledPageB]

@[simp] theorem zoomOutTransitionTime_state (c : Constants) (t : ℚ) (st : GLWebViewState) :
    ((st.zoomOutTransitionTime c t).2).m_scaleRequestState = st.m_scaleRequestState := by
  simp [GLWebViewState.zoomOutTransitionTime, apply_ite GLWebViewState.m_scaleRequestState]

@[simp] theorem zoomOutTransitionTime_updateTime (c : Constants) (t : ℚ) (st : GLWebViewState) :
    ((st.zoomOutTransitionTime c t).2).m_updateTime = st.m_updateTime := by
  simp [GLWebViewState.zoomOutTransitionTime, apply_ite GLWebViewState.m_updateTime]

@[simp] theorem zoomOutTransitionTime_currentScale (c : Constants) (t : ℚ) (st : GLWebViewState) :
    ((st.zoomOutTransitionTime c t).2).m_currentScale = st.m_currentScale := by
  simp [GLWebViewState.zoomOutTransitionTime, apply_ite GLWebViewState.m_currentScale]

@[simp] theorem zoomOutTransitionTime_futureScale (c : Constants) (t : ℚ) (st : GLWebViewState) :
    ((st.zoomOutTransitionTime c t).2).m_futureScale = st.m_futureScale := by
  simp [GLWebViewState.zoomOutTransitionTime, apply_ite GLWebViewState.m_futureScale]

@[simp] theorem zoomOutTransitionTime_pageA (c : Constants) (t : ℚ) (st : GLWebViewState) :
    ((st.zoomOutTransitionTime c t).2).m_tiledPageA = st.m_tiledPageA := by
  simp [GLWebViewState.zoomOutTransitionTime, apply_ite GLWebViewState.m_tiledPageA]

@[simp] theorem zoomOutTransitionTime_pageB (c : Constants) (t : ℚ) (st : GLWebViewState) :
    ((st.zoomOutTransitionTime c t).2).m_tiledPageB = st.m_tiledPageB := by
  simp [GLWebViewState.zoomOutTransitionTime, apply_ite GLWebViewState.m_tiledPageB]

@[simp] theorem zoomInTransparency_state (c : Constants) (t : ℚ) (st : GLWebViewState) :
    ((st.zoomInTransparency c t).2).m_scaleRequestState = st.m_scaleRequestState := by
  simp [GLWebViewState.zoomInTransparency]

@[simp] theorem zoomInTransparency_updateTime (c : Constants) (t : ℚ) (st : GLWebViewState) :
    ((st.zoomInTransparency c t).2).m_updateTime = st.m_updateTime := by
  simp [GLWebViewState.zoomInTransparency]

@[simp] theorem zoomInTransparency_currentScale (c : Constants) (t : ℚ) (st : GLWebViewState) :
    ((st.zoomInTransparency c t).2).m_currentScale = st.m_currentScale := by
  simp [GLWebViewState.zoomInTransparency]

@[simp] theorem zoomInTransparency_futureScale (c : Constants) (t : ℚ) (st : GLWebViewState) :
    ((st.zoomInTransparency c t).2).m_futureScale = st.m_futureScale := by
  simp [GLWebViewState.zoomInTransparency]

@[simp] theorem zoomInTransparency_pageA (c : Constants) (t : ℚ) (st : GLWebViewState) :
    ((st.zoomInTransparency c t).2).m_tiledPageA = st.m_tiledPageA := by
  simp [GLWebViewState.zoomInTransparency]

@[simp] theorem zoomInTransparency_pageB (c : Constants) (t : ℚ) (st : GLWebViewState) :
    ((st.zoomInTransparency c t).2).m_tiledPageB = st.m_tiledPageB := by
  simp [GLWebViewState.zoomInTransparency]

@[simp] theorem zoomOutTransparency_state (c : Constants) (t : ℚ) (st : GLWebViewState) :
    ((st.zoomOutTransparency c t).2).m_scaleRequestState = st.m_scaleRequestState := by
  simp [GLWebViewState.zoomOutTransparency]

@[simp] theorem zoomOutTransparency_updateTime (c : Constants) (t : ℚ) (st : GLWebViewState) :
    ((st.zoomOutTransparency c t).2).m_updateTime = st.m_updateTime := by
  simp [GLWebViewState.zoomOutTransparency]

@[simp] theorem zoomOutTransparency_currentScale (c : Constants) (t : ℚ) (st : GLWebViewState) :
    ((st.zoomOutTransparency c t).2).m_currentScale = st.m_currentScale := by
  simp [GLWebViewState.zoomOutTransparency]

@[simp] theorem zoomOutTransparency_futureScale (c : Constants) (t : ℚ) (st : GLWebViewState) :
    ((st.zoomOutTransparency c t).2).m_futureScale = st.m_futureScale := by
  simp [GLWebViewState.zoomOutTransparency]

@[simp] theorem zoomOutTransparency_pageA (c : Constants) (t : ℚ) (st : GLWebViewState) :
    ((st.zoomOutTransparency c t).2).m_tiledPageA = st.m_tiledPageA := by
  simp [GLWebViewState.zoomOutTransparency]

@[simp] theorem zoomOutTransparency_pageB (c : Constants) (t : ℚ) (st : GLWebViewState) :
    ((st.zoomOutTransparency c t).2).m_tiledPageB = st.m_tiledPageB := by
  simp [GLWebViewState.zoomOutTransparency]

@[simp] theorem swapPages_updateTime (st : GLWebViewState) :
    (st.swapPages).m_updateTime = st.m_updateTime := by
  rfl

@[simp] theorem swapPages_currentScale (st : GLWebViewState) :
    (st.swapPages).m_currentScale = st.m_currentScale := by
  rfl

@[simp] theorem swapPages_futureScale (st : GLWebViewState) :
    (st.swapPages).m_futureScale = st.m_futureScale := by
  rfl

@[simp] theorem swapPages_pageA (st : GLWebViewState) :
    (st.swapPages).m_tiledPageA = st.m_tiledPageA := by
  rfl

@[simp] theorem swapPages_pageB (st : GLWebViewState) :
    (st.swapPages).m_tiledPageB = st.m_tiledPageB := by
  rfl

@[simp] theorem scheduleUpdate_currentScale (c : Constants) (t : ℚ) (viewport : SkIRect) (scale : ℚ) (st : GLWebViewState) :
    (st.scheduleUpdate c t viewport scale).m_currentScale = st.m_currentScale := by
  simp [GLWebViewState.scheduleUpdate, apply_ite GLWebViewState.m_currentScale]

@[simp] theorem scheduleUpdate_pageA (c : Constants) (t : ℚ) (viewport : SkIRect) (scale : ℚ) (st : GLWebViewState) :
    (st.scheduleUpdate c t viewport scale).m_tiledPageA = st.m_tiledPageA := by
  simp [GLWebViewState.scheduleUpdate, apply_ite GLWebViewState.m_tiledPageA]

@[simp] theorem scheduleUpdate_pageB (c : Constants) (t : ℚ) (viewport : SkIRect) (scale : ℚ) (st : GLWebViewState) :
    (st.scheduleUpdate c t viewport scale).m_tiledPageB = st.m_tiledPageB := by
  simp [GLWebViewState.scheduleUpdate, apply_ite GLWebViewState.m_tiledPageB]

@[simp] theorem framePreZoom_state (scale : ℚ) (st : GLWebViewState) :
    (framePreZoom scale st).m_scaleRequestState = st.m_scaleRequestState := by
  simp [framePreZoom, apply_ite GLWebViewState.m_scaleRequestState]

@[simp] theorem framePreZoom_updateTime (scale : ℚ) (st : GLWebViewState) :
    (framePreZoom scale st).m_updateTime = st.m_updateTime := by
  simp [framePreZoom, apply_ite GLWebViewState.m_updateTime]

@[simp] theorem framePreZoom_currentScale (scale : ℚ) (st : GLWebViewState) :
    (framePreZoom scale st).m_currentScale = st.m_currentScale := by
  simp [framePreZoom, apply_ite GLWebViewState.m_currentScale]

@[simp] theorem framePreZoom_futureScale (scale : ℚ) (st : GLWebViewState) :
    (framePreZoom scale st).m_futureScale = st.m_futureScale := by
  simp [framePreZoom, apply_ite GLWebViewState.m_futureScale]

@[simp] theorem framePreZoom_pageA (scale : ℚ) (st : GLWebViewState) :
    (framePreZoom scale st).m_tiledPageA = st.m_tiledPageA := by
  simp [framePreZoom, apply_ite GLWebViewState.m_tiledPageA]

@[simp] theorem framePreZoom_pageB (scale : ℚ) (st : GLWebViewState) :
    (framePreZoom scale st).m_tiledPageB = st.m_tiledPageB := by
  simp [framePreZoom, apply_ite GLWebViewState.m_tiledPageB]

@[simp] theorem frameSchedule_currentScale (c : Constants) (t scale : ℚ) (st : GLWebViewState) :
    ((frameSchedule c t scale st).1).m_currentScale = st.m_currentScale := by
  simp [frameSchedule, apply_ite GLWebViewState.m_currentScale, apply_ite Prod.fst, apply_ite Prod.snd]

@[simp] theorem frameSchedule_pageA (c : Constants) (t scale : ℚ) (st : GLWebViewState) :
    ((frameSchedule c t scale st).1).m_tiledPageA = st.m_tiledPageA := by
  simp [frameSchedule, apply_ite GLWebViewState.m_tiledPageA, apply_ite Prod.fst, apply_ite Prod.snd]

@[simp] theorem frameSchedule_pageB (c : Constants) (t scale : ℚ) (st : GLWebViewState) :
    ((frameSchedule c t scale st).1).m_tiledPageB = st.m_tiledPageB := by
  simp [frameSchedule, apply_ite GLWebViewState.m_tiledPageB, apply_ite Prod.fst, apply_ite Prod.snd]

@[simp] theorem frameZooming_state (st : GLWebViewState) :
    ((frameZooming st).1).m_scaleRequestState = st.m_scaleRequestState := by
  simp [frameZooming, apply_ite GLWebViewState.m_scaleRequestState, apply_ite Prod.fst, apply_ite Prod.snd]

@[simp] theorem frameZooming_updateTime (st : GLWebViewState) :
    ((frameZooming st).1).m_updateTime = st.m_updateTime := by
  simp [frameZooming, apply_ite GLWebViewState.m_updateTime, apply_ite Prod.fst, apply_ite Prod.snd]

@[simp] theorem frameZooming_currentScale (st : GLWebViewState) :
    ((frameZooming st).1).m_currentScale = st.m_currentScale := by
  simp [frameZooming, apply_ite GLWebViewState.m_currentScale, apply_ite Prod.fst, apply_ite Prod.snd]

@[simp] theorem frameZooming_futureScale (st : GLWebViewState) :
    ((frameZooming st).1).m_futureScale = st.m_futureScale := by
  simp [frameZooming, apply_ite GLWebViewState.m_futureScale, apply_ite Prod.fst, apply_ite Prod.snd]

@[simp] theorem frameZooming_pageA (st : GLWebViewState) :
    ((frameZooming st).1).m_tiledPageA = st.m_tiledPageA := by
  simp [frameZooming, apply_ite GLWebViewState.m_tiledPageA, apply_ite Prod.fst, apply_ite Prod.snd]

@[simp] theorem frameZooming_pageB (st : GLWebViewState) :
    ((frameZooming st).1).m_tiledPageB = st.m_tiledPageB := by
  simp [frameZooming, apply_ite GLWebViewState.m_tiledPageB, apply_ite Prod.fst, apply_ite Prod.snd]

@[simp] theorem framePrepare_state (p d l : Bool) (scale : ℚ) (st : GLWebViewState) :
    (framePrepare p d l scale st).m_scaleRequestState = st.m_scaleRequestState := by
  simp [framePrepare, apply_ite GLWebViewState.m_scaleRequestState, apply_ite Prod.fst, apply_ite Prod.snd]

@[simp] theorem framePrepare_updateTime (p d l : Bool) (scale : ℚ) (st : GLWebViewState) :
    (framePrepare p d l scale st).m_updateTime = st.m_updateTime := by
  simp [framePrepare, apply_ite GLWebViewState.m_updateTime, apply_ite Prod.fst, apply_ite Prod.snd]

@[simp] theorem framePrepare_currentScale (p d l : Bool) (scale : ℚ) (st : GLWebViewState) :
    (framePrepare p d l scale st).m_currentScale = st.m_currentScale := by
  simp [framePrepare, apply_ite GLWebViewState.m_currentScale, apply_ite Prod.fst, apply_ite Prod.snd]

@[simp] theorem framePrepare_futureScale (p d l : Bool) (scale : ℚ) (st : GLWebViewState) :
    (framePrepare p d l scale st).m_futureScale = st.m_futureScale := by
  simp [framePrepare, apply_ite GLWebViewState.m_futureScale, apply_ite Prod.fst, apply_ite Prod.snd]

@[simp] theorem framePrepare_pageA (p d l : Bool) (scale : ℚ) (st : GLWebViewState) :
    (framePrepare p d l scale st).m_tiledPageA = st.m_tiledPageA := by
  simp [framePrepare, apply_ite GLWebViewState.m_tiledPageA, apply_ite Prod.fst, apply_ite Prod.snd]

@[simp] theorem framePrepare_pageB (p d l : Bool) (scale : ℚ) (st : GLWebViewState) :
    (framePrepare p d l scale st).m_tiledPageB = st.m_tiledPageB := by
  simp [framePrepare, apply_ite GLWebViewState.m_tiledPageB, apply_ite Prod.fst, apply_ite Prod.snd]

@[simp] theorem frameReceive_updateTime (r : Bool) (st : GLWebViewState) :
    (frameReceive r st).m_updateTime = st.m_updateTime := by
  simp [frameReceive, apply_ite GLWebViewState.m_updateTime]

@[simp] theorem frameReceive_currentScale (r : Bool) (st : GLWebViewState) :
    (frameReceive r st).m_currentScale = st.m_currentScale := by
  simp [frameReceive, apply_ite GLWebViewState.m_currentScale]

@[simp] theorem frameReceive_futureScale (r : Bool) (st : GLWebViewState) :
    (frameReceive r st).m_futureScale = st.m_futureScale := by
  simp [frameReceive, apply_ite GLWebViewState.m_futureScale]

@[simp] theorem frameReceive_pageA (r : Bool) (st : GLWebViewState) :
    (frameReceive r st).m_tiledPageA = st.m_tiledPageA := by
  simp [frameReceive, apply_ite GLWebViewState.m_tiledPageA]

@[simp] theorem frameReceive_pageB (r : Bool) (st : GLWebViewState) :
    (frameReceive r st).m_tiledPageB = st.m_tiledPageB := by
  simp [frameReceive, apply_ite GLWebViewState.m_tiledPageB]

@[simp] theorem frameTransition_state (c : Constants) (t scale : ℚ) (st : GLWebViewState) :
    ((frameTransition c t scale st).1).m_scaleRequestState = st.m_scaleRequestState := by
  simp [frameTransition, apply_ite GLWebViewState.m_scaleRequestState, apply_ite Prod.fst, apply_ite Prod.snd]

@[simp] theorem frameTransition_updateTime (c : Constants) (t scale : ℚ) (st : GLWebViewState) :
    ((frameTransition c t scale st).1).m_updateTime = st.m_updateTime := by
  simp [frameTransition, apply_ite GLWebViewState.m_updateTime, apply_ite Prod.fst, apply_ite Prod.snd]

@[simp] theorem frameTransition_currentScale (c : Constants) (t scale : ℚ) (st : GLWebViewState) :
    ((frameTransition c t scale st).1).m_currentScale = st.m_currentScale := by
  simp [frameTransition, apply_ite GLWebViewState.m_currentScale, apply_ite Prod.fst, apply_ite Prod.snd]

@[simp] theorem frameTransition_futureScale (c : Constants) (t scale : ℚ) (st : GLWebViewState) :
    ((frameTransition c t scale st).1).m_futureScale = st.m_futureScale := by
  simp [frameTransition, apply_ite GLWebViewState.m_futureScale, apply_ite Prod.fst, apply_ite Prod.snd]

@[simp] theorem frameTransition_pageA (c : Constants) (t scale : ℚ) (st : GLWebViewState) :
    ((frameTransition c t scale st).1).m_tiledPageA = st.m_tiledPageA := by
  simp [frameTransition, apply_ite GLWebViewState.m_tiledPageA, apply_ite Prod.fst, apply_ite Prod.snd]

@[simp] theorem frameTransition_pageB (c : Constants) (t scale : ℚ) (st : GLWebViewState) :
    ((frameTransition c t scale st).1).m_tiledPageB = st.m_tiledPageB := by
  simp [frameTransition, apply_ite GLWebViewState.m_tiledPageB, apply_ite Prod.fst, apply_ite Prod.snd]

@[simp] theorem frameDisplay_state (inp : FrameInput) (d l z w : Bool) (tr : ℚ) (st : GLWebViewState) :
    ((frameDisplay inp d l z w tr st).1).m_scaleRequestState = st.m_scaleRequestState := by
  simp [frameDisplay, apply_ite GLWebViewState.m_scaleRequestState, apply_ite Prod.fst, apply_ite Prod.snd]

@[simp] theorem frameDisplay_updateTime (inp : FrameInput) (d l z w : Bool) (tr : ℚ) (st : GLWebViewState) :
    ((frameDisplay inp d l z w tr st).1).m_updateTime = st.m_updateTime := by
  simp [frameDisplay, apply_ite GLWebViewState.m_updateTime, apply_ite Prod.fst, apply_ite Prod.snd]

@[simp] theorem frameDisplay_currentScale (inp : FrameInput) (d l z w : Bool) (tr : ℚ) (st : GLWebViewState) :
    ((frameDisplay inp d l z w tr st).1).m_currentScale = st.m_currentScale := by
  simp [frameDisplay, apply_ite GLWebViewState.m_currentScale, apply_ite Prod.fst, apply_ite Prod.snd]

@[simp] theorem frameDisplay_futureScale (inp : FrameInput) (d l z w : Bool) (tr : ℚ) (st : GLWebViewState) :
    ((frameDisplay inp d l z w tr st).1).m_futureScale = st.m_futureScale := by
  simp [frameDisplay, apply_ite GLWebViewState.m_futureScale, apply_ite Prod.fst, apply_ite Prod.snd]

@[simp] theorem frameDisplay_pageA (inp : FrameInput) (d l z w : Bool) (tr : ℚ) (st : GLWebViewState) :
    ((frameDisplay inp d l z w tr st).1).m_tiledPageA = st.m_tiledPageA := by
  simp [frameDisplay, apply_ite GLWebViewState.m_tiledPageA, apply_ite Prod.fst, apply_ite Prod.snd]

@[simp] theorem frameDisplay_pageB (inp : FrameInput) (d l z w : Bool) (tr : ℚ) (st : GLWebViewState) :
    ((frameDisplay inp d l z w tr st).1).m_tiledPageB = st.m_tiledPageB := by
  simp [frameDisplay, apply_ite GLWebViewState.m_tiledPageB, apply_ite Prod.fst, apply_ite Prod.snd]

@[simp] theorem frameFinish_updateTime (inp : FrameInput) (w : Bool) (scale : ℚ) (st : GLWebViewState) :
    ((frameFinish inp w scale st).2).m_updateTime = st.m_updateTime := by
  simp [frameFinish, apply_ite GLWebViewState.m_updateTime, apply_ite Prod.fst, apply_ite Prod.snd]

@[simp] theorem frameFinish_futureScale (inp : FrameInput) (w : Bool) (scale : ℚ) (st : GLWebViewState) :
    ((frameFinish inp w scale st).2).m_futureScale = st.m_futureScale := by
  simp [frameFinish, apply_ite GLWebViewState.m_futureScale, apply_ite Prod.fst, apply_ite Prod.snd]

@[simp] theorem frameFinish_pageA (inp : FrameInput) (w : Bool) (scale : ℚ) (st : GLWebViewState) :
    ((frameFinish inp w scale st).2).m_tiledPageA = st.m_tiledPageA := by
  simp [frameFinish, apply_ite GLWebViewState.m_tiledPageA, apply_ite Prod.fst, apply_ite Prod.snd]

@[simp] theorem frameFinish_pageB (inp : FrameInput) (w : Bool) (scale : ℚ) (st : GLWebViewState) :
    ((frameFinish inp w scale st).2).m_tiledPageB = st.m_tiledPageB := by
  simp [frameFinish, apply_ite GLWebViewState.m_tiledPageB, apply_ite Prod.fst, apply_ite Prod.snd]

/-! ## scheduleUpdate -/

theorem scheduledState_eq : scheduledState =
    { GLWebViewState.initial with
      m_scaleRequestState := .kWillScheduleRequest
      m_updateTime := 3 / 10
      m_futureScale := 2
      m_futureViewportTileBounds := sampleBounds } := by
  simp [scheduledState, GLWebViewState.scheduleUpdate, GLWebViewState.initial, sampleConstants]

theorem scheduleUpdates_cons (c : Constants) (t : ℚ) (times : List ℚ) (viewport : SkIRect)
    (scale : ℚ) (st : GLWebViewState) :
    scheduleUpdates c (t :: times) viewport scale st =
      scheduleUpdates c times viewport scale (st.scheduleUpdate c t viewport scale) := rfl

/-- A call before the scheduled time returns at line 192 without any write. -/
theorem scheduleUpdate_early (c : Constants) (t : ℚ) (viewport : SkIRect) (scale : ℚ)
    (st : GLWebViewState) (hs : st.m_updateTime ≠ -1) (ht : t < st.m_updateTime) :
    st.scheduleUpdate c t viewport scale = st := by
  simp [GLWebViewState.scheduleUpdate, hs, ht]

theorem scheduleUpdates_early (c : Constants) (viewport : SkIRect) (scale : ℚ)
    (st : GLWebViewState) (hs : st.m_updateTime ≠ -1) (times : List ℚ)
    (ht : ∀ t ∈ times, t < st.m_updateTime) :
    scheduleUpdates c times viewport scale st = st := by
  induction times with
  | nil => rfl
  | cons t ts ih =>
    rw [scheduleUpdates_cons, scheduleUpdate_early c t viewport scale st hs
      (ht t (List.mem_cons_self t ts))]
    exact ih (fun u hu => ht u (List.mem_cons_of_mem t hu))

/-- A call at or after the scheduled time with another scale takes the branch of
lines 200-207. -/
theorem scheduleUpdate_due_ne (c : Constants) (t : ℚ) (viewport : SkIRect) (scale : ℚ)
    (st : GLWebViewState) (hs : st.m_updateTime ≠ -1) (ht : st.m_updateTime ≤ t)
    (hscale : scale ≠ st.m_futureScale) :
    st.scheduleUpdate c t viewport scale =
      { st with
        m_updateTime := t + c.s_updateDelay
        m_futureScale := scale
        m_futureViewportTileBounds := viewport } := by
  simp [GLWebViewState.scheduleUpdate, hs, not_lt.mpr ht, Ne.symm hscale]

/-- A call at or after the scheduled time with the recorded scale takes the
branch of lines 195-199. -/
theorem scheduleUpdate_due_eq (c : Constants) (t : ℚ) (viewport : SkIRect)
    (st : GLWebViewState) (hs : st.m_updateTime ≠ -1) (ht : st.m_updateTime ≤ t) :
    st.scheduleUpdate c t viewport st.m_futureScale =
      { st with
        m_scaleRequestState := .kRequestNewScale
        m_updateTime := -1 } := by
  simp [GLWebViewState.scheduleUpdate, hs, not_lt.mpr ht]

/-- C1: `scheduleUpdate(t, viewport, scale)` called with no update scheduled
(`m_updateTime == -1`) enters `kWillScheduleRequest`, schedules the update for
`t + s_updateInitialDelay`, records `scale` and `viewport` as the future scale and
viewport, and leaves every other member as it was. -/
theorem scheduleUpdate_unscheduled (c : Constants) (t : ℚ) (viewport : SkIRect) (scale : ℚ)
    (st : GLWebViewState) (h : st.m_updateTime = -1) :
    st.scheduleUpdate c t viewport scale =
      { st with
        m_scaleRequestState := .kWillScheduleRequest
        m_updateTime := t + c.s_updateInitialDelay
        m_futureScale := scale
        m_futureViewportTileBounds := viewport } := by
  simp [GLWebViewState.scheduleUpdate, h]

theorem scheduleUpdate_unscheduled_witness :
    GLWebViewState.initial.m_updateTime = -1 ∧
    GLWebViewState.initial.scheduleUpdate sampleConstants 0 sampleBounds 2 =
      { GLWebViewState.initial with
        m_scaleRequestState := .kWillScheduleRequest
        m_updateTime := 0 + sampleConstants.s_updateInitialDelay
        m_futureScale := 2
        m_futureViewportTileBounds := sampleBounds } :=
  ⟨rfl, scheduleUpdate_unscheduled sampleConstants 0 sampleBounds 2 GLWebViewState.initial rfl⟩

/-- C2: with an update scheduled, a call `scheduleUpdate(t, viewport, scale)` made
before the scheduled time with the recorded future scale changes nothing (so the
update time, future scale, future viewport and scale-request state are unchanged),
and so does any sequence of such calls. -/
theorem scheduleUpdate_before_due_same_scale (c : Constants) (t : ℚ) (viewport : SkIRect)
    (scale : ℚ) (st : GLWebViewState) (hs : st.m_updateTime ≠ -1) (ht : t < st.m_updateTime)
    (_hscale : scale = st.m_futureScale) :
    st.scheduleUpdate c t viewport scale = st ∧
    ∀ times : List ℚ, (∀ u ∈ times, u < st.m_updateTime) →
      scheduleUpdates c times viewport scale st = st :=
  ⟨scheduleUpdate_early c t viewport scale st hs ht,
    fun times h => scheduleUpdates_early c viewport scale st hs times h⟩

theorem scheduleUpdate_before_due_same_scale_witness :
    scheduledState.m_updateTime ≠ -1 ∧ (1 / 10 : ℚ) < scheduledState.m_updateTime ∧
    (2 : ℚ) = scheduledState.m_futureScale ∧
    scheduledState.scheduleUpdate sampleConstants (1 / 10) sampleBounds 2 = scheduledState ∧
    ∀ times : List ℚ, (∀ u ∈ times, u < scheduledState.m_updateTime) →
      scheduleUpdates sampleConstants times sampleBounds 2 scheduledState = scheduledState :=
  have h1 : scheduledState.m_updateTime ≠ -1 := by rw [scheduledState_eq]; norm_num
  have h2 : (1 / 10 : ℚ) < scheduledState.m_updateTime := by rw [scheduledState_eq]; norm_num
  have h3 : (2 : ℚ) = scheduledState.m_futureScale := by rw [scheduledState_eq]
  ⟨h1, h2, h3,
    scheduleUpdate_before_due_same_scale sampleConstants (1 / 10) sampleBounds 2
      scheduledState h1 h2 h3⟩

/-- C3, as stated, fails: with an update scheduled for 3/10 and target 2, the call
`scheduleUpdate(1/10, sampleBounds, 3)` neither moves the scheduled time nor sets
the future scale to 3. -/
theorem scheduleUpdate_before_due_other_scale_unchanged :
    scheduledState.m_updateTime ≠ -1 ∧ (1 / 10 : ℚ) < scheduledState.m_updateTime ∧
    (3 : ℚ) ≠ scheduledState.m_futureScale ∧
    ¬ (scheduledState.m_updateTime <
          (scheduledState.scheduleUpdate sampleConstants (1 / 10) sampleBounds 3).m_updateTime ∧
        (scheduledState.scheduleUpdate sampleConstants (1 / 10) sampleBounds 3).m_futureScale
          = 3) := by
  rw [scheduledState_eq]
  norm_num [GLWebViewState.scheduleUpdate]

/-- C3, amended: with an update scheduled and a scale different from the recorded
future scale, a call before the scheduled time changes nothing; a call at or after
the scheduled time sets the future scale to `scale` and, when `s_updateDelay > 0`,
makes the scheduled time strictly later. -/
theorem scheduleUpdate_other_scale_pushed_when_due (c : Constants) (t : ℚ)
    (viewport : SkIRect) (scale : ℚ) (st : GLWebViewState) (hs : st.m_updateTime ≠ -1)
    (hscale : scale ≠ st.m_futureScale) :
    (t < st.m_updateTime → st.scheduleUpdate c t viewport scale = st) ∧
    (st.m_updateTime ≤ t →
      (st.scheduleUpdate c t viewport scale).m_futureScale = scale ∧
      (0 < c.s_updateDelay →
        st.m_updateTime < (st.scheduleUpdate c t viewport scale).m_updateTime)) := by
  refine ⟨fun ht => scheduleUpdate_early c t viewport scale st hs ht, fun ht => ?_⟩
  rw [scheduleUpdate_due_ne c t viewport scale st hs ht hscale]
  exact ⟨rfl, fun hd => by simp only; linarith⟩

theorem scheduleUpdate_other_scale_pushed_when_due_witness :
    scheduledState.m_updateTime ≠ -1 ∧ (3 : ℚ) ≠ scheduledState.m_futureScale ∧
    (((1 / 2 : ℚ) < scheduledState.m_updateTime →
      scheduledState.scheduleUpdate sampleConstants (1 / 2) sampleBounds 3 = scheduledState) ∧
    (scheduledState.m_updateTime ≤ 1 / 2 →
      (scheduledState.scheduleUpdate sampleConstants (1 / 2) sampleBounds 3).m_futureScale = 3 ∧
      (0 < sampleConstants.s_updateDelay →
        scheduledState.m_updateTime <
          (scheduledState.scheduleUpdate sampleConstants (1 / 2) sampleBounds 3).m_updateTime))) :=
  have h1 : scheduledState.m_updateTime ≠ -1 := by rw [scheduledState_eq]; norm_num
  have h2 : (3 : ℚ) ≠ scheduledState.m_futureScale := by rw [scheduledState_eq]; norm_num
  ⟨h1, h2,
    scheduleUpdate_other_scale_pushed_when_due sampleConstants (1 / 2) sampleBounds 3
      scheduledState h1 h2⟩

/-- C4: from a state with no update scheduled, `scheduleUpdate(t0, v, s)` followed
by any calls `scheduleUpdate(u, v, s)` with `u < t0 + s_updateInitialDelay` leaves
the state in `kWillScheduleRequest` with target `s`; a following call at any
`t >= t0 + s_updateInitialDelay` (the boundary included) enters `kRequestNewScale`,
clears the update time to `-1` and keeps the future scale `s`. The scheduled time
`t0 + s_updateInitialDelay` must not be the sentinel `-1` itself, as is the case
for every wall-clock time `t0 >= 0` and delay `>= 0`. -/
theorem scheduleUpdate_debounce_scenario (c : Constants) (t0 : ℚ) (v : SkIRect) (s : ℚ)
    (st : GLWebViewState) (times : List ℚ) (h0 : st.m_updateTime = -1)
    (hsentinel : t0 + c.s_updateInitialDelay ≠ -1)
    (htimes : ∀ u ∈ times, u < t0 + c.s_updateInitialDelay) :
    (scheduleUpdates c times v s (st.scheduleUpdate c t0 v s)).m_scaleRequestState
        = .kWillScheduleRequest ∧
    (scheduleUpdates c times v s (st.scheduleUpdate c t0 v s)).m_futureScale = s ∧
    ∀ t : ℚ, t0 + c.s_updateInitialDelay ≤ t →
      ((scheduleUpdates c times v s (st.scheduleUpdate c t0 v s)).scheduleUpdate c t v
          s).m_scaleRequestState = .kRequestNewScale ∧
      ((scheduleUpdates c times v s (st.scheduleUpdate c t0 v s)).scheduleUpdate c t v
          s).m_updateTime = -1 ∧
      ((scheduleUpdates c times v s (st.scheduleUpdate c t0 v s)).scheduleUpdate c t v
          s).m_futureScale = s := by
  have hfirst : st.scheduleUpdate c t0 v s =
      { st with
        m_scaleRequestState := .kWillScheduleRequest
        m_updateTime := t0 + c.s_updateInitialDelay
        m_futureScale := s
        m_futureViewportTileBounds := v } := by
    simp [GLWebViewState.scheduleUpdate, h0]
  have hkeep : scheduleUpdates c times v s (st.scheduleUpdate c t0 v s)
      = st.scheduleUpdate c t0 v s := by
    apply scheduleUpdates_early
    · rw [hfirst]; exact hsentinel
    · rw [hfirst]; exact htimes
  rw [hkeep]
  refine ⟨by rw [hfirst], by rw [hfirst], fun t ht => ?_⟩
  have hdue := scheduleUpdate_due_eq c t v (st.scheduleUpdate c t0 v s)
    (by rw [hfirst]; exact hsentinel) (by rw [hfirst]; exact ht)
  have hfs : (st.scheduleUpdate c t0 v s).m_futureScale = s := by rw [hfirst]
  rw [hfs] at hdue
  rw [hdue]
  exact ⟨rfl, rfl, rfl⟩

theorem scheduleUpdate_debounce_scenario_witness :
    GLWebViewState.initial.m_updateTime = -1 ∧
    (0 : ℚ) + sampleConstants.s_updateInitialDelay ≠ -1 ∧
    (∀ u ∈ [(1 / 20 : ℚ), 1 / 10], u < 0 + sampleConstants.s_updateInitialDelay) ∧
    (scheduleUpdates sampleConstants [1 / 20, 1 / 10] sampleBounds 2
      (GLWebViewState.initial.scheduleUpdate sampleConstants 0 sampleBounds
        2)).m_scaleRequestState = .kWillScheduleRequest ∧
    (scheduleUpdates sampleConstants [1 / 20, 1 / 10] sampleBounds 2
      (GLWebViewState.initial.scheduleUpdate sampleConstants 0 sampleBounds
        2)).m_futureScale = 2 ∧
    ∀ t : ℚ, 0 + sampleConstants.s_updateInitialDelay ≤ t →
      ((scheduleUpdates sampleConstants [1 / 20, 1 / 10] sampleBounds 2
        (GLWebViewState.initial.scheduleUpdate sampleConstants 0 sampleBounds
          2)).scheduleUpdate sampleConstants t sampleBounds 2).m_scaleRequestState
        = .kRequestNewScale ∧
      ((scheduleUpdates sampleConstants [1 / 20, 1 / 10] sampleBounds 2
        (GLWebViewState.initial.scheduleUpdate sampleConstants 0 sampleBounds
          2)).scheduleUpdate sampleConstants t sampleBounds 2).m_updateTime = -1 ∧
      ((scheduleUpdates sampleConstants [1 / 20, 1 / 10] sampleBounds 2
        (GLWebViewState.initial.scheduleUpdate sampleConstants 0 sampleBounds
          2)).scheduleUpdate sampleConstants t sampleBounds 2).m_futureScale = 2 :=
  have h1 : (0 : ℚ) + sampleConstants.s_updateInitialDelay ≠ -1 := by
    norm_num [sampleConstants]
  have h2 : ∀ u ∈ [(1 / 20 : ℚ), 1 / 10], u < 0 + sampleConstants.s_updateInitialDelay := by
    intro u hu
    simp only [List.mem_cons, List.mem_singleton, List.not_mem_nil, or_false] at hu
    rcases hu with rfl | rfl <;> norm_num [sampleConstants]
  ⟨rfl, h1, h2,
    scheduleUpdate_debounce_scenario sampleConstants 0 sampleBounds 2 GLWebViewState.initial
      [1 / 20, 1 / 10] rfl h1 h2⟩

/-- C5: with an update scheduled, a call `scheduleUpdate(t, viewport, scale)` at or
after the scheduled time with a scale different from the recorded one leaves the
scale-request state unchanged (it does not advance to `kRequestNewScale`), sets
the update time to `t + s_updateDelay` (strictly later than before when
`s_updateDelay > 0`) and records `scale` and `viewport`; nothing else changes. -/
theorem scheduleUpdate_due_other_scale (c : Constants) (t : ℚ) (viewport : SkIRect)
    (scale : ℚ) (st : GLWebViewState) (hs : st.m_updateTime ≠ -1) (ht : st.m_updateTime ≤ t)
    (hscale : scale ≠ st.m_futureScale) :
    (st.scheduleUpdate c t viewport scale).m_scaleRequestState = st.m_scaleRequestState ∧
    (st.scheduleUpdate c t viewport scale).m_updateTime = t + c.s_updateDelay ∧
    (0 < c.s_updateDelay →
      st.m_updateTime < (st.scheduleUpdate c t viewport scale).m_updateTime) ∧
    (st.scheduleUpdate c t viewport scale).m_futureScale = scale ∧
    (st.scheduleUpdate c t viewport scale).m_futureViewportTileBounds = viewport ∧
    st.scheduleUpdate c t viewport scale =
      { st with
        m_updateTime := t + c.s_updateDelay
        m_futureScale := scale
        m_futureViewportTileBounds := viewport } := by
  rw [scheduleUpdate_due_ne c t viewport scale st hs ht hscale]
  exact ⟨rfl, rfl, fun hd => by simp only; linarith, rfl, rfl, rfl⟩

theorem scheduleUpdate_due_other_scale_witness :
    scheduledState.m_updateTime ≠ -1 ∧ scheduledState.m_updateTime ≤ 1 / 2 ∧
    (3 : ℚ) ≠ scheduledState.m_futureScale ∧
    (scheduledState.scheduleUpdate sampleConstants (1 / 2) sampleBounds 3).m_scaleRequestState
      = scheduledState.m_scaleRequestState ∧
    (scheduledState.scheduleUpdate sampleConstants (1 / 2) sampleBounds 3).m_updateTime
      = 1 / 2 + sampleConstants.s_updateDelay ∧
    (0 < sampleConstants.s_updateDelay →
      scheduledState.m_updateTime <
        (scheduledState.scheduleUpdate sampleConstants (1 / 2) sampleBounds 3).m_updateTime) ∧
    (scheduledState.scheduleUpdate sampleConstants (1 / 2) sampleBounds 3).m_futureScale = 3 ∧
    (scheduledState.scheduleUpdate sampleConstants (1 / 2) sampleBounds
      3).m_futureViewportTileBounds = sampleBounds ∧
    scheduledState.scheduleUpdate sampleConstants (1 / 2) sampleBounds 3 =
      { scheduledState with
        m_updateTime := 1 / 2 + sampleConstants.s_updateDelay
        m_futureScale := 3
        m_futureViewportTileBounds := sampleBounds } :=
  have h1 : scheduledState.m_updateTime ≠ -1 := by rw [scheduledState_eq]; norm_num
  have h2 : scheduledState.m_updateTime ≤ 1 / 2 := by rw [scheduledState_eq]; norm_num
  have h3 : (3 : ℚ) ≠ scheduledState.m_futureScale := by rw [scheduledState_eq]; norm_num
  ⟨h1, h2, h3,
    scheduleUpdate_due_other_scale sampleConstants (1 / 2) sampleBounds 3 scheduledState
      h1 h2 h3⟩

/-! ## The scale-request cycle along frames -/

theorem frameSchedule_fst (c : Constants) (t scale : ℚ) (st : GLWebViewState) :
    (frameSchedule c t scale st).1 =
      if st.m_currentScale ≠ scale
          ∧ (st.m_scaleRequestState = .kNoScaleRequest
            ∨ st.m_scaleRequestState = .kWillScheduleRequest
            ∨ st.m_futureScale ≠ scale) then
        st.scheduleUpdate c t st.m_viewportTileBounds scale
      else st := by
  simp only [frameSchedule]
  split_ifs <;> rfl

theorem frameZooming_snd (st : GLWebViewState) :
    (frameZooming st).2 = decide (st.m_scaleRequestState ≠ .kNoScaleRequest) := by
  unfold frameZooming
  split_ifs with h <;> simp [h]

theorem frameReceive_state (r : Bool) (st : GLWebViewState) :
    (frameReceive r st).m_scaleRequestState =
      if st.m_scaleRequestState = .kRequestNewScale ∧ r = true then .kReceivedNewScale
      else st.m_scaleRequestState := by
  unfold frameReceive
  split_ifs <;> simp_all

theorem frameTransition_swap (c : Constants) (t scale : ℚ) (st : GLWebViewState)
    (h : (frameTransition c t scale st).2.2 = true) :
    st.m_scaleRequestState = .kReceivedNewScale := by
  unfold frameTransition at h
  split_ifs at h with h1 <;> simp_all

theorem frameDisplay_swap (inp : FrameInput) (d l z w : Bool) (tr : ℚ) (st : GLWebViewState)
    (h : (frameDisplay inp d l z w tr st).2 = true) : w = true ∨ z = false := by
  unfold frameDisplay at h
  split_ifs at h with h1 h2 <;> simp_all

theorem frameFinish_state (inp : FrameInput) (w : Bool) (scale : ℚ) (st : GLWebViewState) :
    (frameFinish inp w scale st).2.m_scaleRequestState =
      if w = true then .kNoScaleRequest else st.m_scaleRequestState := by
  unfold frameFinish
  split_ifs <;> rfl

theorem scheduleUpdate_idle (c : Constants) (t : ℚ) (viewport : SkIRect) (scale : ℚ)
    (st : GLWebViewState) (h : st.UpdateTimeIdle) :
    (st.scheduleUpdate c t viewport scale).UpdateTimeIdle := by
  unfold GLWebViewState.UpdateTimeIdle at h ⊢
  unfold GLWebViewState.scheduleUpdate
  split_ifs with h1 h2 h3
  · simp
  · exact h
  · simp
  · intro hs
    exact absurd (h hs) h1

/-- From `kWillScheduleRequest`, `scheduleUpdate` stays there or fires the request. -/
theorem scheduleUpdate_from_will (c : Constants) (t : ℚ) (viewport : SkIRect) (scale : ℚ)
    (st : GLWebViewState) (h : st.m_scaleRequestState = .kWillScheduleRequest) :
    (st.scheduleUpdate c t viewport scale).m_scaleRequestState = .kWillScheduleRequest ∨
    (st.scheduleUpdate c t viewport scale).m_scaleRequestState = .kRequestNewScale := by
  unfold GLWebViewState.scheduleUpdate
  split_ifs <;> simp [h]

/-- The state in which the frame leaves the state machine, in terms of the state
after the scheduling step (lines 143-164): nothing after that step writes the
update time, and the later steps only advance a fired request. -/
theorem frame_after_schedule (c : Constants) (inp : FrameInput) (layer : BaseLayerAndroid)
    (viewport : SkRect) (scale : ℚ) (st : GLWebViewState)
    (hc : layer.contentIsEmpty = false) (hg : layer.hasGLWebViewState = true)
    (S : GLWebViewState)
    (hS : S = (frameSchedule c inp.currentTime scale
      (framePreZoom scale (st.setViewport c viewport scale))).1) :
    (drawBasePictureInGL c inp layer viewport scale st).2.m_updateTime = S.m_updateTime ∧
    (S.m_scaleRequestState = .kNoScaleRequest →
      (drawBasePictureInGL c inp layer viewport scale st).2.m_scaleRequestState
        = .kNoScaleRequest) ∧
    (S.m_scaleRequestState = .kWillScheduleRequest →
      (drawBasePictureInGL c inp layer viewport scale st).2.m_scaleRequestState
        = .kWillScheduleRequest) ∧
    (S.m_scaleRequestState = .kRequestNewScale →
      (drawBasePictureInGL c inp layer viewport scale st).2.m_scaleRequestState
          = .kRequestNewScale ∨
      (drawBasePictureInGL c inp layer viewport scale st).2.m_scaleRequestState
          = .kReceivedNewScale ∨
      (drawBasePictureInGL c inp layer viewport scale st).2.m_scaleRequestState
          = .kNoScaleRequest) ∧
    (S.m_scaleRequestState = .kReceivedNewScale →
      (drawBasePictureInGL c inp layer viewport scale st).2.m_scaleRequestState
          = .kReceivedNewScale ∨
      (drawBasePictureInGL c inp layer viewport scale st).2.m_scaleRequestState
          = .kNoScaleRequest) := by
  simp only [drawBasePictureInGL, hc, hg, Bool.false_eq_true, if_false, Bool.not_true, ← hS]
  refine ⟨by simp, ?_⟩
  simp only [frameFinish_state, frameDisplay_state, frameTransition_state, frameReceive_state,
    framePrepare_state, frameZooming_state]
  split_ifs with hD hR
  · refine ⟨fun _ => rfl, fun hW => ?_, fun _ => Or.inr (Or.inr rfl), fun _ => Or.inr rfl⟩
    rcases frameDisplay_swap _ _ _ _ _ _ _ hD with hT | hZ
    · have := frameTransition_swap _ _ _ _ hT
      simp [frameReceive_state, hW] at this
    · simp [frameZooming_snd, hW] at hZ
  · refine ⟨fun h => ?_, fun h => ?_, fun _ => Or.inr (Or.inl rfl), fun h => ?_⟩
    · simp [h] at hR
    · simp [h] at hR
    · simp [h] at hR
  · exact ⟨id, id, Or.inl, Or.inl⟩

theorem idle_of_fields {a b : GLWebViewState}
    (hs : a.m_scaleRequestState = b.m_scaleRequestState) (hu : a.m_updateTime = b.m_updateTime)
    (h : b.UpdateTimeIdle) : a.UpdateTimeIdle := by
  unfold GLWebViewState.UpdateTimeIdle at h ⊢
  rw [hs, hu]
  exact h

theorem frameSchedule_idle (c : Constants) (t scale : ℚ) (st : GLWebViewState)
    (h : st.UpdateTimeIdle) : (frameSchedule c t scale st).1.UpdateTimeIdle := by
  rw [frameSchedule_fst]
  split_ifs
  · exact scheduleUpdate_idle c t _ scale st h
  · exact h

theorem drawBasePictureInGL_idle (c : Constants) (inp : FrameInput) (layer : BaseLayerAndroid)
    (viewport : SkRect) (scale : ℚ) (st : GLWebViewState) (h : st.UpdateTimeIdle) :
    (drawBasePictureInGL c inp layer viewport scale st).2.UpdateTimeIdle := by
  by_cases hc : layer.contentIsEmpty = true
  · simpa [drawBasePictureInGL, hc] using h
  by_cases hg : layer.hasGLWebViewState = true
  swap
  · simpa [drawBasePictureInGL, hc, hg] using h
  simp only [Bool.not_eq_true] at hc
  obtain ⟨hu, -, hW, -, -⟩ := frame_after_schedule c inp layer viewport scale st hc hg _ rfl
  have hS := frameSchedule_idle c inp.currentTime scale
    (framePreZoom scale (st.setViewport c viewport scale))
    (idle_of_fields (by simp) (by simp) h)
  intro hne
  rw [hu]
  exact hS (fun hSW => hne (hW hSW))

theorem clientOp_run_idle (c : Constants) (op : ClientOp) (st : GLWebViewState)
    (h : st.UpdateTimeIdle) : (op.run c st).UpdateTimeIdle := by
  cases op with
  | frame inp layer viewport scale => exact drawBasePictureInGL_idle c inp layer viewport scale st h
  | inval rect => exact idle_of_fields (by simp [ClientOp.run]) (by simp [ClientOp.run]) h
  | setBaseLayer layer rect b =>
    exact idle_of_fields (by simp [ClientOp.run]) (by simp [ClientOp.run]) h
  | setExtra layer rect b =>
    exact idle_of_fields (by simp [ClientOp.run]) (by simp [ClientOp.run]) h
  | unlockBaseLayerUpdate =>
    exact idle_of_fields (by simp [ClientOp.run]) (by simp [ClientOp.run]) h

theorem runOps_idle (c : Constants) (ops : List ClientOp) (st : GLWebViewState)
    (h : st.UpdateTimeIdle) : (runOps c ops st).UpdateTimeIdle := by
  induction ops generalizing st with
  | nil => exact h
  | cons op ops ih => exact ih (op.run c st) (clientOp_run_idle c op st h)

theorem reachable_idle {c : Constants} {st : GLWebViewState} (h : Reachable c st) :
    st.UpdateTimeIdle := by
  obtain ⟨ops, rfl⟩ := h
  exact runOps_idle c ops _ (fun _ => rfl)

theorem cycleForward_self (s : ScaleRequestState) : cycleForward s s = true := by
  cases s <;> rfl

/-- In `kRequestNewScale` or `kReceivedNewScale` with no update time recorded, the
scheduling step reschedules exactly when the frame scale differs from both the
current and the future scale, and otherwise leaves the state. -/
theorem frameSchedule_fired (c : Constants) (t scale : ℚ) (st : GLWebViewState)
    (hs : st.m_scaleRequestState = .kRequestNewScale
      ∨ st.m_scaleRequestState = .kReceivedNewScale)
    (hu : st.m_updateTime = -1) :
    (frameSchedule c t scale st).1.m_scaleRequestState =
      if st.m_currentScale ≠ scale ∧ st.m_futureScale ≠ scale then .kWillScheduleRequest
      else st.m_scaleRequestState := by
  rw [frameSchedule_fst]
  rcases hs with hs | hs <;> simp [hs, GLWebViewState.scheduleUpdate, hu, apply_ite]

theorem frameSchedule_none (c : Constants) (t scale : ℚ) (st : GLWebViewState)
    (hs : st.m_scaleRequestState = .kNoScaleRequest) (hu : st.m_updateTime = -1) :
    (frameSchedule c t scale st).1.m_scaleRequestState =
      if st.m_currentScale ≠ scale then .kWillScheduleRequest
      else .kNoScaleRequest := by
  rw [frameSchedule_fst]
  simp [hs, GLWebViewState.scheduleUpdate, hu, apply_ite]

/-- C6, amended: in a state reached from the constructor by client operations, one
frame of `drawBasePictureInGL` either leaves the scale-request state, or moves it
forward along `kNoScaleRequest -> kWillScheduleRequest -> kRequestNewScale ->
kReceivedNewScale -> kNoScaleRequest` (from `kNoScaleRequest` by one arrow, from the
others by one or more arrows, not beyond `kNoScaleRequest`), or takes it from
`kRequestNewScale` or `kReceivedNewScale` back to `kWillScheduleRequest`; the last
happens only in a frame whose scale differs from both the current scale and the
recorded future scale, and it happens in every such frame that is composited. -/
theorem frame_scale_state_transitions (c : Constants) (st : GLWebViewState)
    (hreach : Reachable c st) (inp : FrameInput) (layer : BaseLayerAndroid)
    (viewport : SkRect) (scale : ℚ) :
    (cycleForward st.m_scaleRequestState
        (drawBasePictureInGL c inp layer viewport scale st).2.m_scaleRequestState = true ∨
      ((st.m_scaleRequestState = .kRequestNewScale
          ∨ st.m_scaleRequestState = .kReceivedNewScale) ∧
        (drawBasePictureInGL c inp layer viewport scale st).2.m_scaleRequestState
          = .kWillScheduleRequest ∧
        scale ≠ st.m_currentScale ∧ scale ≠ st.m_futureScale)) ∧
    (layer.contentIsEmpty = false → layer.hasGLWebViewState = true →
      (st.m_scaleRequestState = .kRequestNewScale
        ∨ st.m_scaleRequestState = .kReceivedNewScale) →
      scale ≠ st.m_currentScale → scale ≠ st.m_futureScale →
      (drawBasePictureInGL c inp layer viewport scale st).2.m_scaleRequestState
        = .kWillScheduleRequest) := by
  have hidle := reachable_idle hreach
  by_cases hc : layer.contentIsEmpty = true
  · simp [drawBasePictureInGL, hc, cycleForward_self]
  by_cases hg : layer.hasGLWebViewState = true
  swap
  · simp [drawBasePictureInGL, hc, hg, cycleForward_self]
  simp only [Bool.not_eq_true] at hc
  obtain ⟨-, hN, hW, hR, hV⟩ := frame_after_schedule c inp layer viewport scale st hc hg _ rfl
  have hfired : (st.m_scaleRequestState = .kRequestNewScale
        ∨ st.m_scaleRequestState = .kReceivedNewScale) →
      (frameSchedule c inp.currentTime scale
        (framePreZoom scale (st.setViewport c viewport scale))).1.m_scaleRequestState =
      if st.m_currentScale ≠ scale ∧ st.m_futureScale ≠ scale then .kWillScheduleRequest
      else st.m_scaleRequestState := by
    intro hs
    have hu : st.m_updateTime = -1 := hidle (by rcases hs with h | h <;> simp [h])
    have := frameSchedule_fired c inp.currentTime scale
      (framePreZoom scale (st.setViewport c viewport scale)) (by simpa using hs) (by simpa using hu)
    simpa using this
  refine ⟨?_, fun _ _ hs h1 h2 => ?_⟩
  · rcases hst : st.m_scaleRequestState with _ | _ | _ | _
    · left
      have hu : st.m_updateTime = -1 := hidle (by simp [hst])
      have := frameSchedule_none c inp.currentTime scale
        (framePreZoom scale (st.setViewport c viewport scale)) (by simpa using hst)
        (by simpa using hu)
      simp only [framePreZoom_currentScale, setViewport_currentScale] at this
      split_ifs at this with h
      · rw [hW this]; rfl
      · rw [hN this]; rfl
    · left; rfl
    · have := hfired (Or.inl hst)
      split_ifs at this with h
      · right
        exact ⟨Or.inl rfl, hW this, Ne.symm h.1, Ne.symm h.2⟩
      · left
        rw [hst] at this
        rcases hR this with h | h | h <;> rw [h] <;> rfl
    · have := hfired (Or.inr hst)
      split_ifs at this with h
      · right
        exact ⟨Or.inr rfl, hW this, Ne.symm h.1, Ne.symm h.2⟩
      · left
        rw [hst] at this
        rcases hV this with h | h <;> rw [h] <;> rfl
  · have := hfired hs
    rw [if_pos ⟨Ne.symm h1, Ne.symm h2⟩] at this
    exact hW this

theorem frame_scale_state_transitions_witness :
    Reachable sampleConstants firedState ∧
    ((cycleForward firedState.m_scaleRequestState
        (drawBasePictureInGL sampleConstants (waitingFrame 2) sampleLayer sampleViewport 3
          firedState).2.m_scaleRequestState = true ∨
      ((firedState.m_scaleRequestState = .kRequestNewScale
          ∨ firedState.m_scaleRequestState = .kReceivedNewScale) ∧
        (drawBasePictureInGL sampleConstants (waitingFrame 2) sampleLayer sampleViewport 3
          firedState).2.m_scaleRequestState = .kWillScheduleRequest ∧
        (3 : ℚ) ≠ firedState.m_currentScale ∧ (3 : ℚ) ≠ firedState.m_futureScale)) ∧
    (sampleLayer.contentIsEmpty = false → sampleLayer.hasGLWebViewState = true →
      (firedState.m_scaleRequestState = .kRequestNewScale
        ∨ firedState.m_scaleRequestState = .kReceivedNewScale) →
      (3 : ℚ) ≠ firedState.m_currentScale → (3 : ℚ) ≠ firedState.m_futureScale →
      (drawBasePictureInGL sampleConstants (waitingFrame 2) sampleLayer sampleViewport 3
        firedState).2.m_scaleRequestState = .kWillScheduleRequest)) :=
  ⟨⟨zoomOps, rfl⟩,
    frame_scale_state_transitions sampleConstants firedState ⟨zoomOps, rfl⟩ (waitingFrame 2)
      sampleLayer sampleViewport 3⟩

theorem frameDisplay_snd (inp : FrameInput) (d l z w : Bool) (tr : ℚ) (st : GLWebViewState) :
    (frameDisplay inp d l z w tr st).2 =
      if (!w && !z && !inp.moving) = true then (if inp.backReadyPre = true then true else w)
      else w := by
  simp only [frameDisplay]
  split_ifs <;> rfl

theorem frameTransition_snd (c : Constants) (t scale : ℚ) (st : GLWebViewState)
    (h : st.m_scaleRequestState ≠ .kReceivedNewScale) :
    (frameTransition c t scale st).2.2 = false := by
  simp [frameTransition, h]

theorem frameFinish_currentScale (inp : FrameInput) (w : Bool) (scale : ℚ)
    (st : GLWebViewState) :
    (frameFinish inp w scale st).2.m_currentScale =
      if w = true then scale else st.m_currentScale := by
  simp only [frameFinish]
  split_ifs <;> rfl

/-- A frame in which the back page reports not ready, and which is not in the
crossfade after the scheduling step, ends in the state the scheduling step left. -/
theorem frame_back_not_ready (c : Constants) (inp : FrameInput) (layer : BaseLayerAndroid)
    (viewport : SkRect) (scale : ℚ) (st : GLWebViewState)
    (hc : layer.contentIsEmpty = false) (hg : layer.hasGLWebViewState = true)
    (hf : inp.backReadyFuture = false) (hp : inp.backReadyPre = false)
    (S : GLWebViewState)
    (hS : S = (frameSchedule c inp.currentTime scale
      (framePreZoom scale (st.setViewport c viewport scale))).1)
    (hr : S.m_scaleRequestState ≠ .kReceivedNewScale) :
    (drawBasePictureInGL c inp layer viewport scale st).2.m_scaleRequestState
      = S.m_scaleRequestState ∧
    (drawBasePictureInGL c inp layer viewport scale st).2.m_updateTime = S.m_updateTime ∧
    (drawBasePictureInGL c inp layer viewport scale st).2.m_currentScale = st.m_currentScale ∧
    (drawBasePictureInGL c inp layer viewport scale st).2.m_futureScale = S.m_futureScale := by
  simp only [drawBasePictureInGL, hc, hg, Bool.false_eq_true, if_false, Bool.not_true, ← hS]
  simp only [frameFinish_state, frameFinish_currentScale, frameFinish_updateTime,
    frameFinish_futureScale, frameDisplay_snd, frameDisplay_state, frameDisplay_updateTime,
    frameDisplay_currentScale, frameDisplay_futureScale, frameTransition_state,
    frameTransition_updateTime, frameTransition_currentScale, frameTransition_futureScale,
    frameReceive_state, frameReceive_updateTime, frameReceive_currentScale,
    frameReceive_futureScale, framePrepare_state, framePrepare_updateTime,
    framePrepare_currentScale, framePrepare_futureScale, frameZooming_state,
    frameZooming_updateTime, frameZooming_currentScale, frameZooming_futureScale, hp, hf]
  rw [frameTransition_snd]
  · simp [hS]
  · simp [frameReceive_state, hf, hr]

theorem frame_zoom_first :
    (drawBasePictureInGL sampleConstants (waitingFrame 0) sampleLayer sampleViewport 2
        GLWebViewState.initial).2.m_scaleRequestState = .kWillScheduleRequest ∧
    (drawBasePictureInGL sampleConstants (waitingFrame 0) sampleLayer sampleViewport 2
        GLWebViewState.initial).2.m_updateTime = 3 / 10 ∧
    (drawBasePictureInGL sampleConstants (waitingFrame 0) sampleLayer sampleViewport 2
        GLWebViewState.initial).2.m_currentScale = 1 ∧
    (drawBasePictureInGL sampleConstants (waitingFrame 0) sampleLayer sampleViewport 2
        GLWebViewState.initial).2.m_futureScale = 2 := by
  have h := frame_back_not_ready sampleConstants (waitingFrame 0) sampleLayer sampleViewport 2
    GLWebViewState.initial rfl rfl rfl rfl _ rfl
  have hS : (frameSchedule sampleConstants (waitingFrame 0).currentTime 2
      (framePreZoom 2 (GLWebViewState.initial.setViewport sampleConstants sampleViewport 2))).1
      = { framePreZoom 2 (GLWebViewState.initial.setViewport sampleConstants sampleViewport 2)
          with
          m_scaleRequestState := .kWillScheduleRequest
          m_updateTime := 3 / 10
          m_futureScale := 2
          m_futureViewportTileBounds :=
            (framePreZoom 2 (GLWebViewState.initial.setViewport sampleConstants sampleViewport
              2)).m_viewportTileBounds } := by
    rw [frameSchedule_fst]
    norm_num [GLWebViewState.scheduleUpdate, GLWebViewState.initial, sampleConstants,
      waitingFrame]
  rw [hS] at h
  simpa [GLWebViewState.initial] using h (by simp)

theorem frame_zoom_second (st : GLWebViewState)
    (hs : st.m_scaleRequestState = .kWillScheduleRequest) (hu : st.m_updateTime = 3 / 10)
    (hcs : st.m_currentScale = 1) (hfs : st.m_futureScale = 2) :
    (drawBasePictureInGL sampleConstants (waitingFrame 1) sampleLayer sampleViewport 2
        st).2.m_scaleRequestState = .kRequestNewScale ∧
    (drawBasePictureInGL sampleConstants (waitingFrame 1) sampleLayer sampleViewport 2
        st).2.m_updateTime = -1 ∧
    (drawBasePictureInGL sampleConstants (waitingFrame 1) sampleLayer sampleViewport 2
        st).2.m_currentScale = 1 ∧
    (drawBasePictureInGL sampleConstants (waitingFrame 1) sampleLayer sampleViewport 2
        st).2.m_futureScale = 2 := by
  have h := frame_back_not_ready sampleConstants (waitingFrame 1) sampleLayer sampleViewport 2
    st rfl rfl rfl rfl _ rfl
  have hS : (frameSchedule sampleConstants (waitingFrame 1).currentTime 2
      (framePreZoom 2 (st.setViewport sampleConstants sampleViewport 2))).1
      = { framePreZoom 2 (st.setViewport sampleConstants sampleViewport 2) with
          m_scaleRequestState := .kRequestNewScale
          m_updateTime := -1 } := by
    rw [frameSchedule_fst]
    norm_num [GLWebViewState.scheduleUpdate, hs, hu, hcs, hfs, waitingFrame]
  rw [hS] at h
  simpa [hcs, hfs] using h (by simp)

theorem frame_zoom_third (st : GLWebViewState)
    (hs : st.m_scaleRequestState = .kRequestNewScale) (hu : st.m_updateTime = -1)
    (hcs : st.m_currentScale = 1) (hfs : st.m_futureScale = 2) :
    (drawBasePictureInGL sampleConstants (waitingFrame 2) sampleLayer sampleViewport 3
        st).2.m_scaleRequestState = .kWillScheduleRequest := by
  have h := frame_back_not_ready sampleConstants (waitingFrame 2) sampleLayer sampleViewport 3
    st rfl rfl rfl rfl _ rfl
  have hS : (frameSchedule sampleConstants (waitingFrame 2).currentTime 3
      (framePreZoom 3 (st.setViewport sampleConstants sampleViewport 3))).1.m_scaleRequestState
      = .kWillScheduleRequest := by
    rw [frameSchedule_fst]
    norm_num [GLWebViewState.scheduleUpdate, hs, hu, hcs, hfs, waitingFrame]
  rw [hS] at h
  exact (h (by simp)).1

theorem firedState_fields :
    firedState.m_scaleRequestState = .kRequestNewScale ∧ firedState.m_updateTime = -1 ∧
    firedState.m_currentScale = 1 ∧ firedState.m_futureScale = 2 := by
  obtain ⟨h1, h2, h3, h4⟩ := frame_zoom_first
  exact frame_zoom_second _ h1 h2 h3 h4

/-- C6, as stated, fails: after two frames at scale 2 (times 0 and 1) the state is
`kRequestNewScale`, and a third frame at scale 3 leaves it in
`kWillScheduleRequest`. -/
theorem frame_fired_request_rescheduled :
    Reachable sampleConstants firedState ∧
    firedState.m_scaleRequestState = .kRequestNewScale ∧
    (drawBasePictureInGL sampleConstants (waitingFrame 2) sampleLayer sampleViewport 3
      firedState).2.m_scaleRequestState = .kWillScheduleRequest := by
  obtain ⟨h1, h2, h3, h4⟩ := firedState_fields
  exact ⟨⟨zoomOps, rfl⟩, h1, frame_zoom_third _ h1 h2 h3 h4⟩

/-! ## The crossfade ramp -/

/-- With a window open, `zoomInTransitionTime` returns it and writes nothing. -/
theorem zoomInTransparency_open (c : Constants) (t : ℚ) (st : GLWebViewState)
    (hT : st.m_transitionTime ≠ -1) :
    st.zoomInTransparency c t =
      (min 1 (max 0 ((st.m_transitionTime - t) * c.s_invZoomInTransitionDelay)), st) := by
  simp [GLWebViewState.zoomInTransparency, GLWebViewState.zoomInTransitionTime, hT]

theorem zoomOutTransparency_open (c : Constants) (t : ℚ) (st : GLWebViewState)
    (hT : st.m_transitionTime ≠ -1) :
    st.zoomOutTransparency c t =
      (min 1 (max 0 ((st.m_transitionTime - t) * c.s_invZoomOutTransitionDelay)), st) := by
  simp [GLWebViewState.zoomOutTransparency, GLWebViewState.zoomOutTransitionTime, hT]

/-- The clamp `fmin(1, fmax(0, x))` is monotone and lands in `[0, 1]`. -/
theorem clamp_mono {x y : ℚ} (h : x ≤ y) : min 1 (max 0 x) ≤ min 1 (max 0 y) :=
  min_le_min le_rfl (max_le_max le_rfl h)

theorem clamp_nonneg (x : ℚ) : 0 ≤ min 1 (max 0 x) :=
  le_min zero_le_one (le_max_left 0 x)

theorem clamp_le_one (x : ℚ) : min 1 (max 0 x) ≤ 1 :=
  min_le_left 1 _

theorem clamp_inside {x : ℚ} (h0 : 0 ≤ x) (h1 : x ≤ 1) : min 1 (max 0 x) = x := by
  rw [max_eq_right h0, min_eq_right h1]

/-- Inside the window `[T - delay, T]` the scaled remaining time is in `[0, 1]`. -/
theorem ramp_inside {T t d inv : ℚ} (hd : 0 < d) (hinv : inv = 1 / d) (hlo : T - d ≤ t)
    (hhi : t ≤ T) : 0 ≤ (T - t) * inv ∧ (T - t) * inv ≤ 1 := by
  subst hinv
  have h1 : 0 ≤ T - t := by linarith
  have h2 : T - t ≤ d := by linarith
  refine ⟨mul_nonneg h1 (by positivity), ?_⟩
  rw [mul_one_div, div_le_one hd]
  exact h2

/-- C7: with no transition open (`m_transitionTime == -1`), and the inverse
delays being the reciprocals of the positive transition delays, both
`zoomInTransparency(t)` and `zoomOutTransparency(t)` return exactly 1 and open the
window by setting the transition time to `t` plus the corresponding delay. -/
theorem transparency_at_window_open (c : Constants) (t : ℚ) (st : GLWebViewState)
    (hT : st.m_transitionTime = -1)
    (hin : 0 < c.s_zoomInTransitionDelay)
    (hinvIn : c.s_invZoomInTransitionDelay = 1 / c.s_zoomInTransitionDelay)
    (hout : 0 < c.s_zoomOutTransitionDelay)
    (hinvOut : c.s_invZoomOutTransitionDelay = 1 / c.s_zoomOutTransitionDelay) :
    st.zoomInTransparency c t =
      (1, { st with m_transitionTime := t + c.s_zoomInTransitionDelay }) ∧
    st.zoomOutTransparency c t =
      (1, { st with m_transitionTime := t + c.s_zoomOutTransitionDelay }) := by
  constructor
  · simp [GLWebViewState.zoomInTransparency, GLWebViewState.zoomInTransitionTime, hT, hinvIn,
      hin.ne.symm]
  · simp [GLWebViewState.zoomOutTransparency, GLWebViewState.zoomOutTransitionTime, hT,
      hinvOut, hout.ne.symm]

theorem transparency_at_window_open_witness :
    GLWebViewState.initial.m_transitionTime = -1 ∧
    0 < sampleConstants.s_zoomInTransitionDelay ∧
    sampleConstants.s_invZoomInTransitionDelay = 1 / sampleConstants.s_zoomInTransitionDelay ∧
    0 < sampleConstants.s_zoomOutTransitionDelay ∧
    sampleConstants.s_invZoomOutTransitionDelay
      = 1 / sampleConstants.s_zoomOutTransitionDelay ∧
    GLWebViewState.initial.zoomInTransparency sampleConstants 7 =
      (1, { GLWebViewState.initial with
            m_transitionTime := 7 + sampleConstants.s_zoomInTransitionDelay }) ∧
    GLWebViewState.initial.zoomOutTransparency sampleConstants 7 =
      (1, { GLWebViewState.initial with
            m_transitionTime := 7 + sampleConstants.s_zoomOutTransitionDelay }) :=
  have h1 : 0 < sampleConstants.s_zoomInTransitionDelay := by norm_num [sampleConstants]
  have h2 : sampleConstants.s_invZoomInTransitionDelay
      = 1 / sampleConstants.s_zoomInTransitionDelay := by norm_num [sampleConstants]
  have h3 : 0 < sampleConstants.s_zoomOutTransitionDelay := by norm_num [sampleConstants]
  have h4 : sampleConstants.s_invZoomOutTransitionDelay
      = 1 / sampleConstants.s_zoomOutTransitionDelay := by norm_num [sampleConstants]
  ⟨rfl, h1, h2, h3, h4,
    transparency_at_window_open sampleConstants 7 GLWebViewState.initial rfl h1 h2 h3 h4⟩

/-- C8: with a transition window open (`m_transitionTime = T`, `T != -1`), both
`zoomInTransparency(t)` and `zoomOutTransparency(t)` return exactly 0 for every
`t >= T` and leave the state (so `T`) unchanged; the inverse delays are
non-negative, as reciprocals of positive delays are. -/
theorem transparency_after_window_close (c : Constants) (t : ℚ) (st : GLWebViewState)
    (hT : st.m_transitionTime ≠ -1) (ht : st.m_transitionTime ≤ t)
    (hinvIn : 0 ≤ c.s_invZoomInTransitionDelay)
    (hinvOut : 0 ≤ c.s_invZoomOutTransitionDelay) :
    st.zoomInTransparency c t = (0, st) ∧ st.zoomOutTransparency c t = (0, st) := by
  have hneg : st.m_transitionTime - t ≤ 0 := by linarith
  rw [zoomInTransparency_open c t st hT, zoomOutTransparency_open c t st hT,
    max_eq_left (mul_nonpos_of_nonpos_of_nonneg hneg hinvIn),
    max_eq_left (mul_nonpos_of_nonpos_of_nonneg hneg hinvOut), min_eq_right zero_le_one]
  exact ⟨rfl, rfl⟩

theorem transparency_after_window_close_witness :
    transitionState.m_transitionTime ≠ -1 ∧ transitionState.m_transitionTime ≤ 1 ∧
    0 ≤ sampleConstants.s_invZoomInTransitionDelay ∧
    0 ≤ sampleConstants.s_invZoomOutTransitionDelay ∧
    transitionState.zoomInTransparency sampleConstants 1 = (0, transitionState) ∧
    transitionState.zoomOutTransparency sampleConstants 1 = (0, transitionState) :=
  have h1 : transitionState.m_transitionTime ≠ -1 := by norm_num [transitionState]
  have h2 : transitionState.m_transitionTime ≤ 1 := by norm_num [transitionState]
  have h3 : 0 ≤ sampleConstants.s_invZoomInTransitionDelay := by norm_num [sampleConstants]
  have h4 : 0 ≤ sampleConstants.s_invZoomOutTransitionDelay := by norm_num [sampleConstants]
  ⟨h1, h2, h3, h4,
    transparency_after_window_close sampleConstants 1 transitionState h1 h2 h3 h4⟩

/-- C9: with a transition window open at `T` (`T != -1`) and the inverse delays the
reciprocals of the positive delays, neither ramp call changes the state, and for
`t1 <= t2` the zoom-in ramp satisfies `ramp(t2) <= ramp(t1)` with both values in
`[0, 1]`; likewise the zoom-out ramp. For `t` inside the window
(`T - delay <= t <= T`) the value is `(T - t)` times the inverse delay. -/
theorem transparency_ramp (c : Constants) (t1 t2 : ℚ) (st : GLWebViewState)
    (hT : st.m_transitionTime ≠ -1) (h12 : t1 ≤ t2)
    (hin : 0 < c.s_zoomInTransitionDelay)
    (hinvIn : c.s_invZoomInTransitionDelay = 1 / c.s_zoomInTransitionDelay)
    (hout : 0 < c.s_zoomOutTransitionDelay)
    (hinvOut : c.s_invZoomOutTransitionDelay = 1 / c.s_zoomOutTransitionDelay) :
    ((st.zoomInTransparency c t1).2 = st ∧ (st.zoomInTransparency c t2).2 = st ∧
      (st.zoomInTransparency c t2).1 ≤ (st.zoomInTransparency c t1).1 ∧
      0 ≤ (st.zoomInTransparency c t1).1 ∧ (st.zoomInTransparency c t1).1 ≤ 1 ∧
      0 ≤ (st.zoomInTransparency c t2).1 ∧ (st.zoomInTransparency c t2).1 ≤ 1 ∧
      (st.m_transitionTime - c.s_zoomInTransitionDelay ≤ t1 → t1 ≤ st.m_transitionTime →
        (st.zoomInTransparency c t1).1
          = (st.m_transitionTime - t1) * c.s_invZoomInTransitionDelay)) ∧
    ((st.zoomOutTransparency c t1).2 = st ∧ (st.zoomOutTransparency c t2).2 = st ∧
      (st.zoomOutTransparency c t2).1 ≤ (st.zoomOutTransparency c t1).1 ∧
      0 ≤ (st.zoomOutTransparency c t1).1 ∧ (st.zoomOutTransparency c t1).1 ≤ 1 ∧
      0 ≤ (st.zoomOutTransparency c t2).1 ∧ (st.zoomOutTransparency c t2).1 ≤ 1 ∧
      (st.m_transitionTime - c.s_zoomOutTransitionDelay ≤ t1 → t1 ≤ st.m_transitionTime →
        (st.zoomOutTransparency c t1).1
          = (st.m_transitionTime - t1) * c.s_invZoomOutTransitionDelay)) := by
  have hsub : st.m_transitionTime - t2 ≤ st.m_transitionTime - t1 := by linarith
  have hposIn : 0 ≤ c.s_invZoomInTransitionDelay := by rw [hinvIn]; positivity
  have hposOut : 0 ≤ c.s_invZoomOutTransitionDelay := by rw [hinvOut]; positivity
  simp only [zoomInTransparency_open c _ st hT, zoomOutTransparency_open c _ st hT]
  refine ⟨⟨trivial, trivial, clamp_mono (mul_le_mul_of_nonneg_right hsub hposIn),
      clamp_nonneg _, clamp_le_one _, clamp_nonneg _, clamp_le_one _, fun hlo hhi => ?_⟩,
    ⟨trivial, trivial, clamp_mono (mul_le_mul_of_nonneg_right hsub hposOut),
      clamp_nonneg _, clamp_le_one _, clamp_nonneg _, clamp_le_one _, fun hlo hhi => ?_⟩⟩
  · obtain ⟨h0, h1⟩ := ramp_inside hin hinvIn hlo hhi
    exact clamp_inside h0 h1
  · obtain ⟨h0, h1⟩ := ramp_inside hout hinvOut hlo hhi
    exact clamp_inside h0 h1

theorem transparency_ramp_witness :
    transitionState.m_transitionTime ≠ -1 ∧ (19 / 20 : ℚ) ≤ 39 / 40 ∧
    0 < sampleConstants.s_zoomInTransitionDelay ∧
    sampleConstants.s_invZoomInTransitionDelay = 1 / sampleConstants.s_zoomInTransitionDelay ∧
    0 < sampleConstants.s_zoomOutTransitionDelay ∧
    sampleConstants.s_invZoomOutTransitionDelay
      = 1 / sampleConstants.s_zoomOutTransitionDelay ∧
    (((transitionState.zoomInTransparency sampleConstants (19 / 20)).2 = transitionState ∧
      (transitionState.zoomInTransparency sampleConstants (39 / 40)).2 = transitionState ∧
      (transitionState.zoomInTransparency sampleConstants (39 / 40)).1
        ≤ (transitionState.zoomInTransparency sampleConstants (19 / 20)).1 ∧
      0 ≤ (transitionState.zoomInTransparency sampleConstants (19 / 20)).1 ∧
      (transitionState.zoomInTransparency sampleConstants (19 / 20)).1 ≤ 1 ∧
      0 ≤ (transitionState.zoomInTransparency sampleConstants (39 / 40)).1 ∧
      (transitionState.zoomInTransparency sampleConstants (39 / 40)).1 ≤ 1 ∧
      (transitionState.m_transitionTime - sampleConstants.s_zoomInTransitionDelay ≤ 19 / 20 →
        19 / 20 ≤ transitionState.m_transitionTime →
        (transitionState.zoomInTransparency sampleConstants (19 / 20)).1
          = (transitionState.m_transitionTime - 19 / 20)
              * sampleConstants.s_invZoomInTransitionDelay)) ∧
    ((transitionState.zoomOutTransparency sampleConstants (19 / 20)).2 = transitionState ∧
      (transitionState.zoomOutTransparency sampleConstants (39 / 40)).2 = transitionState ∧
      (transitionState.zoomOutTransparency sampleConstants (39 / 40)).1
        ≤ (transitionState.zoomOutTransparency sampleConstants (19 / 20)).1 ∧
      0 ≤ (transitionState.zoomOutTransparency sampleConstants (19 / 20)).1 ∧
      (transitionState.zoomOutTransparency sampleConstants (19 / 20)).1 ≤ 1 ∧
      0 ≤ (transitionState.zoomOutTransparency sampleConstants (39 / 40)).1 ∧
      (transitionState.zoomOutTransparency sampleConstants (39 / 40)).1 ≤ 1 ∧
      (transitionState.m_transitionTime - sampleConstants.s_zoomOutTransitionDelay ≤ 19 / 20 →
        19 / 20 ≤ transitionState.m_transitionTime →
        (transitionState.zoomOutTransparency sampleConstants (19 / 20)).1
          = (transitionState.m_transitionTime - 19 / 20)
              * sampleConstants.s_invZoomOutTransitionDelay))) :=
  have h0 : transitionState.m_transitionTime ≠ -1 := by norm_num [transitionState]
  have h12 : (19 / 20 : ℚ) ≤ 39 / 40 := by norm_num
  have h1 : 0 < sampleConstants.s_zoomInTransitionDelay := by norm_num [sampleConstants]
  have h2 : sampleConstants.s_invZoomInTransitionDelay
      = 1 / sampleConstants.s_zoomInTransitionDelay := by norm_num [sampleConstants]
  have h3 : 0 < sampleConstants.s_zoomOutTransitionDelay := by norm_num [sampleConstants]
  have h4 : sampleConstants.s_invZoomOutTransitionDelay
      = 1 / sampleConstants.s_zoomOutTransitionDelay := by norm_num [sampleConstants]
  ⟨h0, h12, h1, h2, h3, h4,
    transparency_ramp sampleConstants (19 / 20) (39 / 40) transitionState h0 h12 h1 h2 h3 h4⟩

/-! ## The two tiled pages -/

@[simp] theorem drawBasePictureInGL_pageA (c : Constants) (inp : FrameInput)
    (layer : BaseLayerAndroid) (viewport : SkRect) (scale : ℚ) (st : GLWebViewState) :
    (drawBasePictureInGL c inp layer viewport scale st).2.m_tiledPageA = st.m_tiledPageA := by
  simp only [drawBasePictureInGL]
  split_ifs <;> simp

@[simp] theorem drawBasePictureInGL_pageB (c : Constants) (inp : FrameInput)
    (layer : BaseLayerAndroid) (viewport : SkRect) (scale : ℚ) (st : GLWebViewState) :
    (drawBasePictureInGL c inp layer viewport scale st).2.m_tiledPageB = st.m_tiledPageB := by
  simp only [drawBasePictureInGL]
  split_ifs <;> simp

theorem method_run_pageA (c : Constants) (m : Method) (st : GLWebViewState) :
    (m.run c st).m_tiledPageA = st.m_tiledPageA := by
  rcases m with op | _ | _ | _ | _ | _ | _ | _
  · cases op <;> simp [Method.run, ClientOp.run]
  all_goals simp [Method.run]

theorem method_run_pageB (c : Constants) (m : Method) (st : GLWebViewState) :
    (m.run c st).m_tiledPageB = st.m_tiledPageB := by
  rcases m with op | _ | _ | _ | _ | _ | _ | _
  · cases op <;> simp [Method.run, ClientOp.run]
  all_goals simp [Method.run]

/-- No member function reassigns `m_tiledPageA` or `m_tiledPageB`. -/
theorem runMethods_pages (c : Constants) (ms : List Method) (st : GLWebViewState) :
    (runMethods c ms st).m_tiledPageA = st.m_tiledPageA ∧
    (runMethods c ms st).m_tiledPageB = st.m_tiledPageB := by
  induction ms generalizing st with
  | nil => exact ⟨rfl, rfl⟩
  | cons m ms ih =>
    obtain ⟨hA, hB⟩ := ih (m.run c st)
    exact ⟨hA.trans (method_run_pageA c m st), hB.trans (method_run_pageB c m st)⟩

/-- C10: the constructor makes page A (id 1) the front page and page B (id 2) the
back page; after any sequence of member-function calls the front and back pages
are distinct, are exactly those two pages, and `sibling(frontPage())` is
`backPage()`; `swapPages()` exchanges the two roles and sets the state to
`kNoScaleRequest`, and two consecutive `swapPages()` calls restore the roles. -/
theorem page_roles (c : Constants) (ms : List Method) :
    GLWebViewState.initial.frontPage = FIRST_TILED_PAGE_ID ∧
    GLWebViewState.initial.backPage = SECOND_TILED_PAGE_ID ∧
    (runMethods c ms GLWebViewState.initial).frontPage
      ≠ (runMethods c ms GLWebViewState.initial).backPage ∧
    (((runMethods c ms GLWebViewState.initial).frontPage = FIRST_TILED_PAGE_ID ∧
        (runMethods c ms GLWebViewState.initial).backPage = SECOND_TILED_PAGE_ID) ∨
      ((runMethods c ms GLWebViewState.initial).frontPage = SECOND_TILED_PAGE_ID ∧
        (runMethods c ms GLWebViewState.initial).backPage = FIRST_TILED_PAGE_ID)) ∧
    (runMethods c ms GLWebViewState.initial).sibling
        (runMethods c ms GLWebViewState.initial).frontPage
      = (runMethods c ms GLWebViewState.initial).backPage ∧
    (runMethods c ms GLWebViewState.initial).swapPages.frontPage
      = (runMethods c ms GLWebViewState.initial).backPage ∧
    (runMethods c ms GLWebViewState.initial).swapPages.backPage
      = (runMethods c ms GLWebViewState.initial).frontPage ∧
    (runMethods c ms GLWebViewState.initial).swapPages.m_scaleRequestState
      = .kNoScaleRequest ∧
    (runMethods c ms GLWebViewState.initial).swapPages.swapPages.frontPage
      = (runMethods c ms GLWebViewState.initial).frontPage ∧
    (runMethods c ms GLWebViewState.initial).swapPages.swapPages.backPage
      = (runMethods c ms GLWebViewState.initial).backPage := by
  obtain ⟨hA, hB⟩ := runMethods_pages c ms GLWebViewState.initial
  have hA1 : (runMethods c ms GLWebViewState.initial).m_tiledPageA = 1 := hA
  have hB2 : (runMethods c ms GLWebViewState.initial).m_tiledPageB = 2 := hB
  refine ⟨rfl, rfl, ?_⟩
  cases hU : (runMethods c ms GLWebViewState.initial).m_usePageA <;>
    simp [GLWebViewState.frontPage, GLWebViewState.backPage, GLWebViewState.sibling,
      GLWebViewState.swapPages, GLWebViewState.record, hU, hA1, hB2, FIRST_TILED_PAGE_ID,
      SECOND_TILED_PAGE_ID]

/-! ## More members left unchanged by each operation -/

@[simp] theorem drawsOf_nil : drawsOf [] = [] := rfl

@[simp] theorem drawsOf_append (a b : List Call) : drawsOf (a ++ b) = drawsOf a ++ drawsOf b := by
  simp [drawsOf]

@[simp] theorem preparesOf_nil : preparesOf [] = [] := rfl

@[simp] theorem preparesOf_append (a b : List Call) :
    preparesOf (a ++ b) = preparesOf a ++ preparesOf b := by
  simp [preparesOf]

@[simp] theorem drawsOf_cons (k : Call) (l : List Call) :
    drawsOf (k :: l) = (match k with
      | .draw page transparency bounds => [(page, transparency, bounds)]
      | _ => []) ++ drawsOf l := by
  cases k <;> rfl

@[simp] theorem preparesOf_cons (k : Call) (l : List Call) :
    preparesOf (k :: l) = (match k with
      | .setScale _ _ => [k]
      | .prepare _ _ _ _ => [k]
      | _ => []) ++ preparesOf l := by
  cases k <;> rfl

@[simp] theorem record_calls (st : GLWebViewState) (k : Call) :
    (st.record k).m_calls = st.m_calls ++ [k] := rfl

@[simp] theorem record_usePageA (st : GLWebViewState) (k : Call) :
    (st.record k).m_usePageA = st.m_usePageA := by
  rfl

@[simp] theorem record_transitionTime (st : GLWebViewState) (k : Call) :
    (st.record k).m_transitionTime = st.m_transitionTime := by
  rfl

@[simp] theorem record_gPrevTime (st : GLWebViewState) (k : Call) :
    (st.record k).gPrevTime = st.gPrevTime := by
  rfl

@[simp] theorem record_preZoomBounds (st : GLWebViewState) (k : Call) :
    (st.record k).m_preZoomBounds = st.m_preZoomBounds := by
  rfl

@[simp] theorem record_viewportTileBounds (st : GLWebViewState) (k : Call) :
    (st.record k).m_viewportTileBounds = st.m_viewportTileBounds := by
  rfl

@[simp] theorem record_baseLayerUpdate (st : GLWebViewState) (k : Call) :
    (st.record k).m_baseLayerUpdate = st.m_baseLayerUpdate := by
  rfl

@[simp] theorem inval_usePageA (rect : IntRect) (st : GLWebViewState) :
    (st.inval rect).m_usePageA = st.m_usePageA := by
  simp [GLWebViewState.inval, apply_ite GLWebViewState.m_usePageA]

@[simp] theorem inval_transitionTime (rect : IntRect) (st : GLWebViewState) :
    (st.inval rect).m_transitionTime = st.m_transitionTime := by
  simp [GLWebViewState.inval, apply_ite GLWebViewState.m_transitionTime]

@[simp] theorem inval_gPrevTime (rect : IntRect) (st : GLWebViewState) :
    (st.inval rect).gPrevTime = st.gPrevTime := by
  simp [GLWebViewState.inval, apply_ite GLWebViewState.gPrevTime]

@[simp] theorem inval_preZoomBounds (rect : IntRect) (st : GLWebViewState) :
    (st.inval rect).m_preZoomBounds = st.m_preZoomBounds := by
  simp [GLWebViewState.inval, apply_ite GLWebViewState.m_preZoomBounds]

@[simp] theorem inval_viewportTileBounds (rect : IntRect) (st : GLWebViewState) :
    (st.inval rect).m_viewportTileBounds = st.m_viewportTileBounds := by
  simp [GLWebViewState.inval, apply_ite GLWebViewState.m_viewportTileBounds]

@[simp] theorem inval_baseLayerUpdate (rect : IntRect) (st : GLWebViewState) :
    (st.inval rect).m_baseLayerUpdate = st.m_baseLayerUpdate := by
  simp [GLWebViewState.inval, apply_ite GLWebViewState.m_baseLayerUpdate]

@[simp] theorem inval_draws (rect : IntRect) (st : GLWebViewState) :
    drawsOf (st.inval rect).m_calls = drawsOf st.m_calls := by
  simp [GLWebViewState.inval, apply_ite GLWebViewState.m_calls, apply_ite drawsOf]

@[simp] theorem inval_prepares (rect : IntRect) (st : GLWebViewState) :
    preparesOf (st.inval rect).m_calls = preparesOf st.m_calls := by
  simp [GLWebViewState.inval, apply_ite GLWebViewState.m_calls, apply_ite preparesOf]

@[simp] theorem unlockBaseLayerUpdate_usePageA (st : GLWebViewState) :
    (st.unlockBaseLayerUpdate).m_usePageA = st.m_usePageA := by
  simp [GLWebViewState.unlockBaseLayerUpdate, GLWebViewState.inval, apply_ite GLWebViewState.m_usePageA]

@[simp] theorem unlockBaseLayerUpdate_transitionTime (st : GLWebViewState) :
    (st.unlockBaseLayerUpdate).m_transitionTime = st.m_transitionTime := by
  simp [GLWebViewState.unlockBaseLayerUpdate, GLWebViewState.inval, apply_ite GLWebViewState.m_transitionTime]

@[simp] theorem unlockBaseLayerUpdate_gPrevTime (st : GLWebViewState) :
    (st.unlockBaseLayerUpdate).gPrevTime = st.gPrevTime := by
  simp [GLWebViewState.unlockBaseLayerUpdate, GLWebViewState.inval, apply_ite GLWebViewState.gPrevTime]

@[simp] theorem unlockBaseLayerUpdate_preZoomBounds (st : GLWebViewState) :
    (st.unlockBaseLayerUpdate).m_preZoomBounds = st.m_preZoomBounds := by
  simp [GLWebViewState.unlockBaseLayerUpdate, GLWebViewState.inval, apply_ite GLWebViewState.m_preZoomBounds]

@[simp] theorem unlockBaseLayerUpdate_viewportTileBounds (st : GLWebViewState) :
    (st.unlockBaseLayerUpdate).m_viewportTileBounds = st.m_viewportTileBounds := by
  simp [GLWebViewState.unlockBaseLayerUpdate, GLWebViewState.inval, apply_ite GLWebViewState.m_viewportTileBounds]

@[simp] theorem unlockBaseLayerUpdate_draws (st : GLWebViewState) :
    drawsOf (st.unlockBaseLayerUpdate).m_calls = drawsOf st.m_calls := by
  simp [GLWebViewState.unlockBaseLayerUpdate, GLWebViewState.inval, apply_ite GLWebViewState.m_calls, apply_ite drawsOf]

@[simp] theorem unlockBaseLayerUpdate_prepares (st : GLWebViewState) :
    preparesOf (st.unlockBaseLayerUpdate).m_calls = preparesOf st.m_calls := by
  simp [GLWebViewState.unlockBaseLayerUpdate, GLWebViewState.inval, apply_ite GLWebViewState.m_calls, apply_ite preparesOf]

@[simp] theorem lockBaseLayerUpdate_usePageA (st : GLWebViewState) :
    (st.lockBaseLayerUpdate).m_usePageA = st.m_usePageA := by
  rfl

@[simp] theorem lockBaseLayerUpdate_transitionTime (st : GLWebViewState) :
    (st.lockBaseLayerUpdate).m_transitionTime = st.m_transitionTime := by
  rfl

@[simp] theorem lockBaseLayerUpdate_gPrevTime (st : GLWebViewState) :
    (st.lockBaseLayerUpdate).gPrevTime = st.gPrevTime := by
  rfl

@[simp] theorem lockBaseLayerUpdate_preZoomBounds (st : GLWebViewState) :
    (st.lockBaseLayerUpdate).m_preZoomBounds = st.m_preZoomBounds := by
  rfl

@[simp] theorem lockBaseLayerUpdate_viewportTileBounds (st : GLWebViewState) :
    (st.lockBaseLayerUpdate).m_viewportTileBounds = st.m_viewportTileBounds := by
  rfl

@[simp] theorem lockBaseLayerUpdate_draws (st : GLWebViewState) :
    drawsOf (st.lockBaseLayerUpdate).m_calls = drawsOf st.m_calls := by
  rfl

@[simp] theorem lockBaseLayerUpdate_prepares (st : GLWebViewState) :
    preparesOf (st.lockBaseLayerUpdate).m_calls = preparesOf st.m_calls := by
  rfl

@[simp] theorem setBaseLayer_usePageA (layer : LayerPtr) (rect : IntRect) (b : Bool) (st : GLWebViewState) :
    (st.setBaseLayer layer rect b).m_usePageA = st.m_usePageA := by
  rcases layer with _ | l <;> rcases h : st.m_baseLayer with _ | o <;>
    simp [GLWebViewState.setBaseLayer, h, apply_ite GLWebViewState.m_usePageA]

@[simp] theorem setBaseLayer_transitionTime (layer : LayerPtr) (rect : IntRect) (b : Bool) (st : GLWebViewState) :
    (st.setBaseLayer layer rect b).m_transitionTime = st.m_transitionTime := by
  rcases layer with _ | l <;> rcases h : st.m_baseLayer with _ | o <;>
    simp [GLWebViewState.setBaseLayer, h, apply_ite GLWebViewState.m_transitionTime]

@[simp] theorem setBaseLayer_gPrevTime (layer : LayerPtr) (rect : IntRect) (b : Bool) (st : GLWebViewState) :
    (st.setBaseLayer layer rect b).gPrevTime = st.gPrevTime := by
  rcases layer with _ | l <;> rcases h : st.m_baseLayer with _ | o <;>
    simp [GLWebViewState.setBaseLayer, h, apply_ite GLWebViewState.gPrevTime]

@[simp] theorem setBaseLayer_preZoomBounds (layer : LayerPtr) (rect : IntRect) (b : Bool) (st : GLWebViewState) :
    (st.setBaseLayer layer rect b).m_preZoomBounds = st.m_preZoomBounds := by
  rcases layer with _ | l <;> rcases h : st.m_baseLayer with _ | o <;>
    simp [GLWebViewState.setBaseLayer, h, apply_ite GLWebViewState.m_preZoomBounds]

@[simp] theorem setBaseLayer_viewportTileBounds (layer : LayerPtr) (rect : IntRect) (b : Bool) (st : GLWebViewState) :
    (st.setBaseLayer layer rect b).m_viewportTileBounds = st.m_viewportTileBounds := by
  rcases layer with _ | l <;> rcases h : st.m_baseLayer with _ | o <;>
    simp [GLWebViewState.setBaseLayer, h, apply_ite GLWebViewState.m_viewportTileBounds]

@[simp] theorem setBaseLayer_baseLayerUpdate (layer : LayerPtr) (rect : IntRect) (b : Bool) (st : GLWebViewState) :
    (st.setBaseLayer layer rect b).m_baseLayerUpdate = st.m_baseLayerUpdate := by
  rcases layer with _ | l <;> rcases h : st.m_baseLayer with _ | o <;>
    simp [GLWebViewState.setBaseLayer, h, apply_ite GLWebViewState.m_baseLayerUpdate]

@[simp] theorem setBaseLayer_draws (layer : LayerPtr) (rect : IntRect) (b : Bool) (st : GLWebViewState) :
    drawsOf (st.setBaseLayer layer rect b).m_calls = drawsOf st.m_calls := by
  rcases layer with _ | l <;> rcases h : st.m_baseLayer with _ | o <;>
    simp [GLWebViewState.setBaseLayer, h, apply_ite GLWebViewState.m_calls, apply_ite drawsOf]

@[simp] theorem setBaseLayer_prepares (layer : LayerPtr) (rect : IntRect) (b : Bool) (st : GLWebViewState) :
    preparesOf (st.setBaseLayer layer rect b).m_calls = preparesOf st.m_calls := by
  rcases layer with _ | l <;> rcases h : st.m_baseLayer with _ | o <;>
    simp [GLWebViewState.setBaseLayer, h, apply_ite GLWebViewState.m_calls, apply_ite preparesOf]

@[simp] theorem setExtra_usePageA (layer : Nat) (rect : IntRect) (b : Bool) (st : GLWebViewState) :
    (st.setExtra layer rect b).m_usePageA = st.m_usePageA := by
  simp [GLWebViewState.setExtra, apply_ite GLWebViewState.m_usePageA]

@[simp] theorem setExtra_transitionTime (layer : Nat) (rect : IntRect) (b : Bool) (st : GLWebViewState) :
    (st.setExtra layer rect b).m_transitionTime = st.m_transitionTime := by
  simp [GLWebViewState.setExtra, apply_ite GLWebViewState.m_transitionTime]

@[simp] theorem setExtra_gPrevTime (layer : Nat) (rect : IntRect) (b : Bool) (st : GLWebViewState) :
    (st.setExtra layer rect b).gPrevTime = st.gPrevTime := by
  simp [GLWebViewState.setExtra, apply_ite GLWebViewState.gPrevTime]

@[simp] theorem setExtra_preZoomBounds (layer : Nat) (rect : IntRect) (b : Bool) (st : GLWebViewState) :
    (st.setExtra layer rect b).m_preZoomBounds = st.m_preZoomBounds := by
  simp [GLWebViewState.setExtra, apply_ite GLWebViewState.m_preZoomBounds]

@[simp] theorem setExtra_viewportTileBounds (layer : Nat) (rect : IntRect) (b : Bool) (st : GLWebViewState) :
    (st.setExtra layer rect b).m_viewportTileBounds = st.m_viewportTileBounds := by
  simp [GLWebViewState.setExtra, apply_ite GLWebViewState.m_viewportTileBounds]

@[simp] theorem setExtra_baseLayerUpdate (layer : Nat) (rect : IntRect) (b : Bool) (st : GLWebViewState) :
    (st.setExtra layer rect b).m_baseLayerUpdate = st.m_baseLayerUpdate := by
  simp [GLWebViewState.setExtra, apply_ite GLWebViewState.m_baseLayerUpdate]

@[simp] theorem setExtra_draws (layer : Nat) (rect : IntRect) (b : Bool) (st : GLWebViewState) :
    drawsOf (st.setExtra layer rect b).m_calls = drawsOf st.m_calls := by
  simp [GLWebViewState.setExtra, apply_ite GLWebViewState.m_calls, apply_ite drawsOf]

@[simp] theorem setExtra_prepares (layer : Nat) (rect : IntRect) (b : Bool) (st : GLWebViewState) :
    preparesOf (st.setExtra layer rect b).m_calls = preparesOf st.m_calls := by
  simp [GLWebViewState.setExtra, apply_ite GLWebViewState.m_calls, apply_ite preparesOf]

@[simp] theorem setViewport_usePageA (c : Constants) (viewport : SkRect) (scale : ℚ) (st : GLWebViewState) :
    (st.setViewport c viewport scale).m_usePageA = st.m_usePageA := by
  simp [GLWebViewState.setViewport, apply_ite GLWebViewState.m_usePageA]

@[simp] theorem setViewport_transitionTime (c : Constants) (viewport : SkRect) (scale : ℚ) (st : GLWebViewState) :
    (st.setViewport c viewport scale).m_transitionTime = st.m_transitionTime := by
  simp [GLWebViewState.setViewport, apply_ite GLWebViewState.m_transitionTime]

@[simp] theorem setViewport_gPrevTime (c : Constants) (viewport : SkRect) (scale : ℚ) (st : GLWebViewState) :
    (st.setViewport c viewport scale).gPrevTime = st.gPrevTime := by
  simp [GLWebViewState.setViewport, apply_ite GLWebViewState.gPrevTime]

@[simp] theorem setViewport_preZoomBounds (c : Constants) (viewport : SkRect) (scale : ℚ) (st : GLWebViewState) :
    (st.setViewport c viewport scale).m_preZoomBounds = st.m_preZoomBounds := by
  simp [GLWebViewState.setViewport, apply_ite GLWebViewState.m_preZoomBounds]

@[simp] theorem setViewport_baseLayerUpdate (c : Constants) (viewport : SkRect) (scale : ℚ) (st : GLWebViewState) :
    (st.setViewport c viewport scale).m_baseLayerUpdate = st.m_baseLayerUpdate := by
  simp [GLWebViewState.setViewport, apply_ite GLWebViewState.m_baseLayerUpdate]

@[simp] theorem setViewport_draws (c : Constants) (viewport : SkRect) (scale : ℚ) (st : GLWebViewState) :
    drawsOf (st.setViewport c viewport scale).m_calls = drawsOf st.m_calls := by
  simp [GLWebViewState.setViewport, apply_ite GLWebViewState.m_calls, apply_ite drawsOf]

@[simp] theorem setViewport_prepares (c : Constants) (viewport : SkRect) (scale : ℚ) (st : GLWebViewState) :
    preparesOf (st.setViewport c viewport scale).m_calls = preparesOf st.m_calls := by
  simp [GLWebViewState.setViewport, apply_ite GLWebViewState.m_calls, apply_ite preparesOf]

@[simp] theorem resetTransitionTime_usePageA (st : GLWebViewState) :
    (st.resetTransitionTime).m_usePageA = st.m_usePageA := by
  rfl

@[simp] theorem resetTransitionTime_gPrevTime (st : GLWebViewState) :
    (st.resetTransitionTime).gPrevTime = st.gPrevTime := by
  rfl

@[simp] theorem resetTransitionTime_preZoomBounds (st : GLWebViewState) :
    (st.resetTransitionTime).m_preZoomBounds = st.m_preZoomBounds := by
  rfl

@[simp] theorem resetTransitionTime_viewportTileBounds (st : GLWebViewState) :
    (st.resetTransitionTime).m_viewportTileBounds = st.m_viewportTileBounds := by
  rfl

@[simp] theorem resetTransitionTime_baseLayerUpdate (st : GLWebViewState) :
    (st.resetTransitionTime).m_baseLayerUpdate = st.m_baseLayerUpdate := by
  rfl

@[simp] theorem resetTransitionTime_draws (st : GLWebViewState) :
    drawsOf (st.resetTransitionTime).m_calls = drawsOf st.m_calls := by
  rfl

@[simp] theorem resetTransitionTime_prepares (st : GLWebViewState) :
    preparesOf (st.resetTransitionTime).m_calls = preparesOf st.m_calls := by
  rfl

@[simp] theorem zoomInTransitionTime_usePageA (c : Constants) (t : ℚ) (st : GLWebViewState) :
    ((st.zoomInTransitionTime c t).2).m_usePageA = st.m_usePageA := by
  simp [GLWebViewState.zoomInTransitionTime, apply_ite GLWebViewState.m_usePageA]

@[simp] theorem zoomInTransitionTime_gPrevTime (c : Constants) (t : ℚ) (st : GLWebViewState) :
    ((st.zoomInTransitionTime c t).2).gPrevTime = st.gPrevTime := by
  simp [GLWebViewState.zoomInTransitionTime, apply_ite GLWebViewState.gPrevTime]

@[simp] theorem zoomInTransitionTime_preZoomBounds (c : Constants) (t : ℚ) (st : GLWebViewState) :
    ((st.zoomInTransitionTime c t).2).m_preZoomBounds = st.m_preZoomBounds := by
  simp [GLWebViewState.zoomInTransitionTime, apply_ite GLWebViewState.m_preZoomBounds]

@[simp] theorem zoomInTransitionTime_viewportTileBounds (c : Constants) (t : ℚ) (st : GLWebViewState) :
    ((st.zoomInTransitionTime c t).2).m_viewportTileBounds = st.m_viewportTileBounds := by
  simp [GLWebViewState.zoomInTransitionTime, apply_ite GLWebViewState.m_viewportTileBounds]

@[simp] theorem zoomInTransitionTime_baseLayerUpdate (c : Constants) (t : ℚ) (st : GLWebViewState) :
    ((st.zoomInTransitionTime c t).2).m_baseLayerUpdate = st.m_baseLayerUpdate := by
  simp [GLWebViewState.zoomInTransitionTime, apply_ite GLWebViewState.m_baseLayerUpdate]

@[simp] theorem zoomInTransitionTime_draws (c : Constants) (t : ℚ) (st : GLWebViewState) :
    drawsOf ((st.zoomInTransitionTime c t).2).m_calls = drawsOf st.m_calls := by
  simp [GLWebViewState.zoomInTransitionTime, apply_ite GLWebViewState.m_calls, apply_ite drawsOf]

@[simp] theorem zoomInTransitionTime_prepares (c : Constants) (t : ℚ) (st : GLWebViewState) :
    preparesOf ((st.zoomInTransitionTime c t).2).m_calls = preparesOf st.m_calls := by
  simp [GLWebViewState.zoomInTransitionTime, apply_ite GLWebViewState.m_calls, apply_ite preparesOf]

@[simp] theorem zoomOutTransitionTime_usePageA (c : Constants) (t : ℚ) (st : GLWebViewState) :
    ((st.zoomOutTransitionTime c t).2).m_usePageA = st.m_usePageA := by
  simp [GLWebViewState.zoomOutTransitionTime, apply_ite GLWebViewState.m_usePageA]

@[simp] theorem zoomOutTransitionTime_gPrevTime (c : Constants) (t : ℚ) (st : GLWebViewState) :
    ((st.zoomOutTransitionTime c t).2).gPrevTime = st.gPrevTime := by
  simp [GLWebViewState.zoomOutTransitionTime, apply_ite GLWebViewState.gPrevTime]

@[simp] theorem zoomOutTransitionTime_preZoomBounds (c : Constants) (t : ℚ) (st : GLWebViewState) :
    ((st.zoomOutTransitionTime c t).2).m_preZoomBounds = st.m_preZoomBounds := by
  simp [GLWebViewState.zoomOutTransitionTime, apply_ite GLWebViewState.m_preZoomBounds]

@[simp] theorem zoomOutTransitionTime_viewportTileBounds (c : Constants) (t : ℚ) (st : GLWebViewState) :
    ((st.zoomOutTransitionTime c t).2).m_viewportTileBounds = st.m_viewportTileBounds := by
  simp [GLWebViewState.zoomOutTransitionTime, apply_ite GLWebViewState.m_viewportTileBounds]

@[simp] theorem zoomOutTransitionTime_baseLayerUpdate (c : Constants) (t : ℚ) (st : GLWebViewState) :
    ((st.zoomOutTransitionTime c t).2).m_baseLayerUpdate = st.m_baseLayerUpdate := by
  simp [GLWebViewState.zoomOutTransitionTime, apply_ite GLWebViewState.m_baseLayerUpdate]

@[simp] theorem zoomOutTransitionTime_draws (c : Constants) (t : ℚ) (st : GLWebViewState) :
    drawsOf ((st.zoomOutTransitionTime c t).2).m_calls = drawsOf st.m_calls := by
  simp [GLWebViewState.zoomOutTransitionTime, apply_ite GLWebViewState.m_calls, apply_ite drawsOf]

@[simp] theorem zoomOutTransitionTime_prepares (c : Constants) (t : ℚ) (st : GLWebViewState) :
    preparesOf ((st.zoomOutTransitionTime c t).2).m_calls = preparesOf st.m_calls := by
  simp [GLWebViewState.zoomOutTransitionTime, apply_ite GLWebViewState.m_calls, apply_ite preparesOf]

@[simp] theorem zoomInTransparency_usePageA (c : Constants) (t : ℚ) (st : GLWebViewState) :
    ((st.zoomInTransparency c t).2).m_usePageA = st.m_usePageA := by
  simp [GLWebViewState.zoomInTransparency]

@[simp] theorem zoomInTransparency_gPrevTime (c : Constants) (t : ℚ) (st : GLWebViewState) :
    ((st.zoomInTransparency c t).2).gPrevTime = st.gPrevTime := by
  simp [GLWebViewState.zoomInTransparency]

@[simp] theorem zoomInTransparency_preZoomBounds (c : Constants) (t : ℚ) (st : GLWebViewState) :
    ((st.zoomInTransparency c t).2).m_preZoomBounds = st.m_preZoomBounds := by
  simp [GLWebViewState.zoomInTransparency]

@[simp] theorem zoomInTransparency_viewportTileBounds (c : Constants) (t : ℚ) (st : GLWebViewState) :
    ((st.zoomInTransparency c t).2).m_viewportTileBounds = st.m_viewportTileBounds := by
  simp [GLWebViewState.zoomInTransparency]

@[simp] theorem zoomInTransparency_baseLayerUpdate (c : Constants) (t : ℚ) (st : GLWebViewState) :
    ((st.zoomInTransparency c t).2).m_baseLayerUpdate = st.m_baseLayerUpdate := by
  simp [GLWebViewState.zoomInTransparency]

@[simp] theorem zoomInTransparency_draws (c : Constants) (t : ℚ) (st : GLWebViewState) :
    drawsOf ((st.zoomInTransparency c t).2).m_calls = drawsOf st.m_calls := by
  simp [GLWebViewState.zoomInTransparency]

@[simp] theorem zoomInTransparency_prepares (c : Constants) (t : ℚ) (st : GLWebViewState) :
    preparesOf ((st.zoomInTransparency c t).2).m_calls = preparesOf st.m_calls := by
  simp [GLWebViewState.zoomInTransparency]

@[simp] theorem zoomOutTransparency_usePageA (c : Constants) (t : ℚ) (st : GLWebViewState) :
    ((st.zoomOutTransparency c t).2).m_usePageA = st.m_usePageA := by
  simp [GLWebViewState.zoomOutTransparency]

@[simp] theorem zoomOutTransparency_gPrevTime (c : Constants) (t : ℚ) (st : GLWebViewState) :
    ((st.zoomOutTransparency c t).2).gPrevTime = st.gPrevTime := by
  simp [GLWebViewState.zoomOutTransparency]

@[simp] theorem zoomOutTransparency_preZoomBounds (c : Constants) (t : ℚ) (st : GLWebViewState) :
    ((st.zoomOutTransparency c t).2).m_preZoomBounds = st.m_preZoomBounds := by
  simp [GLWebViewState.zoomOutTransparency]

@[simp] theorem zoomOutTransparency_viewportTileBounds (c : Constants) (t : ℚ) (st : GLWebViewState) :
    ((st.zoomOutTransparency c t).2).m_viewportTileBounds = st.m_viewportTileBounds := by
  simp [GLWebViewState.zoomOutTransparency]

@[simp] theorem zoomOutTransparency_baseLayerUpdate (c : Constants) (t : ℚ) (st : GLWebViewState) :
    ((st.zoomOutTransparency c t).2).m_baseLayerUpdate = st.m_baseLayerUpdate := by
  simp [GLWebViewState.zoomOutTransparency]

@[simp] theorem zoomOutTransparency_draws (c : Constants) (t : ℚ) (st : GLWebViewState) :
    drawsOf ((st.zoomOutTransparency c t).2).m_calls = drawsOf st.m_calls := by
  simp [GLWebViewState.zoomOutTransparency]

@[simp] theorem zoomOutTransparency_prepares (c : Constants) (t : ℚ) (st : GLWebViewState) :
    preparesOf ((st.zoomOutTransparency c t).2).m_calls = preparesOf st.m_calls := by
  simp [GLWebViewState.zoomOutTransparency]

@[simp] theorem scheduleUpdate_usePageA (c : Constants) (t : ℚ) (viewport : SkIRect) (scale : ℚ) (st : GLWebViewState) :
    (st.scheduleUpdate c t viewport scale).m_usePageA = st.m_usePageA := by
  simp [GLWebViewState.scheduleUpdate, apply_ite GLWebViewState.m_usePageA]

@[simp] theorem scheduleUpdate_transitionTime (c : Constants) (t : ℚ) (viewport : SkIRect) (scale : ℚ) (st : GLWebViewState) :
    (st.scheduleUpdate c t viewport scale).m_transitionTime = st.m_transitionTime := by
  simp [GLWebViewState.scheduleUpdate, apply_ite GLWebViewState.m_transitionTime]

@[simp] theorem scheduleUpdate_gPrevTime (c : Constants) (t : ℚ) (viewport : SkIRect) (scale : ℚ) (st : GLWebViewState) :
    (st.scheduleUpdate c t viewport scale).gPrevTime = st.gPrevTime := by
  simp [GLWebViewState.scheduleUpdate, apply_ite GLWebViewState.gPrevTime]

@[simp] theorem scheduleUpdate_preZoomBounds (c : Constants) (t : ℚ) (viewport : SkIRect) (scale : ℚ) (st : GLWebViewState) :
    (st.scheduleUpdate c t viewport scale).m_preZoomBounds = st.m_preZoomBounds := by
  simp [GLWebViewState.scheduleUpdate, apply_ite GLWebViewState.m_preZoomBounds]

@[simp] theorem scheduleUpdate_viewportTileBounds (c : Constants) (t : ℚ) (viewport : SkIRect) (scale : ℚ) (st : GLWebViewState) :
    (st.scheduleUpdate c t viewport scale).m_viewportTileBounds = st.m_viewportTileBounds := by
  simp [GLWebViewState.scheduleUpdate, apply_ite GLWebViewState.m_viewportTileBounds]

@[simp] theorem scheduleUpdate_baseLayerUpdate (c : Constants) (t : ℚ) (viewport : SkIRect) (scale : ℚ) (st : GLWebViewState) :
    (st.scheduleUpdate c t viewport scale).m_baseLayerUpdate = st.m_baseLayerUpdate := by
  simp [GLWebViewState.scheduleUpdate, apply_ite GLWebViewState.m_baseLayerUpdate]

@[simp] theorem scheduleUpdate_draws (c : Constants) (t : ℚ) (viewport : SkIRect) (scale : ℚ) (st : GLWebViewState) :
    drawsOf (st.scheduleUpdate c t viewport scale).m_calls = drawsOf st.m_calls := by
  simp [GLWebViewState.scheduleUpdate, apply_ite GLWebViewState.m_calls, apply_ite drawsOf]

@[simp] theorem scheduleUpdate_prepares (c : Constants) (t : ℚ) (viewport : SkIRect) (scale : ℚ) (st : GLWebViewState) :
    preparesOf (st.scheduleUpdate c t viewport scale).m_calls = preparesOf st.m_calls := by
  simp [GLWebViewState.scheduleUpdate, apply_ite GLWebViewState.m_calls, apply_ite preparesOf]

@[simp] theorem framePreZoom_usePageA (scale : ℚ) (st : GLWebViewState) :
    (framePreZoom scale st).m_usePageA = st.m_usePageA := by
  simp [framePreZoom, apply_ite GLWebViewState.m_usePageA]

@[simp] theorem framePreZoom_transitionTime (scale : ℚ) (st : GLWebViewState) :
    (framePreZoom scale st).m_transitionTime = st.m_transitionTime := by
  simp [framePreZoom, apply_ite GLWebViewState.m_transitionTime]

@[simp] theorem framePreZoom_gPrevTime (scale : ℚ) (st : GLWebViewState) :
    (framePreZoom scale st).gPrevTime = st.gPrevTime := by
  simp [framePreZoom, apply_ite GLWebViewState.gPrevTime]

@[simp] theorem framePreZoom_viewportTileBounds (scale : ℚ) (st : GLWebViewState) :
    (framePreZoom scale st).m_viewportTileBounds = st.m_viewportTileBounds := by
  simp [framePreZoom, apply_ite GLWebViewState.m_viewportTileBounds]

@[simp] theorem framePreZoom_baseLayerUpdate (scale : ℚ) (st : GLWebViewState) :
    (framePreZoom scale st).m_baseLayerUpdate = st.m_baseLayerUpdate := by
  simp [framePreZoom, apply_ite GLWebViewState.m_baseLayerUpdate]

@[simp] theorem framePreZoom_draws (scale : ℚ) (st : GLWebViewState) :
    drawsOf (framePreZoom scale st).m_calls = drawsOf st.m_calls := by
  simp [framePreZoom, apply_ite GLWebViewState.m_calls, apply_ite drawsOf]

@[simp] theorem framePreZoom_prepares (scale : ℚ) (st : GLWebViewState) :
    preparesOf (framePreZoom scale st).m_calls = preparesOf st.m_calls := by
  simp [framePreZoom, apply_ite GLWebViewState.m_calls, apply_ite preparesOf]

@[simp] theorem frameSchedule_usePageA (c : Constants) (t scale : ℚ) (st : GLWebViewState) :
    ((frameSchedule c t scale st).1).m_usePageA = st.m_usePageA := by
  simp [frameSchedule, apply_ite GLWebViewState.m_usePageA, apply_ite Prod.fst, apply_ite Prod.snd]

@[simp] theorem frameSchedule_transitionTime (c : Constants) (t scale : ℚ) (st : GLWebViewState) :
    ((frameSchedule c t scale st).1).m_transitionTime = st.m_transitionTime := by
  simp [frameSchedule, apply_ite GLWebViewState.m_transitionTime, apply_ite Prod.fst, apply_ite Prod.snd]

@[simp] theorem frameSchedule_gPrevTime (c : Constants) (t scale : ℚ) (st : GLWebViewState) :
    ((frameSchedule c t scale st).1).gPrevTime = st.gPrevTime := by
  simp [frameSchedule, apply_ite GLWebViewState.gPrevTime, apply_ite Prod.fst, apply_ite Prod.snd]

@[simp] theorem frameSchedule_preZoomBounds (c : Constants) (t scale : ℚ) (st : GLWebViewState) :
    ((frameSchedule c t scale st).1).m_preZoomBounds = st.m_preZoomBounds := by
  simp [frameSchedule, apply_ite GLWebViewState.m_preZoomBounds, apply_ite Prod.fst, apply_ite Prod.snd]

@[simp] theorem frameSchedule_viewportTileBounds (c : Constants) (t scale : ℚ) (st : GLWebViewState) :
    ((frameSchedule c t scale st).1).m_viewportTileBounds = st.m_viewportTileBounds := by
  simp [frameSchedule, apply_ite GLWebViewState.m_viewportTileBounds, apply_ite Prod.fst, apply_ite Prod.snd]

@[simp] theorem frameSchedule_baseLayerUpdate (c : Constants) (t scale : ℚ) (st : GLWebViewState) :
    ((frameSchedule c t scale st).1).m_baseLayerUpdate = st.m_baseLayerUpdate := by
  simp [frameSchedule, apply_ite GLWebViewState.m_baseLayerUpdate, apply_ite Prod.fst, apply_ite Prod.snd]

@[simp] theorem frameSchedule_draws (c : Constants) (t scale : ℚ) (st : GLWebViewState) :
    drawsOf ((frameSchedule c t scale st).1).m_calls = drawsOf st.m_calls := by
  simp [frameSchedule, apply_ite GLWebViewState.m_calls, apply_ite drawsOf, apply_ite Prod.fst, apply_ite Prod.snd]

@[simp] theorem frameSchedule_prepares (c : Constants) (t scale : ℚ) (st : GLWebViewState) :
    preparesOf ((frameSchedule c t scale st).1).m_calls = preparesOf st.m_calls := by
  simp [frameSchedule, apply_ite GLWebViewState.m_calls, apply_ite preparesOf, apply_ite Prod.fst, apply_ite Prod.snd]

@[simp] theorem frameZooming_usePageA (st : GLWebViewState) :
    ((frameZooming st).1).m_usePageA = st.m_usePageA := by
  simp [frameZooming, apply_ite GLWebViewState.m_usePageA, apply_ite Prod.fst, apply_ite Prod.snd]

@[simp] theorem frameZooming_transitionTime (st : GLWebViewState) :
    ((frameZooming st).1).m_transitionTime = st.m_transitionTime := by
  simp [frameZooming, apply_ite GLWebViewState.m_transitionTime, apply_ite Prod.fst, apply_ite Prod.snd]

@[simp] theorem frameZooming_gPrevTime (st : GLWebViewState) :
    ((frameZooming st).1).gPrevTime = st.gPrevTime := by
  simp [frameZooming, apply_ite GLWebViewState.gPrevTime, apply_ite Prod.fst, apply_ite Prod.snd]

@[simp] theorem frameZooming_preZoomBounds (st : GLWebViewState) :
    ((frameZooming st).1).m_preZoomBounds = st.m_preZoomBounds := by
  simp [frameZooming, apply_ite GLWebViewState.m_preZoomBounds, apply_ite Prod.fst, apply_ite Prod.snd]

@[simp] theorem frameZooming_viewportTileBounds (st : GLWebViewState) :
    ((frameZooming st).1).m_viewportTileBounds = st.m_viewportTileBounds := by
  simp [frameZooming, apply_ite GLWebViewState.m_viewportTileBounds, apply_ite Prod.fst, apply_ite Prod.snd]

@[simp] theorem frameZooming_draws (st : GLWebViewState) :
    drawsOf ((frameZooming st).1).m_calls = drawsOf st.m_calls := by
  simp [frameZooming, apply_ite GLWebViewState.m_calls, apply_ite drawsOf, apply_ite Prod.fst, apply_ite Prod.snd]

@[simp] theorem frameZooming_prepares (st : GLWebViewState) :
    preparesOf ((frameZooming st).1).m_calls = preparesOf st.m_calls := by
  simp [frameZooming, apply_ite GLWebViewState.m_calls, apply_ite preparesOf, apply_ite Prod.fst, apply_ite Prod.snd]

@[simp] theorem framePrepare_usePageA (p d l : Bool) (scale : ℚ) (st : GLWebViewState) :
    (framePrepare p d l scale st).m_usePageA = st.m_usePageA := by
  simp [framePrepare, apply_ite GLWebViewState.m_usePageA, apply_ite Prod.fst, apply_ite Prod.snd]

@[simp] theorem framePrepare_transitionTime (p d l : Bool) (scale : ℚ) (st : GLWebViewState) :
    (framePrepare p d l scale st).m_transitionTime = st.m_transitionTime := by
  simp [framePrepare, apply_ite GLWebViewState.m_transitionTime, apply_ite Prod.fst, apply_ite Prod.snd]

@[simp] theorem framePrepare_gPrevTime (p d l : Bool) (scale : ℚ) (st : GLWebViewState) :
    (framePrepare p d l scale st).gPrevTime = st.gPrevTime := by
  simp [framePrepare, apply_ite GLWebViewState.gPrevTime, apply_ite Prod.fst, apply_ite Prod.snd]

@[simp] theorem framePrepare_preZoomBounds (p d l : Bool) (scale : ℚ) (st : GLWebViewState) :
    (framePrepare p d l scale st).m_preZoomBounds = st.m_preZoomBounds := by
  simp [framePrepare, apply_ite GLWebViewState.m_preZoomBounds, apply_ite Prod.fst, apply_ite Prod.snd]

@[simp] theorem framePrepare_viewportTileBounds (p d l : Bool) (scale : ℚ) (st : GLWebViewState) :
    (framePrepare p d l scale st).m_viewportTileBounds = st.m_viewportTileBounds := by
  simp [framePrepare, apply_ite GLWebViewState.m_viewportTileBounds, apply_ite Prod.fst, apply_ite Prod.snd]

@[simp] theorem framePrepare_draws (p d l : Bool) (scale : ℚ) (st : GLWebViewState) :
    drawsOf (framePrepare p d l scale st).m_calls = drawsOf st.m_calls := by
  simp [framePrepare, apply_ite GLWebViewState.m_calls, apply_ite drawsOf, apply_ite Prod.fst, apply_ite Prod.snd]

@[simp] theorem frameReceive_usePageA (r : Bool) (st : GLWebViewState) :
    (frameReceive r st).m_usePageA = st.m_usePageA := by
  simp [frameReceive, apply_ite GLWebViewState.m_usePageA]

@[simp] theorem frameReceive_transitionTime (r : Bool) (st : GLWebViewState) :
    (frameReceive r st).m_transitionTime = st.m_transitionTime := by
  simp [frameReceive, apply_ite GLWebViewState.m_transitionTime]

@[simp] theorem frameReceive_gPrevTime (r : Bool) (st : GLWebViewState) :
    (frameReceive r st).gPrevTime = st.gPrevTime := by
  simp [frameReceive, apply_ite GLWebViewState.gPrevTime]

@[simp] theorem frameReceive_preZoomBounds (r : Bool) (st : GLWebViewState) :
    (frameReceive r st).m_preZoomBounds = st.m_preZoomBounds := by
  simp [frameReceive, apply_ite GLWebViewState.m_preZoomBounds]

@[simp] theorem frameReceive_viewportTileBounds (r : Bool) (st : GLWebViewState) :
    (frameReceive r st).m_viewportTileBounds = st.m_viewportTileBounds := by
  simp [frameReceive, apply_ite GLWebViewState.m_viewportTileBounds]

@[simp] theorem frameReceive_baseLayerUpdate (r : Bool) (st : GLWebViewState) :
    (frameReceive r st).m_baseLayerUpdate = st.m_baseLayerUpdate := by
  simp [frameReceive, apply_ite GLWebViewState.m_baseLayerUpdate]

@[simp] theorem frameReceive_draws (r : Bool) (st : GLWebViewState) :
    drawsOf (frameReceive r st).m_calls = drawsOf st.m_calls := by
  simp [frameReceive, apply_ite GLWebViewState.m_calls, apply_ite drawsOf]

@[simp] theorem frameReceive_prepares (r : Bool) (st : GLWebViewState) :
    preparesOf (frameReceive r st).m_calls = preparesOf st.m_calls := by
  simp [frameReceive, apply_ite GLWebViewState.m_calls, apply_ite preparesOf]

@[simp] theorem frameTransition_usePageA (c : Constants) (t scale : ℚ) (st : GLWebViewState) :
    ((frameTransition c t scale st).1).m_usePageA = st.m_usePageA := by
  simp [frameTransition, apply_ite GLWebViewState.m_usePageA, apply_ite Prod.fst, apply_ite Prod.snd]

@[simp] theorem frameTransition_gPrevTime (c : Constants) (t scale : ℚ) (st : GLWebViewState) :
    ((frameTransition c t scale st).1).gPrevTime = st.gPrevTime := by
  simp [frameTransition, apply_ite GLWebViewState.gPrevTime, apply_ite Prod.fst, apply_ite Prod.snd]

@[simp] theorem frameTransition_preZoomBounds (c : Constants) (t scale : ℚ) (st : GLWebViewState) :
    ((frameTransition c t scale st).1).m_preZoomBounds = st.m_preZoomBounds := by
  simp [frameTransition, apply_ite GLWebViewState.m_preZoomBounds, apply_ite Prod.fst, apply_ite Prod.snd]

@[simp] theorem frameTransition_viewportTileBounds (c : Constants) (t scale : ℚ) (st : GLWebViewState) :
    ((frameTransition c t scale st).1).m_viewportTileBounds = st.m_viewportTileBounds := by
  simp [frameTransition, apply_ite GLWebViewState.m_viewportTileBounds, apply_ite Prod.fst, apply_ite Prod.snd]

@[simp] theorem frameTransition_baseLayerUpdate (c : Constants) (t scale : ℚ) (st : GLWebViewState) :
    ((frameTransition c t scale st).1).m_baseLayerUpdate = st.m_baseLayerUpdate := by
  simp [frameTransition, apply_ite GLWebViewState.m_baseLayerUpdate, apply_ite Prod.fst, apply_ite Prod.snd]

@[simp] theorem frameTransition_prepares (c : Constants) (t scale : ℚ) (st : GLWebViewState) :
    preparesOf ((frameTransition c t scale st).1).m_calls = preparesOf st.m_calls := by
  simp [frameTransition, apply_ite GLWebViewState.m_calls, apply_ite preparesOf, apply_ite Prod.fst, apply_ite Prod.snd]

@[simp] theorem frameDisplay_usePageA (inp : FrameInput) (d l z w : Bool) (tr : ℚ) (st : GLWebViewState) :
    ((frameDisplay inp d l z w tr st).1).m_usePageA = st.m_usePageA := by
  simp [frameDisplay, apply_ite GLWebViewState.m_usePageA, apply_ite Prod.fst, apply_ite Prod.snd]

@[simp] theorem frameDisplay_transitionTime (inp : FrameInput) (d l z w : Bool) (tr : ℚ) (st : GLWebViewState) :
    ((frameDisplay inp d l z w tr st).1).m_transitionTime = st.m_transitionTime := by
  simp [frameDisplay, apply_ite GLWebViewState.m_transitionTime, apply_ite Prod.fst, apply_ite Prod.snd]

@[simp] theorem frameDisplay_gPrevTime (inp : FrameInput) (d l z w : Bool) (tr : ℚ) (st : GLWebViewState) :
    ((frameDisplay inp d l z w tr st).1).gPrevTime = st.gPrevTime := by
  simp [frameDisplay, apply_ite GLWebViewState.gPrevTime, apply_ite Prod.fst, apply_ite Prod.snd]

@[simp] theorem frameDisplay_preZoomBounds (inp : FrameInput) (d l z w : Bool) (tr : ℚ) (st : GLWebViewState) :
    ((frameDisplay inp d l z w tr st).1).m_preZoomBounds = st.m_preZoomBounds := by
  simp [frameDisplay, apply_ite GLWebViewState.m_preZoomBounds, apply_ite Prod.fst, apply_ite Prod.snd]

@[simp] theorem frameDisplay_viewportTileBounds (inp : FrameInput) (d l z w : Bool) (tr : ℚ) (st : GLWebViewState) :
    ((frameDisplay inp d l z w tr st).1).m_viewportTileBounds = st.m_viewportTileBounds := by
  simp [frameDisplay, apply_ite GLWebViewState.m_viewportTileBounds, apply_ite Prod.fst, apply_ite Prod.snd]

@[simp] theorem swapPages_transitionTime (st : GLWebViewState) :
    (st.swapPages).m_transitionTime = st.m_transitionTime := by
  simp [GLWebViewState.swapPages]

@[simp] theorem swapPages_gPrevTime (st : GLWebViewState) :
    (st.swapPages).gPrevTime = st.gPrevTime := by
  simp [GLWebViewState.swapPages]

@[simp] theorem swapPages_preZoomBounds (st : GLWebViewState) :
    (st.swapPages).m_preZoomBounds = st.m_preZoomBounds := by
  simp [GLWebViewState.swapPages]

@[simp] theorem swapPages_viewportTileBounds (st : GLWebViewState) :
    (st.swapPages).m_viewportTileBounds = st.m_viewportTileBounds := by
  simp [GLWebViewState.swapPages]

@[simp] theorem swapPages_baseLayerUpdate (st : GLWebViewState) :
    (st.swapPages).m_baseLayerUpdate = st.m_baseLayerUpdate := by
  simp [GLWebViewState.swapPages]

@[simp] theorem swapPages_draws (st : GLWebViewState) :
    drawsOf (st.swapPages).m_calls = drawsOf st.m_calls := by
  simp [GLWebViewState.swapPages]

@[simp] theorem swapPages_prepares (st : GLWebViewState) :
    preparesOf (st.swapPages).m_calls = preparesOf st.m_calls := by
  simp [GLWebViewState.swapPages]

@[simp] theorem frameFinish_transitionTime (inp : FrameInput) (w : Bool) (scale : ℚ) (st : GLWebViewState) :
    ((frameFinish inp w scale st).2).m_transitionTime = st.m_transitionTime := by
  simp [frameFinish, apply_ite GLWebViewState.m_transitionTime, apply_ite Prod.fst, apply_ite Prod.snd]

@[simp] theorem frameFinish_gPrevTime (inp : FrameInput) (w : Bool) (scale : ℚ) (st : GLWebViewState) :
    ((frameFinish inp w scale st).2).gPrevTime = st.gPrevTime := by
  simp [frameFinish, apply_ite GLWebViewState.gPrevTime, apply_ite Prod.fst, apply_ite Prod.snd]

@[simp] theorem frameFinish_preZoomBounds (inp : FrameInput) (w : Bool) (scale : ℚ) (st : GLWebViewState) :
    ((frameFinish inp w scale st).2).m_preZoomBounds = st.m_preZoomBounds := by
  simp [frameFinish, apply_ite GLWebViewState.m_preZoomBounds, apply_ite Prod.fst, apply_ite Prod.snd]

@[simp] theorem frameFinish_viewportTileBounds (inp : FrameInput) (w : Bool) (scale : ℚ) (st : GLWebViewState) :
    ((frameFinish inp w scale st).2).m_viewportTileBounds = st.m_viewportTileBounds := by
  simp [frameFinish, apply_ite GLWebViewState.m_viewportTileBounds, apply_ite Prod.fst, apply_ite Prod.snd]

@[simp] theorem frameFinish_baseLayerUpdate (inp : FrameInput) (w : Bool) (scale : ℚ) (st : GLWebViewState) :
    ((frameFinish inp w scale st).2).m_baseLayerUpdate = st.m_baseLayerUpdate := by
  simp [frameFinish, apply_ite GLWebViewState.m_baseLayerUpdate, apply_ite Prod.fst, apply_ite Prod.snd]

@[simp] theorem frameFinish_draws (inp : FrameInput) (w : Bool) (scale : ℚ) (st : GLWebViewState) :
    drawsOf ((frameFinish inp w scale st).2).m_calls = drawsOf st.m_calls := by
  simp [frameFinish, apply_ite GLWebViewState.m_calls, apply_ite drawsOf, apply_ite Prod.fst, apply_ite Prod.snd]

@[simp] theorem frameFinish_prepares (inp : FrameInput) (w : Bool) (scale : ℚ) (st : GLWebViewState) :
    preparesOf ((frameFinish inp w scale st).2).m_calls = preparesOf st.m_calls := by
  simp [frameFinish, apply_ite GLWebViewState.m_calls, apply_ite preparesOf, apply_ite Prod.fst, apply_ite Prod.snd]

/-! ## Invalidation and the update lock -/

theorem inval_unlocked_eq (rect : IntRect) (st : GLWebViewState)
    (h : st.m_baseLayerUpdate = true) :
    st.inval rect =
      if rect.isEmpty = true then
        { st with m_currentPictureCounter := (st.m_currentPictureCounter + 1) % 2 ^ 32 }
      else
        { st with
          m_currentPictureCounter := (st.m_currentPictureCounter + 1) % 2 ^ 32
          m_calls := st.m_calls ++
            [.invalidateRect st.m_tiledPageA rect ((st.m_currentPictureCounter + 1) % 2 ^ 32),
             .invalidateRect st.m_tiledPageB rect
               ((st.m_currentPictureCounter + 1) % 2 ^ 32)] } := by
  simp only [GLWebViewState.inval, h, if_true, GLWebViewState.record]
  split_ifs with h1 h2 h2
  · simp [h2] at h1
  · simp
  · rfl
  · simp [h2] at h1

theorem inval_locked_eq (rect : IntRect) (st : GLWebViewState)
    (h : st.m_baseLayerUpdate = false) :
    st.inval rect = { st with m_invalidateRect := st.m_invalidateRect.unite rect } := by
  simp [GLWebViewState.inval, h]

/-- C12: `inval(rect)` with updates unlocked adds one to the picture counter in
`unsigned int` arithmetic (the new value is the old one plus one modulo 2^32, so
exactly the old one plus one below the maximum); a non-empty `rect` is passed to
`invalidateRect` of page A and then of page B, both with the new counter value;
an empty `rect` reaches no page; the accumulated rectangle is unchanged. -/
theorem inval_unlocked (rect : IntRect) (st : GLWebViewState)
    (h : st.m_baseLayerUpdate = true) :
    (st.inval rect).m_currentPictureCounter = (st.m_currentPictureCounter + 1) % 2 ^ 32 ∧
    (st.m_currentPictureCounter + 1 < 2 ^ 32 →
      (st.inval rect).m_currentPictureCounter = st.m_currentPictureCounter + 1) ∧
    (rect.isEmpty = false →
      (st.inval rect).m_calls = st.m_calls ++
        [.invalidateRect st.m_tiledPageA rect (st.inval rect).m_currentPictureCounter,
         .invalidateRect st.m_tiledPageB rect (st.inval rect).m_currentPictureCounter]) ∧
    (rect.isEmpty = true → (st.inval rect).m_calls = st.m_calls) ∧
    (st.inval rect).m_invalidateRect = st.m_invalidateRect := by
  rw [inval_unlocked_eq rect st h]
  refine ⟨?_, ?_, ?_, ?_, ?_⟩
  · split_ifs <;> rfl
  · intro hlt
    split_ifs <;> exact Nat.mod_eq_of_lt hlt
  · intro he
    simp [he]
  · intro he
    simp [he]
  · split_ifs <;> rfl

theorem inval_unlocked_witness :
    GLWebViewState.initial.m_baseLayerUpdate = true ∧
    (GLWebViewState.initial.inval sampleRect).m_currentPictureCounter
      = (GLWebViewState.initial.m_currentPictureCounter + 1) % 2 ^ 32 ∧
    (GLWebViewState.initial.m_currentPictureCounter + 1 < 2 ^ 32 →
      (GLWebViewState.initial.inval sampleRect).m_currentPictureCounter
        = GLWebViewState.initial.m_currentPictureCounter + 1) ∧
    (sampleRect.isEmpty = false →
      (GLWebViewState.initial.inval sampleRect).m_calls = GLWebViewState.initial.m_calls ++
        [.invalidateRect GLWebViewState.initial.m_tiledPageA sampleRect
            (GLWebViewState.initial.inval sampleRect).m_currentPictureCounter,
         .invalidateRect GLWebViewState.initial.m_tiledPageB sampleRect
            (GLWebViewState.initial.inval sampleRect).m_currentPictureCounter]) ∧
    (sampleRect.isEmpty = true →
      (GLWebViewState.initial.inval sampleRect).m_calls = GLWebViewState.initial.m_calls) ∧
    (GLWebViewState.initial.inval sampleRect).m_invalidateRect
      = GLWebViewState.initial.m_invalidateRect :=
  ⟨rfl, inval_unlocked sampleRect GLWebViewState.initial rfl⟩

theorem invals_cons (r : IntRect) (rects : List IntRect) (st : GLWebViewState) :
    invals (r :: rects) st = invals rects (st.inval r) := rfl

theorem IntRect.contains_iff (r other : IntRect) :
    r.contains other = true ↔
      r.x ≤ other.x ∧ other.maxX ≤ r.maxX ∧ r.y ≤ other.y ∧ other.maxY ≤ r.maxY := by
  simp [IntRect.contains, and_assoc]

theorem IntRect.isEmpty_eq_false (r : IntRect) :
    r.isEmpty = false ↔ 0 < r.width ∧ 0 < r.height := by
  simp [IntRect.isEmpty]

theorem IntRect.unite_right_empty (a b : IntRect) (hb : b.isEmpty = true) :
    a.unite b = a := by
  simp [IntRect.unite, hb]

theorem IntRect.unite_left_empty (a b : IntRect) (hb : b.isEmpty = false)
    (ha : a.isEmpty = true) : a.unite b = b := by
  simp [IntRect.unite, hb, ha]

theorem IntRect.unite_nonempty (a b : IntRect) (ha : a.isEmpty = false)
    (hb : b.isEmpty = false) :
    a.unite b = ⟨min a.x b.x, min a.y b.y, max a.maxX b.maxX - min a.x b.x,
      max a.maxY b.maxY - min a.y b.y⟩ := by
  simp [IntRect.unite, hb, ha]

/-- The union of two non-empty rectangles contains both. -/
theorem IntRect.unite_nonempty_contains (a b : IntRect) (ha : a.isEmpty = false)
    (hb : b.isEmpty = false) :
    (a.unite b).contains a = true ∧ (a.unite b).contains b = true := by
  rw [IntRect.unite_nonempty a b ha hb, IntRect.contains_iff, IntRect.contains_iff]
  simp only [IntRect.maxX, IntRect.maxY, add_sub_cancel]
  exact ⟨⟨min_le_left _ _, le_max_left _ _, min_le_left _ _, le_max_left _ _⟩,
    ⟨min_le_right _ _, le_max_right _ _, min_le_right _ _, le_max_right _ _⟩⟩

theorem IntRect.contains_refl (a : IntRect) : a.contains a = true := by
  rw [IntRect.contains_iff]
  exact ⟨le_rfl, le_rfl, le_rfl, le_rfl⟩

theorem IntRect.contains_trans (a b x : IntRect) (hab : a.contains b = true)
    (hbx : b.contains x = true) : a.contains x = true := by
  rw [IntRect.contains_iff] at hab hbx ⊢
  obtain ⟨h1, h2, h3, h4⟩ := hab
  obtain ⟨g1, g2, g3, g4⟩ := hbx
  exact ⟨le_trans h1 g1, le_trans g2 h2, le_trans h3 g3, le_trans g4 h4⟩

/-- The union contains its non-empty argument. -/
theorem IntRect.unite_contains_right (a b : IntRect) (hb : b.isEmpty = false) :
    (a.unite b).contains b = true := by
  cases ha : a.isEmpty
  · exact (IntRect.unite_nonempty_contains a b ha hb).2
  · rw [IntRect.unite_left_empty a b hb ha]
    exact IntRect.contains_refl b

/-- The union still contains every non-empty rectangle its receiver contained. -/
theorem IntRect.unite_contains_left (a b x : IntRect) (hx : x.isEmpty = false)
    (h : a.contains x = true) : (a.unite b).contains x = true := by
  have ha : a.isEmpty = false := by
    rw [IntRect.contains_iff] at h
    rw [IntRect.isEmpty_eq_false] at hx ⊢
    simp only [IntRect.maxX, IntRect.maxY] at h
    constructor <;> omega
  cases hb : b.isEmpty
  · exact IntRect.contains_trans _ a x (IntRect.unite_nonempty_contains a b ha hb).1 h
  · rw [IntRect.unite_right_empty a b hb]
    exact h

theorem invals_locked (rects : List IntRect) (st : GLWebViewState)
    (h : st.m_baseLayerUpdate = false) :
    (invals rects st).m_baseLayerUpdate = false ∧
    (invals rects st).m_currentPictureCounter = st.m_currentPictureCounter ∧
    (invals rects st).m_calls = st.m_calls ∧
    (∀ x : IntRect, x.isEmpty = false → st.m_invalidateRect.contains x = true →
      (invals rects st).m_invalidateRect.contains x = true) ∧
    ∀ r ∈ rects, r.isEmpty = false → (invals rects st).m_invalidateRect.contains r = true := by
  induction rects generalizing st with
  | nil => exact ⟨h, rfl, rfl, fun _ _ hx => hx, fun r hr => absurd hr (List.not_mem_nil r)⟩
  | cons r rs ih =>
    rw [invals_cons]
    have hstep := inval_locked_eq r st h
    obtain ⟨h1, h2, h3, h4, h5⟩ := ih (st.inval r) (by rw [hstep]; exact h)
    refine ⟨h1, by rw [h2, hstep], by rw [h3, hstep], fun x hx hc => ?_, fun x hx hne => ?_⟩
    · apply h4 x hx
      rw [hstep]
      exact IntRect.unite_contains_left _ _ _ hx hc
    · rcases List.mem_cons.mp hx with rfl | hmem
      · apply h4 x hne
        rw [hstep]
        exact IntRect.unite_contains_right _ _ hne
      · exact h5 x hmem hne

/-- C13: `inval(rect)` with updates locked only replaces the accumulated rectangle
by its union with `rect`: the picture counter and the calls made on the pages are
unchanged, and after any sequence of such calls the accumulated rectangle
contains every non-empty rectangle of the sequence. -/
theorem inval_locked (rect : IntRect) (st : GLWebViewState) (h : st.m_baseLayerUpdate = false) :
    st.inval rect = { st with m_invalidateRect := st.m_invalidateRect.unite rect } ∧
    (st.inval rect).m_currentPictureCounter = st.m_currentPictureCounter ∧
    (st.inval rect).m_calls = st.m_calls ∧
    ∀ rects : List IntRect,
      (invals rects st).m_currentPictureCounter = st.m_currentPictureCounter ∧
      (invals rects st).m_calls = st.m_calls ∧
      ∀ r ∈ rects, r.isEmpty = false → (invals rects st).m_invalidateRect.contains r = true := by
  have hstep := inval_locked_eq rect st h
  refine ⟨hstep, by rw [hstep], by rw [hstep], fun rects => ?_⟩
  obtain ⟨-, h2, h3, -, h5⟩ := invals_locked rects st h
  exact ⟨h2, h3, h5⟩

/-- C14: `unlockBaseLayerUpdate()`, from any state, leaves updates unlocked and
makes the current base layer the pending one; it passes the accumulated rectangle
once to `inval`: the picture counter gets one added in `unsigned int` arithmetic
(modulo 2^32, exactly plus one below the maximum), and a non-empty accumulated
rectangle is passed to `invalidateRect` of page A and of page B with the new
counter value; the accumulated rectangle is empty afterwards, so a second unlock
makes no call on any page. -/
theorem unlockBaseLayerUpdate_replays (st : GLWebViewState) :
    st.unlockBaseLayerUpdate.m_baseLayerUpdate = true ∧
    st.unlockBaseLayerUpdate.m_currentBaseLayer = st.m_baseLayer ∧
    st.unlockBaseLayerUpdate.m_baseLayer = st.m_baseLayer ∧
    st.unlockBaseLayerUpdate.m_currentPictureCounter
      = (st.m_currentPictureCounter + 1) % 2 ^ 32 ∧
    (st.m_currentPictureCounter + 1 < 2 ^ 32 →
      st.unlockBaseLayerUpdate.m_currentPictureCounter = st.m_currentPictureCounter + 1) ∧
    (st.m_invalidateRect.isEmpty = false →
      st.unlockBaseLayerUpdate.m_calls = st.m_calls ++
        [.invalidateRect st.m_tiledPageA st.m_invalidateRect
            st.unlockBaseLayerUpdate.m_currentPictureCounter,
         .invalidateRect st.m_tiledPageB st.m_invalidateRect
            st.unlockBaseLayerUpdate.m_currentPictureCounter]) ∧
    (st.m_invalidateRect.isEmpty = true → st.unlockBaseLayerUpdate.m_calls = st.m_calls) ∧
    st.unlockBaseLayerUpdate.m_invalidateRect = IntRect.zero ∧
    st.unlockBaseLayerUpdate.unlockBaseLayerUpdate.m_calls = st.unlockBaseLayerUpdate.m_calls := by
  have key : ∀ s : GLWebViewState, s.unlockBaseLayerUpdate =
      { ({ s with m_baseLayerUpdate := true, m_currentBaseLayer := s.m_baseLayer }.inval
          s.m_invalidateRect) with m_invalidateRect := IntRect.zero } := fun s => rfl
  have hz : IntRect.zero.isEmpty = true := rfl
  have h2 : st.unlockBaseLayerUpdate.m_invalidateRect = IntRect.zero := rfl
  have h1 : st.unlockBaseLayerUpdate.m_baseLayerUpdate = true := by
    rw [key, inval_unlocked_eq _ _ rfl]
    split_ifs <;> rfl
  refine ⟨h1, ?_, ?_, ?_, ?_, ?_, ?_, h2, ?_⟩
  · rw [key, inval_unlocked_eq _ _ rfl]; split_ifs <;> rfl
  · rw [key, inval_unlocked_eq _ _ rfl]; split_ifs <;> rfl
  · rw [key, inval_unlocked_eq _ _ rfl]; split_ifs <;> rfl
  · intro hlt
    rw [key, inval_unlocked_eq _ _ rfl]
    split_ifs <;> exact Nat.mod_eq_of_lt hlt
  · intro he
    rw [key, inval_unlocked_eq _ _ rfl]
    simp [he]
  · intro he
    rw [key, inval_unlocked_eq _ _ rfl]
    simp [he]
  · rw [key st.unlockBaseLayerUpdate, inval_unlocked_eq _ _ rfl]
    simp [h2, hz]

theorem inval_locked_witness :
    lockedState.m_baseLayerUpdate = false ∧
    lockedState.inval sampleRect =
      { lockedState with m_invalidateRect := lockedState.m_invalidateRect.unite sampleRect } ∧
    (lockedState.inval sampleRect).m_currentPictureCounter
      = lockedState.m_currentPictureCounter ∧
    (lockedState.inval sampleRect).m_calls = lockedState.m_calls ∧
    ∀ rects : List IntRect,
      (invals rects lockedState).m_currentPictureCounter
        = lockedState.m_currentPictureCounter ∧
      (invals rects lockedState).m_calls = lockedState.m_calls ∧
      ∀ r ∈ rects, r.isEmpty = false →
        (invals rects lockedState).m_invalidateRect.contains r = true :=
  ⟨rfl, inval_locked sampleRect lockedState rfl⟩

/-! ## Machine arithmetic: wrap-around and rounding -/

theorem wrapInt32_of_range (n : Int) (h1 : -2 ^ 31 ≤ n) (h2 : n < 2 ^ 31) : wrapInt32 n = n := by
  unfold wrapInt32
  rw [Int.emod_eq_of_lt (by omega) (by omega)]
  omega

theorem wrapInt32_range (n : Int) : -2 ^ 31 ≤ wrapInt32 n ∧ wrapInt32 n < 2 ^ 31 := by
  unfold wrapInt32
  have h1 := Int.emod_nonneg (n + 2 ^ 31) (by norm_num : (2 ^ 32 : Int) ≠ 0)
  have h2 := Int.emod_lt_of_pos (n + 2 ^ 31) (by norm_num : (0 : Int) < 2 ^ 32)
  constructor <;> omega

theorem wrapInt32_modEq (n : Int) : wrapInt32 n ≡ n [ZMOD 2 ^ 32] := by
  unfold wrapInt32
  have h : (n + 2 ^ 31) % 2 ^ 32 ≡ n + 2 ^ 31 [ZMOD 2 ^ 32] := Int.mod_modEq _ _
  calc (n + 2 ^ 31) % 2 ^ 32 - 2 ^ 31 ≡ n + 2 ^ 31 - 2 ^ 31 [ZMOD 2 ^ 32] := h.sub_right _
    _ = n := by ring

theorem wrapInt32_congr {a b : Int} (h : a ≡ b [ZMOD 2 ^ 32]) : wrapInt32 a = wrapInt32 b := by
  unfold wrapInt32
  have : (a + 2 ^ 31) % 2 ^ 32 = (b + 2 ^ 31) % 2 ^ 32 := (h.add_right _)
  rw [this]

theorem roundHalfEven_intCast (n : Int) : roundHalfEven (n : ℚ) = n := by
  simp [roundHalfEven]

theorem log2_eq_of_bounds (a : ℚ) (e : Int) (hlo : (2 : ℚ) ^ e ≤ a)
    (hhi : a < (2 : ℚ) ^ (e + 1)) : Int.log 2 a = e := by
  have ha : 0 < a := lt_of_lt_of_le (by positivity) hlo
  have h1 : e ≤ Int.log 2 a := (Int.zpow_le_iff_le_log (by norm_num) ha).mp (by exact_mod_cast hlo)
  have h2 : Int.log 2 a < e + 1 :=
    (Int.lt_zpow_iff_log_lt (by norm_num) ha).mp (by exact_mod_cast hhi)
  omega

theorem roundFloat32_zero : roundFloat32 0 = 0 := by simp [roundFloat32]

theorem roundFloat32_neg (x : ℚ) : roundFloat32 (-x) = -roundFloat32 x := by
  by_cases h0 : x = 0
  · simp [h0, roundFloat32]
  rcases lt_or_gt_of_ne h0 with h | h
  · have h' : ¬ (-x < 0) := by linarith
    simp [roundFloat32, h0, h, h']
  · have h' : ¬ (x < 0) := by linarith
    have h'' : -x < 0 := by linarith
    simp [roundFloat32, h0, h', h'']

/-- Rounding a positive value whose binade is known. -/
theorem roundFloat32_of_binade (x : ℚ) (e : Int) (hlo : (2 : ℚ) ^ e ≤ x)
    (hhi : x < (2 : ℚ) ^ (e + 1)) (he : -126 ≤ e) :
    roundFloat32 x = roundHalfEven (x / 2 ^ (e - 23)) * 2 ^ (e - 23) := by
  have hx : 0 < x := lt_of_lt_of_le (by positivity) hlo
  have hlog : Int.log 2 x = e := log2_eq_of_bounds x e hlo hhi
  have hn : ¬ x < 0 := by linarith
  simp only [roundFloat32, hx.ne', abs_of_pos hx, hlog, max_eq_left he, hn, if_false]

/-- Rounding a positive value below the least normal magnitude. -/
theorem roundFloat32_of_subnormal (x : ℚ) (hx : 0 < x) (hhi : x < (2 : ℚ) ^ (-126 : Int)) :
    roundFloat32 x = roundHalfEven (x / 2 ^ (-149 : Int)) * 2 ^ (-149 : Int) := by
  have hlog : Int.log 2 x < -126 :=
    (Int.lt_zpow_iff_log_lt (by norm_num) hx).mp (by exact_mod_cast hhi)
  have hn : ¬ x < 0 := by linarith
  have h149 : (-126 : Int) - 23 = -149 := by norm_num
  simp only [roundFloat32, hx.ne', abs_of_pos hx, max_eq_right hlog.le, hn, if_false, h149]

/-- Values of the binary32 grid are left unchanged: `n * 2 ^ k` with `|n| < 2 ^ 24`
and `-149 ≤ k`. -/
theorem roundFloat32_grid_pos (n : Nat) (k : Int) (hn0 : 0 < n) (hn : n < 2 ^ 24)
    (hk : -149 ≤ k) : roundFloat32 ((n : ℚ) * 2 ^ k) = (n : ℚ) * 2 ^ k := by
  have hx : (0 : ℚ) < (n : ℚ) * 2 ^ k := by positivity
  have hlt : (n : ℚ) * 2 ^ k < 2 ^ (24 + k) := by
    rw [zpow_add₀ (by norm_num : (2 : ℚ) ≠ 0)]
    have : (n : ℚ) < 2 ^ (24 : Int) := by
      have h24 : (n : ℚ) < 2 ^ (24 : ℕ) := by exact_mod_cast hn
      rw [show (24 : Int) = ((24 : ℕ) : Int) from rfl, zpow_natCast]
      exact h24
    exact mul_lt_mul_of_pos_right this (by positivity)
  have hlog : Int.log 2 ((n : ℚ) * 2 ^ k) < 24 + k :=
    (Int.lt_zpow_iff_log_lt (by norm_num) hx).mp (by exact_mod_cast hlt)
  have hn' : ¬ (n : ℚ) * 2 ^ k < 0 := by linarith
  simp only [roundFloat32, hx.ne', abs_of_pos hx, hn', if_false]
  set e := max (Int.log 2 ((n : ℚ) * 2 ^ k)) (-126) with he
  have hek : e - 23 ≤ k := by
    rcases max_cases (Int.log 2 ((n : ℚ) * 2 ^ k)) (-126) with ⟨h, -⟩ | ⟨h, -⟩ <;> omega
  obtain ⟨m, hm⟩ : ∃ m : ℕ, k = e - 23 + m := ⟨(k - (e - 23)).toNat, by omega⟩
  have hq : (n : ℚ) * 2 ^ k / 2 ^ (e - 23) = ((n * 2 ^ m : ℕ) : Int) := by
    rw [hm, zpow_add₀ (by norm_num : (2 : ℚ) ≠ 0), zpow_natCast]
    field_simp
    ring
  rw [hq, roundHalfEven_intCast, hm, zpow_add₀ (by norm_num : (2 : ℚ) ≠ 0)]
  push_cast
  simp [zpow_natCast]
  ring

theorem roundFloat32_grid (n : Int) (k : Int) (hn : |n| < 2 ^ 24) (hk : -149 ≤ k) :
    roundFloat32 ((n : ℚ) * 2 ^ k) = (n : ℚ) * 2 ^ k := by
  rcases lt_trichotomy n 0 with h | h | h
  · have h1 := roundFloat32_grid_pos (-n).toNat k (by omega) (by
      have := abs_of_neg h
      omega) hk
    have hc : (((-n).toNat : ℕ) : ℚ) = -(n : ℚ) := by
      have : (((-n).toNat : ℕ) : Int) = -n := Int.toNat_of_nonneg (by omega)
      exact_mod_cast this
    rw [hc] at h1
    have h2 := roundFloat32_neg (-(n : ℚ) * 2 ^ k)
    rw [h1] at h2
    simpa using h2
  · simp [h, roundFloat32_zero]
  · have h1 := roundFloat32_grid_pos n.toNat k (by omega) (by
      have := abs_of_pos h
      omega) hk
    have hc : ((n.toNat : ℕ) : ℚ) = (n : ℚ) := by
      have : ((n.toNat : ℕ) : Int) = n := Int.toNat_of_nonneg (by omega)
      exact_mod_cast this
    rw [hc] at h1
    exact h1

theorem roundFloat32_dyadic (x : ℚ) (n k : Int) (hx : x = (n : ℚ) * 2 ^ k)
    (hn : |n| < 2 ^ 24) (hk : -149 ≤ k) : roundFloat32 x = x := by
  rw [hx]
  exact roundFloat32_grid n k hn hk

theorem roundHalfEven_error (q : ℚ) : |(roundHalfEven q : ℚ) - q| ≤ 1 / 2 := by
  have h1 := Int.floor_le q
  have h2 := Int.lt_floor_add_one q
  simp only [roundHalfEven]
  split_ifs with ha hb hc
  · rw [abs_le]
    constructor <;> linarith
  · rw [abs_le]
    push_cast
    constructor <;> linarith
  · rw [abs_le]
    constructor <;> linarith
  · rw [abs_le]
    push_cast
    constructor <;> linarith

theorem roundFloat32_error_pos (x : ℚ) (hx : (2 : ℚ) ^ (-126 : Int) ≤ x) :
    |roundFloat32 x - x| ≤ 2 ^ (-24 : Int) * x := by
  have hpos : 0 < x := lt_of_lt_of_le (by positivity) hx
  have hlo : (2 : ℚ) ^ (Int.log 2 x) ≤ x := by
    have := Int.zpow_log_le_self (b := 2) (by norm_num) hpos
    exact_mod_cast this
  have hhi : x < (2 : ℚ) ^ (Int.log 2 x + 1) := by
    have := Int.lt_zpow_succ_log_self (b := 2) (by norm_num) x
    exact_mod_cast this
  have he : -126 ≤ Int.log 2 x :=
    (Int.zpow_le_iff_le_log (by norm_num) hpos).mp (by exact_mod_cast hx)
  rw [roundFloat32_of_binade x _ hlo hhi he]
  set e := Int.log 2 x
  have hu : (0 : ℚ) < 2 ^ (e - 23) := by positivity
  have herr := roundHalfEven_error (x / 2 ^ (e - 23))
  have hkey : (roundHalfEven (x / 2 ^ (e - 23)) : ℚ) * 2 ^ (e - 23) - x
      = ((roundHalfEven (x / 2 ^ (e - 23)) : ℚ) - x / 2 ^ (e - 23)) * 2 ^ (e - 23) := by
    field_simp
  rw [hkey, abs_mul, abs_of_pos hu]
  have h24 : (2 : ℚ) ^ (e - 23) * (1 / 2) = 2 ^ (-24 : Int) * 2 ^ e := by
    rw [show e - 23 = e + (-23) by ring, zpow_add₀ (by norm_num : (2 : ℚ) ≠ 0)]
    norm_num
    ring
  calc |(roundHalfEven (x / 2 ^ (e - 23)) : ℚ) - x / 2 ^ (e - 23)| * 2 ^ (e - 23)
      ≤ 1 / 2 * 2 ^ (e - 23) := mul_le_mul_of_nonneg_right herr hu.le
    _ = 2 ^ (-24 : Int) * 2 ^ e := by rw [mul_comm, h24]
    _ ≤ 2 ^ (-24 : Int) * x := mul_le_mul_of_nonneg_left hlo (by positivity)

/-- Rounding to `float` without underflow changes a value by at most 2^-24 of its
magnitude. -/
theorem roundFloat32_error (x : ℚ) (h : normalFloat x) :
    |roundFloat32 x - x| ≤ 2 ^ (-24 : Int) * |x| := by
  rcases h with h | h
  · rw [h, roundFloat32_zero]
    simp
  · rcases le_or_lt 0 x with hx | hx
    · rw [abs_of_nonneg hx] at h ⊢
      exact roundFloat32_error_pos x h
    · rw [abs_of_neg hx] at h ⊢
      have := roundFloat32_error_pos (-x) h
      rw [roundFloat32_neg] at this
      rwa [show -roundFloat32 x - -x = -(roundFloat32 x - x) by ring, abs_neg] at this

/-- The single-precision product `fl(a * fl(b))` is within a relative error of
`2^-23 + 2^-48` of `a * b`. -/
theorem roundFloat32_product_error (a b : ℚ) (hb : normalFloat b)
    (hab : normalFloat (a * roundFloat32 b)) :
    |roundFloat32 (a * roundFloat32 b) - a * b|
      ≤ (2 ^ (-23 : Int) + 2 ^ (-48 : Int)) * |a * b| := by
  have h1 := roundFloat32_error b hb
  have h2 := roundFloat32_error (a * roundFloat32 b) hab
  have h3 : |a * roundFloat32 b - a * b| ≤ 2 ^ (-24 : Int) * |a * b| := by
    rw [← mul_sub, abs_mul, abs_mul]
    calc |a| * |roundFloat32 b - b| ≤ |a| * (2 ^ (-24 : Int) * |b|) :=
          mul_le_mul_of_nonneg_left h1 (abs_nonneg a)
      _ = 2 ^ (-24 : Int) * (|a| * |b|) := by ring
  have h4 : |a * roundFloat32 b| ≤ (1 + 2 ^ (-24 : Int)) * |a * b| := by
    have : |a * roundFloat32 b| ≤ |a * roundFloat32 b - a * b| + |a * b| := by
      have := abs_add (a * roundFloat32 b - a * b) (a * b)
      simpa using this
    linarith
  have h5 : |roundFloat32 (a * roundFloat32 b) - a * b|
      ≤ |roundFloat32 (a * roundFloat32 b) - a * roundFloat32 b|
        + |a * roundFloat32 b - a * b| := by
    have := abs_add (roundFloat32 (a * roundFloat32 b) - a * roundFloat32 b)
      (a * roundFloat32 b - a * b)
    simpa using this
  have h6 : (2 : ℚ) ^ (-24 : Int) * ((1 + 2 ^ (-24 : Int)) * |a * b|) + 2 ^ (-24 : Int) * |a * b|
      = (2 ^ (-23 : Int) + 2 ^ (-48 : Int)) * |a * b| := by
    norm_num
    ring
  calc |roundFloat32 (a * roundFloat32 b) - a * b|
      ≤ 2 ^ (-24 : Int) * |a * roundFloat32 b| + 2 ^ (-24 : Int) * |a * b| := by linarith
    _ ≤ 2 ^ (-24 : Int) * ((1 + 2 ^ (-24 : Int)) * |a * b|) + 2 ^ (-24 : Int) * |a * b| := by
        have := mul_le_mul_of_nonneg_left h4 (by positivity : (0 : ℚ) ≤ 2 ^ (-24 : Int))
        linarith
    _ = (2 ^ (-23 : Int) + 2 ^ (-48 : Int)) * |a * b| := h6

theorem truncate_floorf (x : ℚ) (h1 : -2 ^ 31 ≤ Int.floor x) (h2 : Int.floor x < 2 ^ 31) :
    truncate (floorf x) = Int.floor x := by
  simp only [truncate, floorf, Int.floor_intCast, Int.ceil_intCast, ite_self]
  rw [if_pos ⟨h1, h2⟩]

theorem truncate_ceilf (x : ℚ) (h1 : -2 ^ 31 ≤ Int.ceil x) (h2 : Int.ceil x < 2 ^ 31) :
    truncate (ceilf x) = Int.ceil x := by
  simp only [truncate, ceilf, Int.floor_intCast, Int.ceil_intCast, ite_self]
  rw [if_pos ⟨h1, h2⟩]

/-! ## Viewport tile bounds -/

theorem setViewport_recompute (c : Constants) (viewport : SkRect) (scale : ℚ)
    (st : GLWebViewState) (h : ¬ (st.m_viewport = viewport ∧ st.m_futureScale = scale)) :
    st.setViewport c viewport scale =
      { st with
        m_previousViewport := st.m_viewport
        m_viewport := viewport
        m_viewportTileBounds := viewportTileBoundsFor c viewport scale
        m_calls := st.m_calls ++
          [.setMaxTextureCount (maxTextureCountFor c (viewportTileBoundsFor c viewport scale)),
           .updateBaseTileSize st.m_tiledPageA,
           .updateBaseTileSize st.m_tiledPageB] } := by
  simp only [GLWebViewState.setViewport, GLWebViewState.record]
  rw [if_neg h]
  simp

theorem setViewport_unchanged (c : Constants) (viewport : SkRect) (scale : ℚ)
    (st : GLWebViewState) (h : st.m_viewport = viewport ∧ st.m_futureScale = scale) :
    st.setViewport c viewport scale = { st with m_previousViewport := st.m_viewport } := by
  simp only [GLWebViewState.setViewport]
  rw [if_pos h]

/-- The `int` computation of lines 297-298 delivers the product of the claim after
wrap-around. -/
theorem maxTextureCountFor_eq (c : Constants) (b : SkIRect) :
    maxTextureCountFor c b =
      wrapInt32 ((b.width + 2 * c.expandedTileBoundsX + 1) *
        (b.height + 2 * c.expandedTileBoundsY + 1) * 2) := by
  unfold maxTextureCountFor mulInt32 addInt32
  apply wrapInt32_congr
  have ex : wrapInt32 (b.width + wrapInt32 (c.expandedTileBoundsX * 2)) ≡
      b.width + c.expandedTileBoundsX * 2 [ZMOD 2 ^ 32] :=
    (wrapInt32_modEq _).trans ((Int.ModEq.refl _).add (wrapInt32_modEq _))
  have ey : wrapInt32 (b.height + wrapInt32 (c.expandedTileBoundsY * 2)) ≡
      b.height + c.expandedTileBoundsY * 2 [ZMOD 2 ^ 32] :=
    (wrapInt32_modEq _).trans ((Int.ModEq.refl _).add (wrapInt32_modEq _))
  have ex1 := (wrapInt32_modEq (wrapInt32 (b.width + wrapInt32 (c.expandedTileBoundsX * 2))
    + 1)).trans (ex.add_right 1)
  have ey1 := (wrapInt32_modEq (wrapInt32 (b.height + wrapInt32 (c.expandedTileBoundsY * 2))
    + 1)).trans (ey.add_right 1)
  have hp := ((wrapInt32_modEq _).trans (ex1.mul ey1)).mul_right 2
  have hr : (b.width + 2 * c.expandedTileBoundsX + 1) *
      (b.height + 2 * c.expandedTileBoundsY + 1) * 2 =
      (b.width + c.expandedTileBoundsX * 2 + 1) *
        (b.height + c.expandedTileBoundsY * 2 + 1) * 2 := by ring
  rw [hr]
  exact hp

/-- C15: whenever `setViewport` recomputes the tile bounds (it does unless the
viewport equals the recorded one and the scale equals the future scale), it calls
`setMaxTextureCount` with `(W + 2 * expandedTileBoundsX + 1) *
(H + 2 * expandedTileBoundsY + 1) * 2` computed in `int`, `W` and `H` being the
width and height of the new tile bounds, and then updates the base tile size of
both pages: the argument is that product after 32-bit wrap-around, hence the
product itself whenever the product fits an `int`. -/
theorem setViewport_texture_capacity (c : Constants) (viewport : SkRect) (scale : ℚ)
    (st : GLWebViewState) (h : ¬ (st.m_viewport = viewport ∧ st.m_futureScale = scale)) :
    (st.setViewport c viewport scale).m_calls = st.m_calls ++
      [.setMaxTextureCount
          (wrapInt32
            (((st.setViewport c viewport scale).m_viewportTileBounds.width
                + 2 * c.expandedTileBoundsX + 1) *
              ((st.setViewport c viewport scale).m_viewportTileBounds.height
                + 2 * c.expandedTileBoundsY + 1) * 2)),
       .updateBaseTileSize st.m_tiledPageA,
       .updateBaseTileSize st.m_tiledPageB] ∧
    (-2 ^ 31 ≤ ((st.setViewport c viewport scale).m_viewportTileBounds.width
            + 2 * c.expandedTileBoundsX + 1) *
          ((st.setViewport c viewport scale).m_viewportTileBounds.height
            + 2 * c.expandedTileBoundsY + 1) * 2 →
      ((st.setViewport c viewport scale).m_viewportTileBounds.width
            + 2 * c.expandedTileBoundsX + 1) *
          ((st.setViewport c viewport scale).m_viewportTileBounds.height
            + 2 * c.expandedTileBoundsY + 1) * 2 < 2 ^ 31 →
      (st.setViewport c viewport scale).m_calls = st.m_calls ++
        [.setMaxTextureCount
            (((st.setViewport c viewport scale).m_viewportTileBounds.width
                + 2 * c.expandedTileBoundsX + 1) *
              ((st.setViewport c viewport scale).m_viewportTileBounds.height
                + 2 * c.expandedTileBoundsY + 1) * 2),
         .updateBaseTileSize st.m_tiledPageA,
         .updateBaseTileSize st.m_tiledPageB]) := by
  have hcalls : (st.setViewport c viewport scale).m_calls = st.m_calls ++
      [.setMaxTextureCount
          (wrapInt32
            (((st.setViewport c viewport scale).m_viewportTileBounds.width
                + 2 * c.expandedTileBoundsX + 1) *
              ((st.setViewport c viewport scale).m_viewportTileBounds.height
                + 2 * c.expandedTileBoundsY + 1) * 2)),
       .updateBaseTileSize st.m_tiledPageA,
       .updateBaseTileSize st.m_tiledPageB] := by
    rw [setViewport_recompute c viewport scale st h]
    simp only [maxTextureCountFor_eq]
  refine ⟨hcalls, fun h1 h2 => ?_⟩
  rw [hcalls, wrapInt32_of_range _ h1 h2]

theorem viewportTileBoundsFor_eq (c : Constants) (viewport : SkRect) (scale : ℚ)
    (hdef : tileBoundsDefined c viewport scale) :
    viewportTileBoundsFor c viewport scale = roundedTileBounds c viewport scale := by
  obtain ⟨-, -, -, -, ⟨l1, l2⟩, ⟨t1, t2⟩, ⟨r1, r2⟩, ⟨b1, b2⟩⟩ := hdef
  simp only [roundedTileBounds] at l1 l2 t1 t2 r1 r2 b1 b2
  simp only [viewportTileBoundsFor, roundedTileBounds]
  rw [truncate_floorf _ l1 l2, truncate_floorf _ t1 t2, truncate_ceilf _ r1 r2,
    truncate_ceilf _ b1 b2]

theorem roundedTileBounds_exact (c : Constants) (viewport : SkRect) (scale : ℚ)
    (hex : tileBoundsExact c viewport scale) :
    roundedTileBounds c viewport scale = tileBounds c viewport scale := by
  obtain ⟨h1, h2, h3, h4, h5, h6⟩ := hex
  simp only [roundedTileBounds, tileBounds, h1, h2, h3, h4, h5, h6, mul_div_assoc]

theorem sampleBounds_rounded :
    roundedTileBounds sampleConstants sampleViewport 2 = ⟨0, 0, 4, 4⟩ ∧
    tileBoundsExact sampleConstants sampleViewport 2 := by
  have hinv : roundFloat32 ((2 : ℚ) / 256) = 2 / 256 :=
    roundFloat32_dyadic _ 1 (-7) (by norm_num) (by norm_num) (by norm_num)
  have h0 : roundFloat32 ((0 : ℚ) * (2 / 256)) = 0 * (2 / 256) :=
    roundFloat32_dyadic _ 0 0 (by norm_num) (by norm_num) (by norm_num)
  have h4 : roundFloat32 ((512 : ℚ) * (2 / 256)) = 512 * (2 / 256) :=
    roundFloat32_dyadic _ 4 0 (by norm_num) (by norm_num) (by norm_num)
  have hex : tileBoundsExact sampleConstants sampleViewport 2 :=
    ⟨hinv, hinv, h0, h0, h4, h4⟩
  refine ⟨?_, hex⟩
  rw [roundedTileBounds_exact _ _ _ hex]
  norm_num [tileBounds, sampleViewport, sampleConstants]

theorem sampleBounds_defined : tileBoundsDefined sampleConstants sampleViewport 2 := by
  have hinv : roundFloat32 ((2 : ℚ) / 256) = 2 / 256 :=
    roundFloat32_dyadic _ 1 (-7) (by norm_num) (by norm_num) (by norm_num)
  refine ⟨by norm_num [sampleConstants], by norm_num [sampleConstants], ?_, ?_, ?_⟩
  · show |roundFloat32 ((2 : ℚ) / 256)| < 2 ^ 128
    rw [hinv]
    norm_num [abs_of_pos]
  · show |roundFloat32 ((2 : ℚ) / 256)| < 2 ^ 128
    rw [hinv]
    norm_num [abs_of_pos]
  · rw [sampleBounds_rounded.1]
    norm_num

/-- The first `setViewport(sampleViewport, 2)` after the constructor. -/
theorem setViewport_sample :
    GLWebViewState.initial.setViewport sampleConstants sampleViewport 2 =
      { GLWebViewState.initial with
        m_previousViewport := SkRect.empty
        m_viewport := sampleViewport
        m_viewportTileBounds := ⟨0, 0, 4, 4⟩
        m_calls := [.setMaxTextureCount 98, .updateBaseTileSize 1, .updateBaseTileSize 2] } := by
  rw [setViewport_recompute _ _ _ _
    (by simp [GLWebViewState.initial, sampleViewport, SkRect.empty]),
    viewportTileBoundsFor_eq _ _ _ sampleBounds_defined, sampleBounds_rounded.1]
  have hcount : maxTextureCountFor sampleConstants ⟨0, 0, 4, 4⟩ = 98 := by
    rw [maxTextureCountFor_eq]
    norm_num [SkIRect.width, SkIRect.height, subInt32, wrapInt32, sampleConstants]
  rw [hcount]
  simp [GLWebViewState.initial, FIRST_TILED_PAGE_ID, SECOND_TILED_PAGE_ID, SkRect.empty]

theorem setViewport_texture_capacity_witness :
    ¬ (GLWebViewState.initial.m_viewport = sampleViewport ∧
        GLWebViewState.initial.m_futureScale = 2) ∧
    (GLWebViewState.initial.setViewport sampleConstants sampleViewport 2).m_calls =
      GLWebViewState.initial.m_calls ++
        [.setMaxTextureCount
            (wrapInt32
              (((GLWebViewState.initial.setViewport sampleConstants sampleViewport
                    2).m_viewportTileBounds.width
                  + 2 * sampleConstants.expandedTileBoundsX + 1) *
                ((GLWebViewState.initial.setViewport sampleConstants sampleViewport
                    2).m_viewportTileBounds.height
                  + 2 * sampleConstants.expandedTileBoundsY + 1) * 2)),
         .updateBaseTileSize GLWebViewState.initial.m_tiledPageA,
         .updateBaseTileSize GLWebViewState.initial.m_tiledPageB] ∧
    (GLWebViewState.initial.setViewport sampleConstants sampleViewport 2).m_calls =
      [.setMaxTextureCount 98, .updateBaseTileSize 1, .updateBaseTileSize 2] :=
  have h : ¬ (GLWebViewState.initial.m_viewport = sampleViewport ∧
      GLWebViewState.initial.m_futureScale = 2) := by
    simp [GLWebViewState.initial, sampleViewport, SkRect.empty]
  ⟨h, (setViewport_texture_capacity sampleConstants sampleViewport 2 GLWebViewState.initial h).1,
    by rw [setViewport_sample]⟩

theorem tileBounds_eq (c : Constants) (viewport : SkRect) (scale : ℚ) :
    tileBounds c viewport scale =
      ⟨Int.floor (viewport.fLeft * (scale / c.tileWidth)),
       Int.floor (viewport.fTop * (scale / c.tileHeight)),
       Int.ceil (viewport.fRight * (scale / c.tileWidth)),
       Int.ceil (viewport.fBottom * (scale / c.tileHeight))⟩ := by
  simp [tileBounds, mul_div_assoc]

/-- C16, amended: provided the computation is defined (tile sizes not zero, finite
reciprocals, bounds that fit an `int`), a call `setViewport(viewport, scale)` that
does not return early (the viewport differs from the recorded one or the scale from
the future scale) sets the tile bounds to floor and ceiling of the single-precision
products `fl(edge * fl(scale / tile size))`, `fl` rounding to the nearest `float`;
a call that returns early leaves the tile bounds as they were. The bounds cover the
rounded products. When no intermediate result underflows they cover the scaled
viewport up to a relative rounding error of `2^-23 + 2^-48` of each scaled edge
`edge * scale / tile size`; when no rounding occurs they are floor and ceiling of
the exact scaled edges and cover the scaled viewport. -/
theorem setViewport_tile_bounds (c : Constants) (viewport : SkRect) (scale : ℚ)
    (st : GLWebViewState) (hdef : tileBoundsDefined c viewport scale) :
    (¬ (st.m_viewport = viewport ∧ st.m_futureScale = scale) →
      (st.setViewport c viewport scale).m_viewportTileBounds
        = roundedTileBounds c viewport scale) ∧
    ((st.m_viewport = viewport ∧ st.m_futureScale = scale) →
      (st.setViewport c viewport scale).m_viewportTileBounds = st.m_viewportTileBounds) ∧
    (((roundedTileBounds c viewport scale).fLeft : ℚ)
        ≤ roundFloat32 (viewport.fLeft * roundFloat32 (scale / c.tileWidth)) ∧
      ((roundedTileBounds c viewport scale).fTop : ℚ)
        ≤ roundFloat32 (viewport.fTop * roundFloat32 (scale / c.tileHeight)) ∧
      roundFloat32 (viewport.fRight * roundFloat32 (scale / c.tileWidth))
        ≤ ((roundedTileBounds c viewport scale).fRight : ℚ) ∧
      roundFloat32 (viewport.fBottom * roundFloat32 (scale / c.tileHeight))
        ≤ ((roundedTileBounds c viewport scale).fBottom : ℚ)) ∧
    (tileBoundsNormal c viewport scale →
      ((roundedTileBounds c viewport scale).fLeft : ℚ)
        ≤ viewport.fLeft * scale / c.tileWidth
          + (2 ^ (-23 : Int) + 2 ^ (-48 : Int)) * |viewport.fLeft * scale / c.tileWidth| ∧
      ((roundedTileBounds c viewport scale).fTop : ℚ)
        ≤ viewport.fTop * scale / c.tileHeight
          + (2 ^ (-23 : Int) + 2 ^ (-48 : Int)) * |viewport.fTop * scale / c.tileHeight| ∧
      viewport.fRight * scale / c.tileWidth
          - (2 ^ (-23 : Int) + 2 ^ (-48 : Int)) * |viewport.fRight * scale / c.tileWidth|
        ≤ ((roundedTileBounds c viewport scale).fRight : ℚ) ∧
      viewport.fBottom * scale / c.tileHeight
          - (2 ^ (-23 : Int) + 2 ^ (-48 : Int)) * |viewport.fBottom * scale / c.tileHeight|
        ≤ ((roundedTileBounds c viewport scale).fBottom : ℚ)) ∧
    (tileBoundsExact c viewport scale →
      roundedTileBounds c viewport scale = tileBounds c viewport scale ∧
      ((tileBounds c viewport scale).fLeft : ℚ) ≤ viewport.fLeft * scale / c.tileWidth ∧
      ((tileBounds c viewport scale).fTop : ℚ) ≤ viewport.fTop * scale / c.tileHeight ∧
      viewport.fRight * scale / c.tileWidth ≤ ((tileBounds c viewport scale).fRight : ℚ) ∧
      viewport.fBottom * scale / c.tileHeight
        ≤ ((tileBounds c viewport scale).fBottom : ℚ)) := by
  refine ⟨fun h => ?_, fun h => ?_, ?_, fun hn => ?_, fun hex => ?_⟩
  · rw [setViewport_recompute c viewport scale st h]
    exact viewportTileBoundsFor_eq c viewport scale hdef
  · rw [setViewport_unchanged c viewport scale st h]
  · exact ⟨Int.floor_le _, Int.floor_le _, Int.le_ceil _, Int.le_ceil _⟩
  · obtain ⟨nw, nh, nl, nt, nr, nb⟩ := hn
    have el := abs_le.mp (roundFloat32_product_error viewport.fLeft _ nw nl)
    have et := abs_le.mp (roundFloat32_product_error viewport.fTop _ nh nt)
    have er := abs_le.mp (roundFloat32_product_error viewport.fRight _ nw nr)
    have eb := abs_le.mp (roundFloat32_product_error viewport.fBottom _ nh nb)
    have fl := Int.floor_le (roundFloat32 (viewport.fLeft * roundFloat32 (scale / c.tileWidth)))
    have ft := Int.floor_le (roundFloat32 (viewport.fTop * roundFloat32 (scale / c.tileHeight)))
    have cr := Int.le_ceil (roundFloat32 (viewport.fRight * roundFloat32 (scale / c.tileWidth)))
    have cb := Int.le_ceil
      (roundFloat32 (viewport.fBottom * roundFloat32 (scale / c.tileHeight)))
    simp only [roundedTileBounds, mul_div_assoc]
    refine ⟨?_, ?_, ?_, ?_⟩ <;> linarith [el.1, el.2, et.1, et.2, er.1, er.2, eb.1, eb.2]
  · exact ⟨roundedTileBounds_exact c viewport scale hex, Int.floor_le _, Int.floor_le _,
      Int.le_ceil _, Int.le_ceil _⟩

theorem sampleBounds_normal : tileBoundsNormal sampleConstants sampleViewport 2 := by
  have hinv : roundFloat32 ((2 : ℚ) / 256) = 2 / 256 :=
    roundFloat32_dyadic _ 1 (-7) (by norm_num) (by norm_num) (by norm_num)
  have hs : normalFloat ((2 : ℚ) / 256) := Or.inr (by norm_num [abs_of_pos])
  have h0 : normalFloat ((0 : ℚ) * roundFloat32 (2 / 256)) := Or.inl (by simp)
  have h4 : normalFloat ((512 : ℚ) * roundFloat32 (2 / 256)) := by
    rw [hinv]
    exact Or.inr (by norm_num [abs_of_pos])
  exact ⟨hs, hs, h0, h0, h4, h4⟩

theorem setViewport_tile_bounds_witness :
    tileBoundsDefined sampleConstants sampleViewport 2 ∧
    tileBoundsNormal sampleConstants sampleViewport 2 ∧
    tileBoundsExact sampleConstants sampleViewport 2 ∧
    ¬ (GLWebViewState.initial.m_viewport = sampleViewport ∧
        GLWebViewState.initial.m_futureScale = 2) ∧
    (GLWebViewState.initial.setViewport sampleConstants sampleViewport 2).m_viewportTileBounds
      = roundedTileBounds sampleConstants sampleViewport 2 ∧
    roundedTileBounds sampleConstants sampleViewport 2 = ⟨0, 0, 4, 4⟩ ∧
    roundedTileBounds sampleConstants sampleViewport 2
      = tileBounds sampleConstants sampleViewport 2 :=
  ⟨sampleBounds_defined, sampleBounds_normal, sampleBounds_rounded.2,
    by simp [GLWebViewState.initial, sampleViewport, SkRect.empty],
    (setViewport_tile_bounds sampleConstants sampleViewport 2 GLWebViewState.initial
      sampleBounds_defined).1 (by simp [GLWebViewState.initial, sampleViewport, SkRect.empty]),
    sampleBounds_rounded.1,
    ((setViewport_tile_bounds sampleConstants sampleViewport 2 GLWebViewState.initial
      sampleBounds_defined).2.2.2.2 sampleBounds_rounded.2).1⟩

/-- C16, as stated, fails: after `setViewport(sampleViewport, 2)` on the constructor
state, the call `setViewport(sampleViewport, 1)` returns early (same viewport,
future scale 1) and leaves the tile bounds (0, 0, 4, 4) of scale 2, while the
tile bounds of the viewport at scale 1 are (0, 0, 2, 2). -/
theorem setViewport_unchanged_keeps_stale_bounds :
    ((GLWebViewState.initial.setViewport sampleConstants sampleViewport 2).setViewport
        sampleConstants sampleViewport 1).m_viewportTileBounds = ⟨0, 0, 4, 4⟩ ∧
    tileBounds sampleConstants sampleViewport 1 = ⟨0, 0, 2, 2⟩ ∧
    ((GLWebViewState.initial.setViewport sampleConstants sampleViewport 2).setViewport
        sampleConstants sampleViewport 1).m_viewportTileBounds
      ≠ tileBounds sampleConstants sampleViewport 1 := by
  have h2 : ((GLWebViewState.initial.setViewport sampleConstants sampleViewport 2).setViewport
      sampleConstants sampleViewport 1).m_viewportTileBounds = ⟨0, 0, 4, 4⟩ := by
    rw [setViewport_sample, setViewport_unchanged sampleConstants sampleViewport 1 _ ⟨rfl, rfl⟩]
  have h3 : tileBounds sampleConstants sampleViewport 1 = ⟨0, 0, 2, 2⟩ := by
    rw [tileBounds_eq]
    norm_num [sampleViewport, sampleConstants]
  refine ⟨h2, h3, ?_⟩
  rw [h2, h3]
  decide

/-- Rounding makes the tile bounds miss the viewport: with the scale 0.33333334 (the
`float` nearest to one third) and a viewport of 768 pixels, the product
768 * (scale / 256) = 1 + 2^-25 rounds to 1, so the first call after the
constructor sets the tile bounds (0, 0, 1, 1) and a texture count of 32, while floor
and ceiling of the exact scaled edges are (0, 0, 2, 2). -/
theorem setViewport_rounded_bounds_short :
    tileBoundsDefined sampleConstants wideViewport thirdScale ∧
    GLWebViewState.initial.setViewport sampleConstants wideViewport thirdScale =
      { GLWebViewState.initial with
        m_previousViewport := SkRect.empty
        m_viewport := wideViewport
        m_viewportTileBounds := ⟨0, 0, 1, 1⟩
        m_calls := [.setMaxTextureCount 32, .updateBaseTileSize 1, .updateBaseTileSize 2] } ∧
    tileBounds sampleConstants wideViewport thirdScale = ⟨0, 0, 2, 2⟩ := by
  have hinv : roundFloat32 (thirdScale / 256) = thirdScale / 256 :=
    roundFloat32_dyadic _ 11184811 (-33) (by norm_num [thirdScale]) (by norm_num)
      (by norm_num)
  have h0 : roundFloat32 ((0 : ℚ) * (thirdScale / 256)) = 0 := by
    rw [zero_mul, roundFloat32_zero]
  have h1 : roundFloat32 ((768 : ℚ) * (thirdScale / 256)) = 1 := by
    rw [roundFloat32_of_binade _ 0 (by norm_num [thirdScale]) (by norm_num [thirdScale])
      (by norm_num)]
    norm_num [roundHalfEven, thirdScale]
  have hb : roundedTileBounds sampleConstants wideViewport thirdScale = ⟨0, 0, 1, 1⟩ := by
    simp only [roundedTileBounds, sampleConstants, wideViewport, hinv, h0, h1]
    norm_num
  have hdef : tileBoundsDefined sampleConstants wideViewport thirdScale := by
    refine ⟨by norm_num [sampleConstants], by norm_num [sampleConstants], ?_, ?_, ?_⟩
    · show |roundFloat32 (thirdScale / 256)| < 2 ^ 128
      rw [hinv]
      norm_num [thirdScale, abs_of_pos]
    · show |roundFloat32 (thirdScale / 256)| < 2 ^ 128
      rw [hinv]
      norm_num [thirdScale, abs_of_pos]
    · rw [hb]
      norm_num
  refine ⟨hdef, ?_, ?_⟩
  · rw [setViewport_recompute _ _ _ _
      (by simp [GLWebViewState.initial, wideViewport, SkRect.empty]),
      viewportTileBoundsFor_eq _ _ _ hdef, hb]
    have hcount : maxTextureCountFor sampleConstants ⟨0, 0, 1, 1⟩ = 32 := by
      rw [maxTextureCountFor_eq]
      norm_num [SkIRect.width, SkIRect.height, subInt32, wrapInt32, sampleConstants]
    rw [hcount]
    simp [GLWebViewState.initial, FIRST_TILED_PAGE_ID, SECOND_TILED_PAGE_ID, SkRect.empty]
  · rw [tileBounds_eq]
    norm_num [wideViewport, sampleConstants, thirdScale]
    rw [Int.ceil_eq_iff]
    norm_num

/-! ## drawGL -/

@[simp] theorem drawBasePictureInGL_gPrevTime (c : Constants) (inp : FrameInput)
    (layer : BaseLayerAndroid) (viewport : SkRect) (scale : ℚ) (st : GLWebViewState) :
    (drawBasePictureInGL c inp layer viewport scale st).2.gPrevTime = st.gPrevTime := by
  simp only [drawBasePictureInGL]
  split_ifs <;> simp

theorem BaseLayerAndroid.drawGL_gPrevTime (c : Constants) (inp : FrameInput)
    (children : Option Bool) (viewRect : IntRect) (visibleRect : SkRect) (scale : ℚ)
    (layer : BaseLayerAndroid) (st : GLWebViewState) (r : Bool) (l : BaseLayerAndroid)
    (s : GLWebViewState)
    (h : layer.drawGL c inp children viewRect visibleRect scale st = some (r, l, s)) :
    s.gPrevTime = st.gPrevTime := by
  unfold BaseLayerAndroid.drawGL at h
  rcases children with _ | drawn
  · simp only [Option.some.injEq, Prod.mk.injEq] at h
    rw [← h.2.2]
    simp
  · simp only at h
    split_ifs at h <;>
      (simp only [Option.some.injEq, Prod.mk.injEq] at h
       rw [← h.2.2]
       simp)

/-- The base layer's `drawGL` returns when the layer has no child or a view state is
attached; it then hands back the layer with the visible rectangle recorded. -/
theorem BaseLayerAndroid.drawGL_returns (c : Constants) (inp : FrameInput)
    (children : Option Bool) (viewRect : IntRect) (visibleRect : SkRect) (scale : ℚ)
    (layer : BaseLayerAndroid) (st : GLWebViewState)
    (h : children = none ∨ layer.hasGLWebViewState = true) :
    ∃ (r : Bool) (s : GLWebViewState),
      layer.drawGL c inp children viewRect visibleRect scale st
        = some (r, { layer with m_previousVisible := visibleRect }, s) := by
  unfold BaseLayerAndroid.drawGL
  rcases children with _ | drawn
  · exact ⟨_, _, rfl⟩
  · rcases h with h | h
    · cases h
    · simp only [h, if_true]
      exact ⟨_, _, rfl⟩

/-- C17: `drawGL` called less than `FRAMERATE_CAP` after the recorded previous
frame time returns true and changes nothing: the state, including the previous
frame time and the trace of calls, and the base layer are as before. Once the cap
has elapsed the current time is recorded as previous frame time before anything
else: with no current base layer the call returns false and nothing else changes;
with a current base layer the call is the base layer's `drawGL` on the state with
the time recorded, which returns (when the layer has no child or a view state is
attached) with the time still recorded and the visible rectangle stored. -/
theorem drawGL_framerate_cap (c : Constants) (currentTime : ℚ) (inp : FrameInput)
    (children : Option Bool) (layer : BaseLayerAndroid) (rect : IntRect) (viewport : SkRect)
    (scale : ℚ) (st : GLWebViewState) :
    (currentTime - st.gPrevTime < FRAMERATE_CAP →
      st.drawGL c currentTime inp children layer rect viewport scale = some (true, layer, st)) ∧
    (¬ (currentTime - st.gPrevTime < FRAMERATE_CAP) →
      (st.m_currentBaseLayer = none →
        st.drawGL c currentTime inp children layer rect viewport scale
          = some (false, layer, { st with gPrevTime := currentTime })) ∧
      (st.m_currentBaseLayer ≠ none →
        st.drawGL c currentTime inp children layer rect viewport scale
          = layer.drawGL c inp children rect viewport scale
              { st with gPrevTime := currentTime } ∧
        (children = none ∨ layer.hasGLWebViewState = true →
          ∃ (r : Bool) (s : GLWebViewState),
            st.drawGL c currentTime inp children layer rect viewport scale
              = some (r, { layer with m_previousVisible := viewport }, s) ∧
            s.gPrevTime = currentTime))) := by
  refine ⟨fun h => ?_, fun h => ⟨fun hb => ?_, fun hb => ?_⟩⟩
  · simp [GLWebViewState.drawGL, h]
  · simp [GLWebViewState.drawGL, h, hb]
  · have heq : st.drawGL c currentTime inp children layer rect viewport scale
        = layer.drawGL c inp children rect viewport scale
            { st with gPrevTime := currentTime } := by
      simp only [GLWebViewState.drawGL, h, if_false]
      rcases hl : st.m_currentBaseLayer with _ | b
      · exact absurd hl hb
      · rfl
    refine ⟨heq, fun hret => ?_⟩
    obtain ⟨r, s, hs⟩ := BaseLayerAndroid.drawGL_returns c inp children rect viewport scale
      layer { st with gPrevTime := currentTime } hret
    refine ⟨r, s, by rw [heq, hs], ?_⟩
    exact BaseLayerAndroid.drawGL_gPrevTime _ _ _ _ _ _ _ _ _ _ _ hs

/-! ## Frames: return value, idle frames, crossfade frames -/

theorem drawBasePictureInGL_skip (c : Constants) (inp : FrameInput) (layer : BaseLayerAndroid)
    (viewport : SkRect) (scale : ℚ) (st : GLWebViewState)
    (h : layer.contentIsEmpty = true ∨ layer.hasGLWebViewState = false) :
    drawBasePictureInGL c inp layer viewport scale st = (false, st) := by
  rcases h with h | h
  · simp [drawBasePictureInGL, h]
  · simp [drawBasePictureInGL, h]

theorem drawBasePictureInGL_eq (c : Constants) (inp : FrameInput) (layer : BaseLayerAndroid)
    (viewport : SkRect) (scale : ℚ) (st : GLWebViewState)
    (hc : layer.contentIsEmpty = false) (hg : layer.hasGLWebViewState = true) :
    drawBasePictureInGL c inp layer viewport scale st =
      frameFinish inp (frameBeforeFinish c inp layer viewport scale st).2 scale
        (frameBeforeFinish c inp layer viewport scale st).1 := by
  simp [drawBasePictureInGL, frameBeforeFinish, frameReceived, frameScheduled, hc, hg]

theorem frameFinish_fst (inp : FrameInput) (w : Bool) (scale : ℚ) (st : GLWebViewState) :
    (frameFinish inp w scale st).1 =
      (decide (st.m_scaleRequestState ≠ .kNoScaleRequest) || !inp.frontReadyFinal) := by
  simp only [frameFinish]
  split_ifs <;> rfl

theorem frameFinish_usePageA (inp : FrameInput) (w : Bool) (scale : ℚ) (st : GLWebViewState) :
    (frameFinish inp w scale st).2.m_usePageA = if w = true then !st.m_usePageA
      else st.m_usePageA := by
  simp only [frameFinish]
  split_ifs <;> simp [GLWebViewState.swapPages, GLWebViewState.record]

@[simp] theorem frameBeforeFinish_usePageA (c : Constants) (inp : FrameInput)
    (layer : BaseLayerAndroid) (viewport : SkRect) (scale : ℚ) (st : GLWebViewState) :
    (frameBeforeFinish c inp layer viewport scale st).1.m_usePageA = st.m_usePageA := by
  simp [frameBeforeFinish, frameReceived, frameScheduled]

@[simp] theorem frameBeforeFinish_pageA (c : Constants) (inp : FrameInput)
    (layer : BaseLayerAndroid) (viewport : SkRect) (scale : ℚ) (st : GLWebViewState) :
    (frameBeforeFinish c inp layer viewport scale st).1.m_tiledPageA = st.m_tiledPageA := by
  simp [frameBeforeFinish, frameReceived, frameScheduled]

@[simp] theorem frameBeforeFinish_pageB (c : Constants) (inp : FrameInput)
    (layer : BaseLayerAndroid) (viewport : SkRect) (scale : ℚ) (st : GLWebViewState) :
    (frameBeforeFinish c inp layer viewport scale st).1.m_tiledPageB = st.m_tiledPageB := by
  simp [frameBeforeFinish, frameReceived, frameScheduled]

/-- C20: `drawBasePictureInGL` returns false and leaves the view state untouched when
the content is empty or no view state is attached. Otherwise the frame is lines
129-244 followed by the return-value computation and the swap, and it returns true
exactly when, before any swap, the scale-request state is not `kNoScaleRequest` or
the front page reports not ready for the pre-zoom bounds at the current scale
(line 248); so false means no scale request and a front page that is ready. -/
theorem drawBasePictureInGL_return (c : Constants) (inp : FrameInput) (layer : BaseLayerAndroid)
    (viewport : SkRect) (scale : ℚ) (st : GLWebViewState) :
    (layer.contentIsEmpty = true ∨ layer.hasGLWebViewState = false →
      drawBasePictureInGL c inp layer viewport scale st = (false, st)) ∧
    (layer.contentIsEmpty = false → layer.hasGLWebViewState = true →
      drawBasePictureInGL c inp layer viewport scale st =
        frameFinish inp (frameBeforeFinish c inp layer viewport scale st).2 scale
          (frameBeforeFinish c inp layer viewport scale st).1 ∧
      (frameBeforeFinish c inp layer viewport scale st).1.frontPage = st.frontPage ∧
      ((drawBasePictureInGL c inp layer viewport scale st).1 = true ↔
        (frameBeforeFinish c inp layer viewport scale st).1.m_scaleRequestState
            ≠ .kNoScaleRequest ∨
          inp.frontReadyFinal = false) ∧
      ((drawBasePictureInGL c inp layer viewport scale st).1 = false ↔
        (frameBeforeFinish c inp layer viewport scale st).1.m_scaleRequestState
            = .kNoScaleRequest ∧
          inp.frontReadyFinal = true)) := by
  refine ⟨drawBasePictureInGL_skip c inp layer viewport scale st, fun hc hg => ?_⟩
  have heq := drawBasePictureInGL_eq c inp layer viewport scale st hc hg
  refine ⟨heq, by simp [GLWebViewState.frontPage], ?_, ?_⟩
  · rw [heq, frameFinish_fst]
    simp
  · rw [heq, frameFinish_fst]
    simp

/-- When the scheduling step leaves `kNoScaleRequest`, it asks for no preparation. -/
theorem frameSchedule_snd_none (c : Constants) (t scale : ℚ) (st : GLWebViewState)
    (h : (frameSchedule c t scale st).1.m_scaleRequestState = .kNoScaleRequest) :
    (frameSchedule c t scale st).2 = false := by
  simp only [frameSchedule] at h ⊢
  split_ifs at h ⊢ <;> simp_all

/-- With no scale request after the scale handling, lines 166-212 do nothing. -/
theorem frameBeforeFinish_none (c : Constants) (inp : FrameInput) (layer : BaseLayerAndroid)
    (viewport : SkRect) (scale : ℚ) (st : GLWebViewState)
    (h : (frameScheduled c inp viewport scale st).1.m_scaleRequestState = .kNoScaleRequest) :
    frameBeforeFinish c inp layer viewport scale st =
      frameDisplay inp (decide (layer.m_previousVisible.fTop - viewport.fTop ≤ 0))
        (decide (layer.m_previousVisible.fLeft - viewport.fLeft ≥ 0)) false false 1
        (frameScheduled c inp viewport scale st).1 := by
  have h2 : (frameScheduled c inp viewport scale st).2 = false :=
    frameSchedule_snd_none _ _ _ _ h
  simp [frameBeforeFinish, frameReceived, frameZooming, framePrepare, frameReceive,
    frameTransition, h, h2]

@[simp] theorem unlockBaseLayerUpdate_baseLayerUpdate (st : GLWebViewState) :
    st.unlockBaseLayerUpdate.m_baseLayerUpdate = true := by
  simp [GLWebViewState.unlockBaseLayerUpdate]

@[simp] theorem lockBaseLayerUpdate_baseLayerUpdate (st : GLWebViewState) :
    st.lockBaseLayerUpdate.m_baseLayerUpdate = false := rfl

@[simp] theorem lockBaseLayerUpdate_calls (st : GLWebViewState) :
    st.lockBaseLayerUpdate.m_calls = st.m_calls := rfl

@[simp] theorem record_frontPage (st : GLWebViewState) (k : Call) :
    (st.record k).frontPage = st.frontPage := rfl

@[simp] theorem record_backPage (st : GLWebViewState) (k : Call) :
    (st.record k).backPage = st.backPage := rfl

@[simp] theorem frameScheduled_usePageA (c : Constants) (inp : FrameInput) (viewport : SkRect)
    (scale : ℚ) (st : GLWebViewState) :
    (frameScheduled c inp viewport scale st).1.m_usePageA = st.m_usePageA := by
  simp [frameScheduled]

@[simp] theorem frameScheduled_pageA (c : Constants) (inp : FrameInput) (viewport : SkRect)
    (scale : ℚ) (st : GLWebViewState) :
    (frameScheduled c inp viewport scale st).1.m_tiledPageA = st.m_tiledPageA := by
  simp [frameScheduled]

@[simp] theorem frameScheduled_pageB (c : Constants) (inp : FrameInput) (viewport : SkRect)
    (scale : ℚ) (st : GLWebViewState) :
    (frameScheduled c inp viewport scale st).1.m_tiledPageB = st.m_tiledPageB := by
  simp [frameScheduled]

@[simp] theorem frameScheduled_currentScale (c : Constants) (inp : FrameInput)
    (viewport : SkRect) (scale : ℚ) (st : GLWebViewState) :
    (frameScheduled c inp viewport scale st).1.m_currentScale = st.m_currentScale := by
  simp [frameScheduled]

@[simp] theorem frameScheduled_baseLayerUpdate (c : Constants) (inp : FrameInput)
    (viewport : SkRect) (scale : ℚ) (st : GLWebViewState) :
    (frameScheduled c inp viewport scale st).1.m_baseLayerUpdate = st.m_baseLayerUpdate := by
  simp [frameScheduled]

@[simp] theorem frameScheduled_transitionTime (c : Constants) (inp : FrameInput)
    (viewport : SkRect) (scale : ℚ) (st : GLWebViewState) :
    (frameScheduled c inp viewport scale st).1.m_transitionTime = st.m_transitionTime := by
  simp [frameScheduled]

@[simp] theorem frameScheduled_draws (c : Constants) (inp : FrameInput) (viewport : SkRect)
    (scale : ℚ) (st : GLWebViewState) :
    drawsOf (frameScheduled c inp viewport scale st).1.m_calls = drawsOf st.m_calls := by
  simp [frameScheduled]

@[simp] theorem frameScheduled_prepares (c : Constants) (inp : FrameInput) (viewport : SkRect)
    (scale : ℚ) (st : GLWebViewState) :
    preparesOf (frameScheduled c inp viewport scale st).1.m_calls = preparesOf st.m_calls := by
  simp [frameScheduled]

/-- A composited frame with no scale request after the scale handling and a view
that is not moving (lines 226-238). -/
theorem frame_still (c : Constants) (inp : FrameInput) (layer : BaseLayerAndroid)
    (viewport : SkRect) (scale : ℚ) (st : GLWebViewState)
    (hc : layer.contentIsEmpty = false) (hg : layer.hasGLWebViewState = true)
    (hs : (frameScheduled c inp viewport scale st).1.m_scaleRequestState = .kNoScaleRequest)
    (hm : inp.moving = false) :
    (drawBasePictureInGL c inp layer viewport scale st).2.m_usePageA
      = (if inp.backReadyPre = true then !st.m_usePageA else st.m_usePageA) ∧
    drawsOf (drawBasePictureInGL c inp layer viewport scale st).2.m_calls
      = drawsOf st.m_calls ++
        [(if inp.backReadyPre = true then st.backPage else st.frontPage, 1,
          (frameScheduled c inp viewport scale st).1.m_preZoomBounds)] ∧
    (drawBasePictureInGL c inp layer viewport scale st).2.m_baseLayerUpdate
      = (if inp.backReadyPre = true then true
          else if inp.frontReadyPre = true then st.m_baseLayerUpdate else false) ∧
    preparesOf (drawBasePictureInGL c inp layer viewport scale st).2.m_calls
      = preparesOf st.m_calls ++ [.setScale st.frontPage st.m_currentScale] ++
        (if inp.frontReadyPre = true then []
          else [.setScale st.backPage st.m_currentScale,
            .prepare st.backPage (decide (layer.m_previousVisible.fTop - viewport.fTop ≤ 0))
              (decide (layer.m_previousVisible.fLeft - viewport.fLeft ≥ 0))
              (frameScheduled c inp viewport scale st).1.m_preZoomBounds]) := by
  rw [drawBasePictureInGL_eq c inp layer viewport scale st hc hg,
    frameBeforeFinish_none c inp layer viewport scale st hs]
  simp only [frameFinish_usePageA, frameFinish_draws, frameFinish_baseLayerUpdate,
    frameFinish_prepares]
  cases hb : inp.backReadyPre <;> cases hf : inp.frontReadyPre <;>
    simp [frameDisplay, hm, hb, hf, GLWebViewState.frontPage, GLWebViewState.backPage]

theorem zoomInTransitionTime_twice (c : Constants) (t : ℚ) (st : GLWebViewState) :
    (st.zoomInTransitionTime c t).2.zoomInTransitionTime c t = st.zoomInTransitionTime c t := by
  by_cases h : st.m_transitionTime = -1
  · by_cases h2 : t + c.s_zoomInTransitionDelay = -1
    · simp [GLWebViewState.zoomInTransitionTime, h, h2]
    · simp [GLWebViewState.zoomInTransitionTime, h, h2]
  · simp [GLWebViewState.zoomInTransitionTime, h]

theorem zoomOutTransitionTime_twice (c : Constants) (t : ℚ) (st : GLWebViewState) :
    (st.zoomOutTransitionTime c t).2.zoomOutTransitionTime c t
      = st.zoomOutTransitionTime c t := by
  by_cases h : st.m_transitionTime = -1
  · by_cases h2 : t + c.s_zoomOutTransitionDelay = -1
    · simp [GLWebViewState.zoomOutTransitionTime, h, h2]
    · simp [GLWebViewState.zoomOutTransitionTime, h, h2]
  · simp [GLWebViewState.zoomOutTransitionTime, h]

theorem zoomInTransparency_after_time (c : Constants) (t : ℚ) (st : GLWebViewState) :
    (st.zoomInTransitionTime c t).2.zoomInTransparency c t =
      ((st.zoomInTransparency c t).1, (st.zoomInTransitionTime c t).2) := by
  simp only [GLWebViewState.zoomInTransparency, zoomInTransitionTime_twice]

theorem zoomOutTransparency_after_time (c : Constants) (t : ℚ) (st : GLWebViewState) :
    (st.zoomOutTransitionTime c t).2.zoomOutTransparency c t =
      ((st.zoomOutTransparency c t).1, (st.zoomOutTransitionTime c t).2) := by
  simp only [GLWebViewState.zoomOutTransparency, zoomOutTransitionTime_twice]

@[simp] theorem zoomInTransitionTime_backPage (c : Constants) (t : ℚ) (st : GLWebViewState) :
    (st.zoomInTransitionTime c t).2.backPage = st.backPage := by
  simp [GLWebViewState.backPage]

@[simp] theorem zoomOutTransitionTime_backPage (c : Constants) (t : ℚ) (st : GLWebViewState) :
    (st.zoomOutTransitionTime c t).2.backPage = st.backPage := by
  simp [GLWebViewState.backPage]

/-- The crossfade step (lines 193-212) in state `kReceivedNewScale`, zooming out. -/
theorem frameTransition_out (c : Constants) (t scale : ℚ) (st : GLWebViewState)
    (h : st.m_scaleRequestState = .kReceivedNewScale) (hz : scale < st.m_currentScale) :
    frameTransition c t scale st =
      if t > (st.zoomOutTransitionTime c t).1 then
        (((st.zoomOutTransitionTime c t).2.record
            (.draw st.backPage (1 - (st.zoomOutTransparency c t).1)
              st.m_viewportTileBounds)).resetTransitionTime, 1, true)
      else
        ((st.zoomOutTransitionTime c t).2.record
            (.draw st.backPage (1 - (st.zoomOutTransparency c t).1)
              st.m_viewportTileBounds), 1, false) := by
  simp only [frameTransition, h, hz, if_true, zoomOutTransitionTime_currentScale,
    zoomOutTransparency_after_time, zoomOutTransitionTime_viewportTileBounds]

/-- The crossfade step (lines 193-212) in state `kReceivedNewScale`, zooming in. -/
theorem frameTransition_in (c : Constants) (t scale : ℚ) (st : GLWebViewState)
    (h : st.m_scaleRequestState = .kReceivedNewScale) (hz : ¬ scale < st.m_currentScale) :
    frameTransition c t scale st =
      if t > (st.zoomInTransitionTime c t).1 then
        (((st.zoomInTransitionTime c t).2.record
            (.draw st.backPage 1 st.m_viewportTileBounds)).resetTransitionTime,
          (st.zoomInTransparency c t).1, true)
      else
        ((st.zoomInTransitionTime c t).2.record
            (.draw st.backPage 1 st.m_viewportTileBounds),
          (st.zoomInTransparency c t).1, false) := by
  simp only [frameTransition, h, hz, if_true, if_false, zoomInTransitionTime_currentScale,
    zoomInTransparency_after_time, zoomInTransitionTime_viewportTileBounds]

/-- While zooming, lines 239-244 draw the front page whatever the pages report. -/
theorem frameDisplay_zooming (inp : FrameInput) (d l w : Bool) (tr : ℚ)
    (st : GLWebViewState) :
    frameDisplay inp d l true w tr st =
      ((((st.record (.setScale st.frontPage st.m_currentScale)).unlockBaseLayerUpdate).record
          (.prepare st.frontPage d l st.m_preZoomBounds)).record
        (.draw st.frontPage tr st.m_preZoomBounds), w) := by
  simp [frameDisplay]

theorem frameReceived_state (c : Constants) (inp : FrameInput) (layer : BaseLayerAndroid)
    (viewport : SkRect) (scale : ℚ) (st : GLWebViewState) :
    (frameReceived c inp layer viewport scale st).m_scaleRequestState =
      if (frameScheduled c inp viewport scale st).1.m_scaleRequestState = .kRequestNewScale
          ∧ inp.backReadyFuture = true then .kReceivedNewScale
      else (frameScheduled c inp viewport scale st).1.m_scaleRequestState := by
  simp [frameReceived, frameReceive_state]

theorem frameReceived_zooming (c : Constants) (inp : FrameInput) (layer : BaseLayerAndroid)
    (viewport : SkRect) (scale : ℚ) (st : GLWebViewState)
    (h : (frameReceived c inp layer viewport scale st).m_scaleRequestState
      = .kReceivedNewScale) :
    (frameZooming (frameScheduled c inp viewport scale st).1).2 = true := by
  rw [frameReceived_state] at h
  rw [frameZooming_snd]
  split_ifs at h with h1
  · simp [h1.1]
  · simp [h]

@[simp] theorem frameReceived_usePageA (c : Constants) (inp : FrameInput)
    (layer : BaseLayerAndroid) (viewport : SkRect) (scale : ℚ) (st : GLWebViewState) :
    (frameReceived c inp layer viewport scale st).m_usePageA = st.m_usePageA := by
  simp [frameReceived]

@[simp] theorem frameReceived_pageA (c : Constants) (inp : FrameInput)
    (layer : BaseLayerAndroid) (viewport : SkRect) (scale : ℚ) (st : GLWebViewState) :
    (frameReceived c inp layer viewport scale st).m_tiledPageA = st.m_tiledPageA := by
  simp [frameReceived]

@[simp] theorem frameReceived_pageB (c : Constants) (inp : FrameInput)
    (layer : BaseLayerAndroid) (viewport : SkRect) (scale : ℚ) (st : GLWebViewState) :
    (frameReceived c inp layer viewport scale st).m_tiledPageB = st.m_tiledPageB := by
  simp [frameReceived]

@[simp] theorem frameReceived_currentScale (c : Constants) (inp : FrameInput)
    (layer : BaseLayerAndroid) (viewport : SkRect) (scale : ℚ) (st : GLWebViewState) :
    (frameReceived c inp layer viewport scale st).m_currentScale = st.m_currentScale := by
  simp [frameReceived]

@[simp] theorem frameReceived_transitionTime (c : Constants) (inp : FrameInput)
    (layer : BaseLayerAndroid) (viewport : SkRect) (scale : ℚ) (st : GLWebViewState) :
    (frameReceived c inp layer viewport scale st).m_transitionTime = st.m_transitionTime := by
  simp [frameReceived]

@[simp] theorem frameReceived_draws (c : Constants) (inp : FrameInput)
    (layer : BaseLayerAndroid) (viewport : SkRect) (scale : ℚ) (st : GLWebViewState) :
    drawsOf (frameReceived c inp layer viewport scale st).m_calls = drawsOf st.m_calls := by
  simp [frameReceived]

@[simp] theorem frameReceived_frontPage (c : Constants) (inp : FrameInput)
    (layer : BaseLayerAndroid) (viewport : SkRect) (scale : ℚ) (st : GLWebViewState) :
    (frameReceived c inp layer viewport scale st).frontPage = st.frontPage := by
  simp [GLWebViewState.frontPage]

@[simp] theorem frameReceived_backPage (c : Constants) (inp : FrameInput)
    (layer : BaseLayerAndroid) (viewport : SkRect) (scale : ℚ) (st : GLWebViewState) :
    (frameReceived c inp layer viewport scale st).backPage = st.backPage := by
  simp [GLWebViewState.backPage]

@[simp] theorem resetTransitionTime_transitionTime (st : GLWebViewState) :
    st.resetTransitionTime.m_transitionTime = -1 := rfl

@[simp] theorem zoomInTransitionTime_snd_transitionTime (c : Constants) (t : ℚ)
    (st : GLWebViewState) :
    (st.zoomInTransitionTime c t).2.m_transitionTime = (st.zoomInTransitionTime c t).1 := rfl

@[simp] theorem zoomOutTransitionTime_snd_transitionTime (c : Constants) (t : ℚ)
    (st : GLWebViewState) :
    (st.zoomOutTransitionTime c t).2.m_transitionTime = (st.zoomOutTransitionTime c t).1 := rfl

/-- A composited frame whose transition is evaluated in `kReceivedNewScale` with
the frame scale not below the current scale (zoom-in). -/
theorem frame_crossfade_in (c : Constants) (inp : FrameInput) (layer : BaseLayerAndroid)
    (viewport : SkRect) (scale : ℚ) (st : GLWebViewState)
    (hc : layer.contentIsEmpty = false) (hg : layer.hasGLWebViewState = true)
    (hr : (frameReceived c inp layer viewport scale st).m_scaleRequestState
      = .kReceivedNewScale)
    (hz : ¬ scale < st.m_currentScale) :
    drawsOf (drawBasePictureInGL c inp layer viewport scale st).2.m_calls =
      drawsOf st.m_calls ++
        [(st.backPage, 1, (frameReceived c inp layer viewport scale st).m_viewportTileBounds),
         (st.frontPage,
          ((frameReceived c inp layer viewport scale st).zoomInTransparency c
            inp.currentTime).1,
          (frameReceived c inp layer viewport scale st).m_preZoomBounds)] ∧
    (inp.currentTime > ((frameReceived c inp layer viewport scale st).zoomInTransitionTime c
        inp.currentTime).1 →
      (drawBasePictureInGL c inp layer viewport scale st).2.m_usePageA = (!st.m_usePageA) ∧
      (drawBasePictureInGL c inp layer viewport scale st).2.m_scaleRequestState
        = .kNoScaleRequest ∧
      (drawBasePictureInGL c inp layer viewport scale st).2.m_transitionTime = -1 ∧
      (drawBasePictureInGL c inp layer viewport scale st).2.m_currentScale = scale ∧
      (drawBasePictureInGL c inp layer viewport scale st).2.m_futureScale
        = (frameReceived c inp layer viewport scale st).m_futureScale) ∧
    (¬ inp.currentTime > ((frameReceived c inp layer viewport scale st).zoomInTransitionTime c
        inp.currentTime).1 →
      (drawBasePictureInGL c inp layer viewport scale st).2.m_usePageA = st.m_usePageA ∧
      (drawBasePictureInGL c inp layer viewport scale st).2.m_scaleRequestState
        = .kReceivedNewScale ∧
      (drawBasePictureInGL c inp layer viewport scale st).2.m_transitionTime
        = ((frameReceived c inp layer viewport scale st).zoomInTransitionTime c
            inp.currentTime).1 ∧
      (drawBasePictureInGL c inp layer viewport scale st).2.m_currentScale
        = st.m_currentScale ∧
      (drawBasePictureInGL c inp layer viewport scale st).2.m_futureScale
        = (frameReceived c inp layer viewport scale st).m_futureScale) := by
  have hz2 : ¬ scale < (frameReceived c inp layer viewport scale st).m_currentScale := by
    simpa using hz
  rw [drawBasePictureInGL_eq c inp layer viewport scale st hc hg]
  simp only [frameBeforeFinish, frameReceived_zooming c inp layer viewport scale st hr,
    frameTransition_in c inp.currentTime scale _ hr hz2, frameDisplay_zooming]
  by_cases hT : inp.currentTime >
      ((frameReceived c inp layer viewport scale st).zoomInTransitionTime c inp.currentTime).1
  · simp [hT, frameFinish_state, frameFinish_currentScale, frameFinish_usePageA,
      GLWebViewState.frontPage, GLWebViewState.backPage]
  · simp [hT, frameFinish_state, frameFinish_currentScale, frameFinish_usePageA, hr,
      GLWebViewState.frontPage, GLWebViewState.backPage]

/-- A composited frame whose transition is evaluated in `kReceivedNewScale` with
the frame scale below the current scale (zoom-out). -/
theorem frame_crossfade_out (c : Constants) (inp : FrameInput) (layer : BaseLayerAndroid)
    (viewport : SkRect) (scale : ℚ) (st : GLWebViewState)
    (hc : layer.contentIsEmpty = false) (hg : layer.hasGLWebViewState = true)
    (hr : (frameReceived c inp layer viewport scale st).m_scaleRequestState
      = .kReceivedNewScale)
    (hz : scale < st.m_currentScale) :
    drawsOf (drawBasePictureInGL c inp layer viewport scale st).2.m_calls =
      drawsOf st.m_calls ++
        [(st.backPage,
          1 - ((frameReceived c inp layer viewport scale st).zoomOutTransparency c
            inp.currentTime).1,
          (frameReceived c inp layer viewport scale st).m_viewportTileBounds),
         (st.frontPage, 1, (frameReceived c inp layer viewport scale st).m_preZoomBounds)] ∧
    (inp.currentTime > ((frameReceived c inp layer viewport scale st).zoomOutTransitionTime c
        inp.currentTime).1 →
      (drawBasePictureInGL c inp layer viewport scale st).2.m_usePageA = (!st.m_usePageA) ∧
      (drawBasePictureInGL c inp layer viewport scale st).2.m_scaleRequestState
        = .kNoScaleRequest ∧
      (drawBasePictureInGL c inp layer viewport scale st).2.m_transitionTime = -1 ∧
      (drawBasePictureInGL c inp layer viewport scale st).2.m_currentScale = scale ∧
      (drawBasePictureInGL c inp layer viewport scale st).2.m_futureScale
        = (frameReceived c inp layer viewport scale st).m_futureScale) ∧
    (¬ inp.currentTime > ((frameReceived c inp layer viewport scale st).zoomOutTransitionTime c
        inp.currentTime).1 →
      (drawBasePictureInGL c inp layer viewport scale st).2.m_usePageA = st.m_usePageA ∧
      (drawBasePictureInGL c inp layer viewport scale st).2.m_scaleRequestState
        = .kReceivedNewScale ∧
      (drawBasePictureInGL c inp layer viewport scale st).2.m_transitionTime
        = ((frameReceived c inp layer viewport scale st).zoomOutTransitionTime c
            inp.currentTime).1 ∧
      (drawBasePictureInGL c inp layer viewport scale st).2.m_currentScale
        = st.m_currentScale ∧
      (drawBasePictureInGL c inp layer viewport scale st).2.m_futureScale
        = (frameReceived c inp layer viewport scale st).m_futureScale) := by
  have hz2 : scale < (frameReceived c inp layer viewport scale st).m_currentScale := by
    simpa using hz
  rw [drawBasePictureInGL_eq c inp layer viewport scale st hc hg]
  simp only [frameBeforeFinish, frameReceived_zooming c inp layer viewport scale st hr,
    frameTransition_out c inp.currentTime scale _ hr hz2, frameDisplay_zooming]
  by_cases hT : inp.currentTime >
      ((frameReceived c inp layer viewport scale st).zoomOutTransitionTime c inp.currentTime).1
  · simp [hT, frameFinish_state, frameFinish_currentScale, frameFinish_usePageA,
      GLWebViewState.frontPage, GLWebViewState.backPage]
  · simp [hT, frameFinish_state, frameFinish_currentScale, frameFinish_usePageA, hr,
      GLWebViewState.frontPage, GLWebViewState.backPage]

theorem frameTransition_not_received (c : Constants) (t scale : ℚ) (st : GLWebViewState)
    (h : st.m_scaleRequestState ≠ .kReceivedNewScale) :
    frameTransition c t scale st = (st, 1, false) := by
  simp [frameTransition, h]

@[simp] theorem frameReceived_futureScale (c : Constants) (inp : FrameInput)
    (layer : BaseLayerAndroid) (viewport : SkRect) (scale : ℚ) (st : GLWebViewState) :
    (frameReceived c inp layer viewport scale st).m_futureScale
      = (frameScheduled c inp viewport scale st).1.m_futureScale := by
  simp [frameReceived]

/-- A frame that is not in the crossfade and in which the back page reports not
ready keeps the page roles and the transition time. -/
theorem frame_back_not_ready_roles (c : Constants) (inp : FrameInput)
    (layer : BaseLayerAndroid) (viewport : SkRect) (scale : ℚ) (st : GLWebViewState)
    (hc : layer.contentIsEmpty = false) (hg : layer.hasGLWebViewState = true)
    (hp : inp.backReadyPre = false)
    (hr : (frameReceived c inp layer viewport scale st).m_scaleRequestState
      ≠ .kReceivedNewScale) :
    (drawBasePictureInGL c inp layer viewport scale st).2.m_usePageA = st.m_usePageA ∧
    (drawBasePictureInGL c inp layer viewport scale st).2.m_transitionTime
      = st.m_transitionTime := by
  rw [drawBasePictureInGL_eq c inp layer viewport scale st hc hg]
  simp only [frameBeforeFinish, frameTransition_not_received _ _ _ _ hr, frameFinish_usePageA,
    frameFinish_transitionTime, frameDisplay_usePageA, frameDisplay_transitionTime,
    frameReceived_usePageA, frameReceived_transitionTime, frameDisplay_snd, hp]
  simp

theorem willState_fields :
    willState.m_scaleRequestState = .kWillScheduleRequest ∧ willState.m_updateTime = 3 / 10 ∧
    willState.m_currentScale = 1 ∧ willState.m_futureScale = 2 ∧
    willState.m_usePageA = true ∧ willState.m_transitionTime = -1 := by
  obtain ⟨h1, h2, h3, h4⟩ := frame_zoom_first
  have hr : (frameReceived sampleConstants (waitingFrame 0) sampleLayer sampleViewport 2
      GLWebViewState.initial).m_scaleRequestState ≠ .kReceivedNewScale := by
    rw [frameReceived_state]
    simp only [frameScheduled]
    rw [frameSchedule_fst]
    norm_num [GLWebViewState.scheduleUpdate, GLWebViewState.initial, waitingFrame]
    decide
  obtain ⟨h5, h6⟩ := frame_back_not_ready_roles sampleConstants (waitingFrame 0) sampleLayer
    sampleViewport 2 GLWebViewState.initial rfl rfl rfl hr
  exact ⟨h1, h2, h3, h4, h5, h6⟩

theorem crossfade_received :
    (frameReceived sampleConstants (readyFrame 1) sampleLayer sampleViewport 2
      willState).m_scaleRequestState = .kReceivedNewScale ∧
    (frameReceived sampleConstants (readyFrame 1) sampleLayer sampleViewport 2
      willState).m_futureScale = 2 := by
  obtain ⟨h1, h2, h3, h4, -, -⟩ := willState_fields
  have hS : (frameScheduled sampleConstants (readyFrame 1) sampleViewport 2
      willState).1 =
      { framePreZoom 2 (willState.setViewport sampleConstants sampleViewport 2) with
        m_scaleRequestState := .kRequestNewScale
        m_updateTime := -1 } := by
    simp only [frameScheduled]
    rw [frameSchedule_fst]
    norm_num [GLWebViewState.scheduleUpdate, h1, h2, h3, h4, readyFrame]
  constructor
  · rw [frameReceived_state, hS]
    simp [readyFrame]
  · rw [frameReceived_futureScale, hS]
    simp [h4]

theorem crossfade_window :
    ((frameReceived sampleConstants (readyFrame 1) sampleLayer sampleViewport 2
      willState).zoomInTransitionTime sampleConstants (readyFrame 1).currentTime).1 = 11 / 10 ∧
    ((frameReceived sampleConstants (readyFrame 1) sampleLayer sampleViewport 2
      willState).zoomInTransparency sampleConstants (readyFrame 1).currentTime).1 = 1 := by
  obtain ⟨-, -, -, -, -, h6⟩ := willState_fields
  constructor
  · norm_num [GLWebViewState.zoomInTransitionTime, h6, readyFrame, sampleConstants]
  · norm_num [GLWebViewState.zoomInTransparency, GLWebViewState.zoomInTransitionTime, h6,
      readyFrame, sampleConstants]

theorem crossfadeState_fields :
    crossfadeState.m_scaleRequestState = .kReceivedNewScale ∧
    crossfadeState.m_transitionTime = 11 / 10 ∧
    crossfadeState.m_currentScale = 1 ∧ crossfadeState.m_futureScale = 2 ∧
    crossfadeState.m_usePageA = true := by
  obtain ⟨-, -, h3, -, h5, -⟩ := willState_fields
  obtain ⟨hr, hf⟩ := crossfade_received
  obtain ⟨hT, -⟩ := crossfade_window
  obtain ⟨-, -, hkeep⟩ := frame_crossfade_in sampleConstants (readyFrame 1) sampleLayer
    sampleViewport 2 willState rfl rfl hr (by rw [h3]; norm_num)
  obtain ⟨k1, k2, k3, k4, k5⟩ := hkeep (by rw [hT]; norm_num [readyFrame])
  exact ⟨k2, by rw [← hT]; exact k3, by rw [← h3]; exact k4, by rw [← hf]; exact k5,
    by rw [← h5]; exact k1⟩

/-- C19, as stated, fails: in the frame at time 1 that receives the new scale 2
(zoom-in from scale 1), the back page and the front page are both drawn with
opacity 1, and 1 + 1 is not 1. -/
theorem crossfade_both_pages_opaque :
    (frameReceived sampleConstants (readyFrame 1) sampleLayer sampleViewport 2
      willState).m_scaleRequestState = .kReceivedNewScale ∧
    drawsOf (drawBasePictureInGL sampleConstants (readyFrame 1) sampleLayer sampleViewport 2
        willState).2.m_calls =
      drawsOf willState.m_calls ++
        [(willState.backPage, 1,
          (frameReceived sampleConstants (readyFrame 1) sampleLayer sampleViewport 2
            willState).m_viewportTileBounds),
         (willState.frontPage, 1,
          (frameReceived sampleConstants (readyFrame 1) sampleLayer sampleViewport 2
            willState).m_preZoomBounds)] ∧
    (1 : ℚ) + 1 ≠ 1 := by
  obtain ⟨-, -, h3, -, -, -⟩ := willState_fields
  obtain ⟨hr, -⟩ := crossfade_received
  obtain ⟨-, hz⟩ := crossfade_window
  obtain ⟨hd, -, -⟩ := frame_crossfade_in sampleConstants (readyFrame 1) sampleLayer
    sampleViewport 2 willState rfl rfl hr (by rw [h3]; norm_num)
  rw [hz] at hd
  exact ⟨hr, hd, by norm_num⟩

/-- C19, amended: in every composited frame whose transition is evaluated in
`kReceivedNewScale`, the frame draws the back page and then the front page, one
of them with opacity 1 and the other with a ramp value in `[0, 1]`: zooming out
(`scale < currentScale`) the back page with `1 - zoomOutTransparency` and the
front page with 1, otherwise the back page with 1 and the front page with
`zoomInTransparency`. -/
theorem crossfade_opacities (c : Constants) (inp : FrameInput) (layer : BaseLayerAndroid)
    (viewport : SkRect) (scale : ℚ) (st : GLWebViewState)
    (hc : layer.contentIsEmpty = false) (hg : layer.hasGLWebViewState = true)
    (hr : (frameReceived c inp layer viewport scale st).m_scaleRequestState
      = .kReceivedNewScale) :
    (scale < st.m_currentScale →
      drawsOf (drawBasePictureInGL c inp layer viewport scale st).2.m_calls =
        drawsOf st.m_calls ++
          [(st.backPage,
            1 - ((frameReceived c inp layer viewport scale st).zoomOutTransparency c
              inp.currentTime).1,
            (frameReceived c inp layer viewport scale st).m_viewportTileBounds),
           (st.frontPage, 1, (frameReceived c inp layer viewport scale st).m_preZoomBounds)]) ∧
    (¬ scale < st.m_currentScale →
      drawsOf (drawBasePictureInGL c inp layer viewport scale st).2.m_calls =
        drawsOf st.m_calls ++
          [(st.backPage, 1,
            (frameReceived c inp layer viewport scale st).m_viewportTileBounds),
           (st.frontPage,
            ((frameReceived c inp layer viewport scale st).zoomInTransparency c
              inp.currentTime).1,
            (frameReceived c inp layer viewport scale st).m_preZoomBounds)]) ∧
    0 ≤ ((frameReceived c inp layer viewport scale st).zoomOutTransparency c
      inp.currentTime).1 ∧
    ((frameReceived c inp layer viewport scale st).zoomOutTransparency c
      inp.currentTime).1 ≤ 1 ∧
    0 ≤ ((frameReceived c inp layer viewport scale st).zoomInTransparency c
      inp.currentTime).1 ∧
    ((frameReceived c inp layer viewport scale st).zoomInTransparency c
      inp.currentTime).1 ≤ 1 :=
  ⟨fun hz => (frame_crossfade_out c inp layer viewport scale st hc hg hr hz).1,
    fun hz => (frame_crossfade_in c inp layer viewport scale st hc hg hr hz).1,
    clamp_nonneg _, clamp_le_one _, clamp_nonneg _, clamp_le_one _⟩

/-- C11 fails on the code: after the crossfade to scale 2 has started (current
scale 1, future scale 2, window closing at 11/10), a frame at time 2 whose scale
is 1 again exchanges the page roles, resets the state and the transition time, and
leaves the current scale at 1 although the future scale is 2. -/
theorem crossfade_end_keeps_frame_scale :
    Reachable sampleConstants crossfadeState ∧
    (frameReceived sampleConstants (waitingFrame 2) sampleLayer sampleViewport 1
      crossfadeState).m_scaleRequestState = .kReceivedNewScale ∧
    (waitingFrame 2).currentTime >
      ((frameReceived sampleConstants (waitingFrame 2) sampleLayer sampleViewport 1
        crossfadeState).zoomInTransitionTime sampleConstants (waitingFrame 2).currentTime).1 ∧
    (drawBasePictureInGL sampleConstants (waitingFrame 2) sampleLayer sampleViewport 1
      crossfadeState).2.frontPage = crossfadeState.backPage ∧
    (drawBasePictureInGL sampleConstants (waitingFrame 2) sampleLayer sampleViewport 1
      crossfadeState).2.backPage = crossfadeState.frontPage ∧
    (drawBasePictureInGL sampleConstants (waitingFrame 2) sampleLayer sampleViewport 1
      crossfadeState).2.m_scaleRequestState = .kNoScaleRequest ∧
    (drawBasePictureInGL sampleConstants (waitingFrame 2) sampleLayer sampleViewport 1
      crossfadeState).2.m_transitionTime = -1 ∧
    (drawBasePictureInGL sampleConstants (waitingFrame 2) sampleLayer sampleViewport 1
      crossfadeState).2.m_currentScale = 1 ∧
    (drawBasePictureInGL sampleConstants (waitingFrame 2) sampleLayer sampleViewport 1
      crossfadeState).2.m_futureScale = 2 ∧
    (drawBasePictureInGL sampleConstants (waitingFrame 2) sampleLayer sampleViewport 1
      crossfadeState).2.m_currentScale ≠
      (drawBasePictureInGL sampleConstants (waitingFrame 2) sampleLayer sampleViewport 1
        crossfadeState).2.m_futureScale := by
  obtain ⟨h1, h2, h3, h4, h5⟩ := crossfadeState_fields
  have hS : (frameScheduled sampleConstants (waitingFrame 2) sampleViewport 1
      crossfadeState).1 =
      framePreZoom 1 (crossfadeState.setViewport sampleConstants sampleViewport 1) := by
    simp only [frameScheduled]
    rw [frameSchedule_fst]
    simp [h3]
  have hr : (frameReceived sampleConstants (waitingFrame 2) sampleLayer sampleViewport 1
      crossfadeState).m_scaleRequestState = .kReceivedNewScale := by
    rw [frameReceived_state, hS]
    simp [h1]
  have hf : (frameReceived sampleConstants (waitingFrame 2) sampleLayer sampleViewport 1
      crossfadeState).m_futureScale = 2 := by
    rw [frameReceived_futureScale, hS]
    simp [h4]
  have hT : ((frameReceived sampleConstants (waitingFrame 2) sampleLayer sampleViewport 1
      crossfadeState).zoomInTransitionTime sampleConstants (waitingFrame 2).currentTime).1
      = 11 / 10 := by
    norm_num [GLWebViewState.zoomInTransitionTime, h2]
  have hlate : (waitingFrame 2).currentTime >
      ((frameReceived sampleConstants (waitingFrame 2) sampleLayer sampleViewport 1
        crossfadeState).zoomInTransitionTime sampleConstants (waitingFrame 2).currentTime).1 := by
    rw [hT]
    norm_num [waitingFrame]
  obtain ⟨-, hswap, -⟩ := frame_crossfade_in sampleConstants (waitingFrame 2) sampleLayer
    sampleViewport 1 crossfadeState rfl rfl hr (by rw [h3]; norm_num)
  obtain ⟨k1, k2, k3, k4, k5⟩ := hswap hlate
  refine ⟨⟨crossfadeOps, rfl⟩, hr, hlate, ?_, ?_, k2, k3, k4, by rw [k5, hf], ?_⟩
  · simp [GLWebViewState.frontPage, GLWebViewState.backPage, k1, h5]
  · simp [GLWebViewState.frontPage, GLWebViewState.backPage, k1, h5]
  · rw [k4, k5, hf]
    norm_num

/-- C18: in a composited frame with no scale request after the scale handling
(state `kNoScaleRequest` at line 167) and a view that is not moving, the pages are
swapped exactly when the back page reports ready for the pre-zoom bounds at the
current scale (line 232). In that case the back page is the page drawn (opacity
1) and updates end unlocked; otherwise the front page is drawn, the roles stay,
and the lock is switched on when the front page reports not ready (line 227) and
left as it was when it reports ready. The back page is set to the current scale
and asked to prepare exactly when the front page reports not ready. -/
theorem frame_stability_policy (c : Constants) (inp : FrameInput) (layer : BaseLayerAndroid)
    (viewport : SkRect) (scale : ℚ) (st : GLWebViewState)
    (hc : layer.contentIsEmpty = false) (hg : layer.hasGLWebViewState = true)
    (hs : (frameScheduled c inp viewport scale st).1.m_scaleRequestState = .kNoScaleRequest)
    (hm : inp.moving = false) :
    (inp.backReadyPre = true →
      (drawBasePictureInGL c inp layer viewport scale st).2.frontPage = st.backPage ∧
      (drawBasePictureInGL c inp layer viewport scale st).2.backPage = st.frontPage ∧
      drawsOf (drawBasePictureInGL c inp layer viewport scale st).2.m_calls
        = drawsOf st.m_calls ++
          [(st.backPage, 1, (frameScheduled c inp viewport scale st).1.m_preZoomBounds)] ∧
      (drawBasePictureInGL c inp layer viewport scale st).2.m_baseLayerUpdate = true) ∧
    (inp.backReadyPre = false →
      (drawBasePictureInGL c inp layer viewport scale st).2.frontPage = st.frontPage ∧
      (drawBasePictureInGL c inp layer viewport scale st).2.backPage = st.backPage ∧
      drawsOf (drawBasePictureInGL c inp layer viewport scale st).2.m_calls
        = drawsOf st.m_calls ++
          [(st.frontPage, 1, (frameScheduled c inp viewport scale st).1.m_preZoomBounds)] ∧
      (drawBasePictureInGL c inp layer viewport scale st).2.m_baseLayerUpdate
        = (if inp.frontReadyPre = true then st.m_baseLayerUpdate else false)) ∧
    preparesOf (drawBasePictureInGL c inp layer viewport scale st).2.m_calls
      = preparesOf st.m_calls ++ [.setScale st.frontPage st.m_currentScale] ++
        (if inp.frontReadyPre = true then []
          else [.setScale st.backPage st.m_currentScale,
            .prepare st.backPage (decide (layer.m_previousVisible.fTop - viewport.fTop ≤ 0))
              (decide (layer.m_previousVisible.fLeft - viewport.fLeft ≥ 0))
              (frameScheduled c inp viewport scale st).1.m_preZoomBounds]) := by
  obtain ⟨h1, h2, h3, h4⟩ := frame_still c inp layer viewport scale st hc hg hs hm
  refine ⟨fun hb => ?_, fun hb => ?_, h4⟩
  · rw [hb] at h1 h2 h3
    refine ⟨?_, ?_, by simpa using h2, by simpa using h3⟩
    · cases hu : st.m_usePageA <;>
        simp [GLWebViewState.frontPage, GLWebViewState.backPage, h1, hu]
    · cases hu : st.m_usePageA <;>
        simp [GLWebViewState.frontPage, GLWebViewState.backPage, h1, hu]
  · rw [hb] at h1 h2 h3
    refine ⟨?_, ?_, by simpa using h2, by simpa using h3⟩
    · simp [GLWebViewState.frontPage, h1]
    · simp [GLWebViewState.backPage, h1]

theorem frame_stability_policy_witness :
    sampleLayer.contentIsEmpty = false ∧ sampleLayer.hasGLWebViewState = true ∧
    (frameScheduled sampleConstants (settledFrame 0) sampleViewport 1
      GLWebViewState.initial).1.m_scaleRequestState = .kNoScaleRequest ∧
    (settledFrame 0).moving = false ∧
    ((settledFrame 0).backReadyPre = true →
      (drawBasePictureInGL sampleConstants (settledFrame 0) sampleLayer sampleViewport 1
        GLWebViewState.initial).2.frontPage = GLWebViewState.initial.backPage ∧
      (drawBasePictureInGL sampleConstants (settledFrame 0) sampleLayer sampleViewport 1
        GLWebViewState.initial).2.backPage = GLWebViewState.initial.frontPage ∧
      drawsOf (drawBasePictureInGL sampleConstants (settledFrame 0) sampleLayer sampleViewport 1
          GLWebViewState.initial).2.m_calls
        = drawsOf GLWebViewState.initial.m_calls ++
          [(GLWebViewState.initial.backPage, 1,
            (frameScheduled sampleConstants (settledFrame 0) sampleViewport 1
              GLWebViewState.initial).1.m_preZoomBounds)] ∧
      (drawBasePictureInGL sampleConstants (settledFrame 0) sampleLayer sampleViewport 1
        GLWebViewState.initial).2.m_baseLayerUpdate = true) ∧
    ((settledFrame 0).backReadyPre = false →
      (drawBasePictureInGL sampleConstants (settledFrame 0) sampleLayer sampleViewport 1
        GLWebViewState.initial).2.frontPage = GLWebViewState.initial.frontPage ∧
      (drawBasePictureInGL sampleConstants (settledFrame 0) sampleLayer sampleViewport 1
        GLWebViewState.initial).2.backPage = GLWebViewState.initial.backPage ∧
      drawsOf (drawBasePictureInGL sampleConstants (settledFrame 0) sampleLayer sampleViewport 1
          GLWebViewState.initial).2.m_calls
        = drawsOf GLWebViewState.initial.m_calls ++
          [(GLWebViewState.initial.frontPage, 1,
            (frameScheduled sampleConstants (settledFrame 0) sampleViewport 1
              GLWebViewState.initial).1.m_preZoomBounds)] ∧
      (drawBasePictureInGL sampleConstants (settledFrame 0) sampleLayer sampleViewport 1
        GLWebViewState.initial).2.m_baseLayerUpdate
        = (if (settledFrame 0).frontReadyPre = true then
            GLWebViewState.initial.m_baseLayerUpdate else false)) ∧
    preparesOf (drawBasePictureInGL sampleConstants (settledFrame 0) sampleLayer sampleViewport 1
        GLWebViewState.initial).2.m_calls
      = preparesOf GLWebViewState.initial.m_calls ++
        [.setScale GLWebViewState.initial.frontPage GLWebViewState.initial.m_currentScale] ++
        (if (settledFrame 0).frontReadyPre = true then []
          else [.setScale GLWebViewState.initial.backPage
              GLWebViewState.initial.m_currentScale,
            .prepare GLWebViewState.initial.backPage
              (decide (sampleLayer.m_previousVisible.fTop - sampleViewport.fTop ≤ 0))
              (decide (sampleLayer.m_previousVisible.fLeft - sampleViewport.fLeft ≥ 0))
              (frameScheduled sampleConstants (settledFrame 0) sampleViewport 1
                GLWebViewState.initial).1.m_preZoomBounds]) :=
  have hs : (frameScheduled sampleConstants (settledFrame 0) sampleViewport 1
      GLWebViewState.initial).1.m_scaleRequestState = .kNoScaleRequest := by
    simp only [frameScheduled]
    rw [frameSchedule_fst]
    simp [GLWebViewState.initial]
  ⟨rfl, rfl, hs, rfl,
    frame_stability_policy sampleConstants (settledFrame 0) sampleLayer sampleViewport 1
      GLWebViewState.initial rfl rfl hs rfl⟩

theorem crossfade_opacities_witness :
    sampleLayer.contentIsEmpty = false ∧ sampleLayer.hasGLWebViewState = true ∧
    (frameReceived sampleConstants (readyFrame 1) sampleLayer sampleViewport 2
      willState).m_scaleRequestState = .kReceivedNewScale ∧
    ((2 < willState.m_currentScale →
      drawsOf (drawBasePictureInGL sampleConstants (readyFrame 1) sampleLayer sampleViewport 2
          willState).2.m_calls =
        drawsOf willState.m_calls ++
          [(willState.backPage,
            1 - ((frameReceived sampleConstants (readyFrame 1) sampleLayer sampleViewport 2
              willState).zoomOutTransparency sampleConstants (readyFrame 1).currentTime).1,
            (frameReceived sampleConstants (readyFrame 1) sampleLayer sampleViewport 2
              willState).m_viewportTileBounds),
           (willState.frontPage, 1,
            (frameReceived sampleConstants (readyFrame 1) sampleLayer sampleViewport 2
              willState).m_preZoomBounds)]) ∧
    (¬ 2 < willState.m_currentScale →
      drawsOf (drawBasePictureInGL sampleConstants (readyFrame 1) sampleLayer sampleViewport 2
          willState).2.m_calls =
        drawsOf willState.m_calls ++
          [(willState.backPage, 1,
            (frameReceived sampleConstants (readyFrame 1) sampleLayer sampleViewport 2
              willState).m_viewportTileBounds),
           (willState.frontPage,
            ((frameReceived sampleConstants (readyFrame 1) sampleLayer sampleViewport 2
              willState).zoomInTransparency sampleConstants (readyFrame 1).currentTime).1,
            (frameReceived sampleConstants (readyFrame 1) sampleLayer sampleViewport 2
              willState).m_preZoomBounds)]) ∧
    0 ≤ ((frameReceived sampleConstants (readyFrame 1) sampleLayer sampleViewport 2
      willState).zoomOutTransparency sampleConstants (readyFrame 1).currentTime).1 ∧
    ((frameReceived sampleConstants (readyFrame 1) sampleLayer sampleViewport 2
      willState).zoomOutTransparency sampleConstants (readyFrame 1).currentTime).1 ≤ 1 ∧
    0 ≤ ((frameReceived sampleConstants (readyFrame 1) sampleLayer sampleViewport 2
      willState).zoomInTransparency sampleConstants (readyFrame 1).currentTime).1 ∧
    ((frameReceived sampleConstants (readyFrame 1) sampleLayer sampleViewport 2
      willState).zoomInTransparency sampleConstants (readyFrame 1).currentTime).1 ≤ 1) :=
  ⟨rfl, rfl, crossfade_received.1,
    crossfade_opacities sampleConstants (readyFrame 1) sampleLayer sampleViewport 2 willState
      rfl rfl crossfade_received.1⟩

/-! ## Frames that wait for the scheduled update -/

/-- In `kWillScheduleRequest` with the frame scale equal to the current scale, the
guard of line 147 is false: the scheduling step changes nothing and asks for no
preparation. -/
theorem frameScheduled_will_same (c : Constants) (inp : FrameInput) (viewport : SkRect)
    (scale : ℚ) (st : GLWebViewState)
    (hs : st.m_scaleRequestState = .kWillScheduleRequest) (hscale : scale = st.m_currentScale) :
    frameScheduled c inp viewport scale st
      = (framePreZoom scale (st.setViewport c viewport scale), false) := by
  simp [frameScheduled, frameSchedule, hs, hscale]

/-- The frame of the previous lemma, after lines 129-244. -/
theorem frameBeforeFinish_will_same (c : Constants) (inp : FrameInput)
    (layer : BaseLayerAndroid) (viewport : SkRect) (scale : ℚ) (st : GLWebViewState)
    (hs : st.m_scaleRequestState = .kWillScheduleRequest) (hscale : scale = st.m_currentScale) :
    (frameBeforeFinish c inp layer viewport scale st).2 = false ∧
    (frameBeforeFinish c inp layer viewport scale st).1.m_scaleRequestState
      = .kWillScheduleRequest ∧
    (frameBeforeFinish c inp layer viewport scale st).1.m_updateTime = st.m_updateTime ∧
    (frameBeforeFinish c inp layer viewport scale st).1.m_currentScale = st.m_currentScale := by
  have hS := frameScheduled_will_same c inp viewport scale st hs hscale
  have hR : (frameReceived c inp layer viewport scale st).m_scaleRequestState
      ≠ .kReceivedNewScale := by
    rw [frameReceived_state, hS]
    simp [hs]
  have hZ : (frameZooming (frameScheduled c inp viewport scale st).1).2 = true := by
    rw [frameZooming_snd, hS]
    simp [hs]
  simp only [frameBeforeFinish, frameTransition_not_received _ _ _ _ hR, hZ,
    frameDisplay_zooming]
  refine ⟨trivial, ?_, ?_, ?_⟩
  · simp [frameReceived_state, hS, hs]
  · simp [frameReceived, hS]
  · simp

/-- A frame (composited or not) entered in `kWillScheduleRequest` with the frame
scale equal to the current scale keeps the state, the update time, the current
scale and the page roles. -/
theorem frame_will_same_keeps (c : Constants) (inp : FrameInput) (layer : BaseLayerAndroid)
    (viewport : SkRect) (scale : ℚ) (st : GLWebViewState)
    (hs : st.m_scaleRequestState = .kWillScheduleRequest) (hscale : scale = st.m_currentScale) :
    (drawBasePictureInGL c inp layer viewport scale st).2.m_scaleRequestState
      = .kWillScheduleRequest ∧
    (drawBasePictureInGL c inp layer viewport scale st).2.m_updateTime = st.m_updateTime ∧
    (drawBasePictureInGL c inp layer viewport scale st).2.m_currentScale = st.m_currentScale ∧
    (drawBasePictureInGL c inp layer viewport scale st).2.m_usePageA = st.m_usePageA := by
  by_cases hc : layer.contentIsEmpty = true
  · rw [drawBasePictureInGL_skip c inp layer viewport scale st (Or.inl hc)]
    exact ⟨hs, rfl, rfl, rfl⟩
  by_cases hg : layer.hasGLWebViewState = true
  swap
  · rw [drawBasePictureInGL_skip c inp layer viewport scale st (Or.inr (by simpa using hg))]
    exact ⟨hs, rfl, rfl, rfl⟩
  simp only [Bool.not_eq_true] at hc
  obtain ⟨h1, h2, h3, h4⟩ := frameBeforeFinish_will_same c inp layer viewport scale st hs hscale
  rw [drawBasePictureInGL_eq c inp layer viewport scale st hc hg]
  simp only [frameFinish_state, frameFinish_updateTime, frameFinish_currentScale,
    frameFinish_usePageA, h1, h2, h3, h4]
  simp

/-- C24: a composited frame of `drawBasePictureInGL` entered in `kWillScheduleRequest`
with the scale argument equal to the current scale finds the guard of line 147
false, so `scheduleUpdate` is not called and no preparation is requested; no swap
is decided (`doSwap` is false after lines 129-244) and the frame returns true,
whatever the clock and the pages report. Every such frame, composited or returning
early, leaves the state `kWillScheduleRequest`, the update time, the current scale
and the page roles unchanged; hence after any sequence of frames at that scale the
state is still `kWillScheduleRequest` with the same update time and current scale. -/
theorem frame_will_same_scale (c : Constants) (inp : FrameInput) (layer : BaseLayerAndroid)
    (viewport : SkRect) (scale : ℚ) (st : GLWebViewState)
    (hs : st.m_scaleRequestState = .kWillScheduleRequest) (hscale : scale = st.m_currentScale) :
    (layer.contentIsEmpty = false → layer.hasGLWebViewState = true →
      ¬ ((framePreZoom scale (st.setViewport c viewport scale)).m_currentScale ≠ scale
          ∧ ((framePreZoom scale (st.setViewport c viewport scale)).m_scaleRequestState
              = .kNoScaleRequest
            ∨ (framePreZoom scale (st.setViewport c viewport scale)).m_scaleRequestState
              = .kWillScheduleRequest
            ∨ (framePreZoom scale (st.setViewport c viewport scale)).m_futureScale ≠ scale)) ∧
      frameScheduled c inp viewport scale st
        = (framePreZoom scale (st.setViewport c viewport scale), false) ∧
      (frameBeforeFinish c inp layer viewport scale st).2 = false ∧
      (drawBasePictureInGL c inp layer viewport scale st).1 = true) ∧
    (drawBasePictureInGL c inp layer viewport scale st).2.m_scaleRequestState
      = .kWillScheduleRequest ∧
    (drawBasePictureInGL c inp layer viewport scale st).2.m_updateTime = st.m_updateTime ∧
    (drawBasePictureInGL c inp layer viewport scale st).2.m_currentScale = st.m_currentScale ∧
    (drawBasePictureInGL c inp layer viewport scale st).2.m_usePageA = st.m_usePageA ∧
    (∀ frames : List (FrameInput × BaseLayerAndroid × SkRect),
      (runOps c (framesAt scale frames) st).m_scaleRequestState = .kWillScheduleRequest ∧
      (runOps c (framesAt scale frames) st).m_updateTime = st.m_updateTime ∧
      (runOps c (framesAt scale frames) st).m_currentScale = st.m_currentScale) := by
  obtain ⟨k1, k2, k3, k4⟩ := frame_will_same_keeps c inp layer viewport scale st hs hscale
  refine ⟨fun hc hg => ⟨?_, frameScheduled_will_same c inp viewport scale st hs hscale, ?_, ?_⟩,
    k1, k2, k3, k4, ?_⟩
  · simp [hscale]
  · exact (frameBeforeFinish_will_same c inp layer viewport scale st hs hscale).1
  · rw [drawBasePictureInGL_eq c inp layer viewport scale st hc hg, frameFinish_fst,
      (frameBeforeFinish_will_same c inp layer viewport scale st hs hscale).2.1]
    rfl
  · intro frames
    clear k1 k2 k3 k4
    induction frames generalizing st with
    | nil => exact ⟨hs, rfl, rfl⟩
    | cons f frames ih =>
      obtain ⟨j1, j2, j3, -⟩ :=
        frame_will_same_keeps c f.1 f.2.1 f.2.2 scale st hs hscale
      obtain ⟨i1, i2, i3⟩ := ih _ j1 (by rw [j3]; exact hscale)
      exact ⟨i1, by rw [← j2]; exact i2, by rw [← j3]; exact i3⟩

theorem frame_will_same_scale_witness :
    willState.m_scaleRequestState = .kWillScheduleRequest ∧
    (1 : ℚ) = willState.m_currentScale ∧
    (drawBasePictureInGL sampleConstants (settledFrame 5) sampleLayer sampleViewport 1
      willState).1 = true ∧
    (drawBasePictureInGL sampleConstants (settledFrame 5) sampleLayer sampleViewport 1
      willState).2.m_scaleRequestState = .kWillScheduleRequest ∧
    (drawBasePictureInGL sampleConstants (settledFrame 5) sampleLayer sampleViewport 1
      willState).2.m_updateTime = willState.m_updateTime :=
  ⟨willState_fields.1, willState_fields.2.2.1.symm,
    ((frame_will_same_scale sampleConstants (settledFrame 5) sampleLayer sampleViewport 1
      willState willState_fields.1 willState_fields.2.2.1.symm).1 rfl rfl).2.2.2,
    (frame_will_same_scale sampleConstants (settledFrame 5) sampleLayer sampleViewport 1
      willState willState_fields.1 willState_fields.2.2.1.symm).2.1,
    (frame_will_same_scale sampleConstants (settledFrame 5) sampleLayer sampleViewport 1
      willState willState_fields.1 willState_fields.2.2.1.symm).2.2.1⟩

/-! ## Replacing the base layer -/

/-- C22: `setBaseLayer(layer, rect, ...)` always records `layer` as the pending base
layer (`m_baseLayer`). While updates are locked it leaves the current base layer
and the picture counter unchanged, reaches no page with `invalidateRect`, and
unites `rect` into the accumulated rectangle. While updates are unlocked it makes
`layer` the current base layer, adds one to the picture counter in `unsigned int`
arithmetic and passes a non-empty `rect` to `invalidateRect` of page A and then of
page B with the new counter (an empty `rect` reaches no page), leaving the
accumulated rectangle unchanged. After `setBaseLayer(layer, ...)`, locked or not,
followed by `unlockBaseLayerUpdate()`, the current base layer is `layer`. -/
theorem setBaseLayer_lock (layer : LayerPtr) (rect : IntRect) (b : Bool)
    (st : GLWebViewState) :
    (st.setBaseLayer layer rect b).m_baseLayer = layer ∧
    (st.setBaseLayer layer rect b).m_baseLayerUpdate = st.m_baseLayerUpdate ∧
    (st.m_baseLayerUpdate = false →
      (st.setBaseLayer layer rect b).m_currentBaseLayer = st.m_currentBaseLayer ∧
      (st.setBaseLayer layer rect b).m_currentPictureCounter = st.m_currentPictureCounter ∧
      invalidationsOf (st.setBaseLayer layer rect b).m_calls = invalidationsOf st.m_calls ∧
      (st.setBaseLayer layer rect b).m_invalidateRect = st.m_invalidateRect.unite rect) ∧
    (st.m_baseLayerUpdate = true →
      (st.setBaseLayer layer rect b).m_currentBaseLayer = layer ∧
      (st.setBaseLayer layer rect b).m_currentPictureCounter
        = (st.m_currentPictureCounter + 1) % 2 ^ 32 ∧
      (st.m_currentPictureCounter + 1 < 2 ^ 32 →
        (st.setBaseLayer layer rect b).m_currentPictureCounter
          = st.m_currentPictureCounter + 1) ∧
      (rect.isEmpty = false →
        invalidationsOf (st.setBaseLayer layer rect b).m_calls =
          invalidationsOf st.m_calls ++
            [(st.m_tiledPageA, rect, (st.m_currentPictureCounter + 1) % 2 ^ 32),
             (st.m_tiledPageB, rect, (st.m_currentPictureCounter + 1) % 2 ^ 32)]) ∧
      (rect.isEmpty = true →
        invalidationsOf (st.setBaseLayer layer rect b).m_calls = invalidationsOf st.m_calls) ∧
      (st.setBaseLayer layer rect b).m_invalidateRect = st.m_invalidateRect) ∧
    ((st.setBaseLayer layer rect b).unlockBaseLayerUpdate).m_currentBaseLayer = layer := by
  refine ⟨?_, ?_, fun h => ?_, fun h => ?_, ?_⟩
  · cases layer <;> cases hb : st.m_baseLayer <;> cases hu : st.m_baseLayerUpdate <;>
      cases he : rect.isEmpty <;>
      simp [GLWebViewState.setBaseLayer, GLWebViewState.inval, GLWebViewState.record, hb, hu, he]
  · cases layer <;> cases hb : st.m_baseLayer <;> cases hu : st.m_baseLayerUpdate <;>
      cases he : rect.isEmpty <;>
      simp [GLWebViewState.setBaseLayer, GLWebViewState.inval, GLWebViewState.record, hb, hu, he]
  · cases layer <;> cases hb : st.m_baseLayer <;>
      simp [GLWebViewState.setBaseLayer, GLWebViewState.inval, GLWebViewState.record, hb, h,
        invalidationsOf, List.filterMap_append]
  · refine ⟨?_, ?_, ?_, ?_, ?_, ?_⟩
    · cases layer <;> cases hb : st.m_baseLayer <;> cases he : rect.isEmpty <;>
        simp [GLWebViewState.setBaseLayer, GLWebViewState.inval, GLWebViewState.record, hb, h, he]
    · cases layer <;> cases hb : st.m_baseLayer <;> cases he : rect.isEmpty <;>
        simp [GLWebViewState.setBaseLayer, GLWebViewState.inval, GLWebViewState.record, hb, h, he]
    · intro hlt
      have h2 : (st.setBaseLayer layer rect b).m_currentPictureCounter
          = (st.m_currentPictureCounter + 1) % 2 ^ 32 := by
        cases layer <;> cases hb : st.m_baseLayer <;> cases he : rect.isEmpty <;>
          simp [GLWebViewState.setBaseLayer, GLWebViewState.inval, GLWebViewState.record, hb,
            h, he]
      rw [h2]
      exact Nat.mod_eq_of_lt hlt
    · intro he
      cases layer <;> cases hb : st.m_baseLayer <;>
        simp [GLWebViewState.setBaseLayer, GLWebViewState.inval, GLWebViewState.record, hb, h,
          he, invalidationsOf, List.filterMap_append]
    · intro he
      cases layer <;> cases hb : st.m_baseLayer <;>
        simp [GLWebViewState.setBaseLayer, GLWebViewState.inval, GLWebViewState.record, hb, h,
          he, invalidationsOf, List.filterMap_append]
    · cases layer <;> cases hb : st.m_baseLayer <;> cases he : rect.isEmpty <;>
        simp [GLWebViewState.setBaseLayer, GLWebViewState.inval, GLWebViewState.record, hb, h, he]
  · cases layer <;> cases hb : st.m_baseLayer <;> cases hu : st.m_baseLayerUpdate <;>
      cases he : rect.isEmpty <;>
      simp [GLWebViewState.setBaseLayer, GLWebViewState.unlockBaseLayerUpdate,
        GLWebViewState.inval, GLWebViewState.record, hb, hu, he, apply_ite]

/-! ## The update time is recorded exactly while waiting -/

theorem set_of_fields {a b : GLWebViewState}
    (hs : a.m_scaleRequestState = b.m_scaleRequestState) (hu : a.m_updateTime = b.m_updateTime)
    (h : b.UpdateTimeSet) : a.UpdateTimeSet := by
  unfold GLWebViewState.UpdateTimeSet at h ⊢
  rw [hs, hu]
  exact h

theorem scheduleUpdate_set (c : Constants) (t : ℚ) (viewport : SkIRect) (scale : ℚ)
    (st : GLWebViewState) (hi : 0 < c.s_updateInitialDelay) (hd : 0 < c.s_updateDelay)
    (ht : 0 ≤ t) (h : st.UpdateTimeSet) :
    (st.scheduleUpdate c t viewport scale).UpdateTimeSet := by
  unfold GLWebViewState.UpdateTimeSet at h ⊢
  unfold GLWebViewState.scheduleUpdate
  split_ifs with h1 h2 h3
  · intro _
    show 0 ≤ t + c.s_updateInitialDelay
    linarith
  · exact h
  · intro hs
    simp at hs
  · intro _
    show 0 ≤ t + c.s_updateDelay
    linarith

theorem frameSchedule_set (c : Constants) (t scale : ℚ) (st : GLWebViewState)
    (hi : 0 < c.s_updateInitialDelay) (hd : 0 < c.s_updateDelay) (ht : 0 ≤ t)
    (h : st.UpdateTimeSet) : (frameSchedule c t scale st).1.UpdateTimeSet := by
  rw [frameSchedule_fst]
  split_ifs
  · exact scheduleUpdate_set c t _ scale st hi hd ht h
  · exact h

theorem drawBasePictureInGL_set (c : Constants) (inp : FrameInput) (layer : BaseLayerAndroid)
    (viewport : SkRect) (scale : ℚ) (st : GLWebViewState)
    (hi : 0 < c.s_updateInitialDelay) (hd : 0 < c.s_updateDelay) (ht : 0 ≤ inp.currentTime)
    (h : st.UpdateTimeSet) :
    (drawBasePictureInGL c inp layer viewport scale st).2.UpdateTimeSet := by
  by_cases hc : layer.contentIsEmpty = true
  · simpa [drawBasePictureInGL, hc] using h
  by_cases hg : layer.hasGLWebViewState = true
  swap
  · simpa [drawBasePictureInGL, hc, hg] using h
  simp only [Bool.not_eq_true] at hc
  obtain ⟨hu, hN, -, hR, hV⟩ := frame_after_schedule c inp layer viewport scale st hc hg _ rfl
  have hS := frameSchedule_set c inp.currentTime scale
    (framePreZoom scale (st.setViewport c viewport scale)) hi hd ht
    (set_of_fields (by simp) (by simp) h)
  intro hW
  rw [hu]
  apply hS
  rcases hst : (frameSchedule c inp.currentTime scale
      (framePreZoom scale (st.setViewport c viewport scale))).1.m_scaleRequestState
    with _ | _ | _ | _
  · rw [hN hst] at hW
    cases hW
  · rfl
  · rcases hR hst with h1 | h1 | h1 <;> rw [h1] at hW <;> cases hW
  · rcases hV hst with h1 | h1 <;> rw [h1] at hW <;> cases hW

theorem clientOp_run_set (c : Constants) (op : ClientOp) (st : GLWebViewState)
    (hi : 0 < c.s_updateInitialDelay) (hd : 0 < c.s_updateDelay)
    (ht : op.timeNonneg = true) (h : st.UpdateTimeSet) : (op.run c st).UpdateTimeSet := by
  cases op with
  | frame inp layer viewport scale =>
    exact drawBasePictureInGL_set c inp layer viewport scale st hi hd
      (by simpa [ClientOp.timeNonneg] using ht) h
  | inval rect => exact set_of_fields (by simp [ClientOp.run]) (by simp [ClientOp.run]) h
  | setBaseLayer layer rect b =>
    exact set_of_fields (by simp [ClientOp.run]) (by simp [ClientOp.run]) h
  | setExtra layer rect b =>
    exact set_of_fields (by simp [ClientOp.run]) (by simp [ClientOp.run]) h
  | unlockBaseLayerUpdate =>
    exact set_of_fields (by simp [ClientOp.run]) (by simp [ClientOp.run]) h

theorem runOps_set (c : Constants) (ops : List ClientOp) (st : GLWebViewState)
    (hi : 0 < c.s_updateInitialDelay) (hd : 0 < c.s_updateDelay)
    (ht : ∀ op ∈ ops, op.timeNonneg = true) (h : st.UpdateTimeSet) :
    (runOps c ops st).UpdateTimeSet := by
  induction ops generalizing st with
  | nil => exact h
  | cons op ops ih =>
    exact ih (op.run c st) (fun o ho => ht o (List.mem_cons_of_mem _ ho))
      (clientOp_run_set c op st hi hd (ht op (List.mem_cons_self _ _)) h)

/-- C23: in every state reached from the constructor's initial state by frames of
`drawBasePictureInGL` whose clock is not negative, interleaved with `inval`,
`setBaseLayer`, `setExtra` and `unlockBaseLayerUpdate`, and with positive update
delays, an update time is recorded exactly in `kWillScheduleRequest`:
`updateTime != -1` if and only if the scale-request state is
`kWillScheduleRequest`. -/
theorem updateTime_set_iff_will (c : Constants) (st : GLWebViewState)
    (hi : 0 < c.s_updateInitialDelay) (hd : 0 < c.s_updateDelay)
    (h : ReachableNonneg c st) :
    st.m_updateTime ≠ -1 ↔ st.m_scaleRequestState = .kWillScheduleRequest := by
  obtain ⟨ops, ht, rfl⟩ := h
  constructor
  · intro hne
    by_contra hs
    exact hne (runOps_idle c ops _ (fun _ => rfl) hs)
  · intro hs hu
    have := runOps_set c ops GLWebViewState.initial hi hd ht
      (fun h0 => by simp [GLWebViewState.initial] at h0) hs
    rw [hu] at this
    norm_num at this

theorem updateTime_set_iff_will_witness :
    (0 : ℚ) < sampleConstants.s_updateInitialDelay ∧ (0 : ℚ) < sampleConstants.s_updateDelay ∧
    ReachableNonneg sampleConstants willState ∧
    (willState.m_updateTime ≠ -1 ↔ willState.m_scaleRequestState = .kWillScheduleRequest) :=
  ⟨by norm_num [sampleConstants], by norm_num [sampleConstants],
    ⟨[.frame (waitingFrame 0) sampleLayer sampleViewport 2],
      by simp [ClientOp.timeNonneg, waitingFrame], rfl⟩,
    updateTime_set_iff_will sampleConstants willState (by norm_num [sampleConstants])
      (by norm_num [sampleConstants])
      ⟨[.frame (waitingFrame 0) sampleLayer sampleViewport 2],
        by simp [ClientOp.timeNonneg, waitingFrame], rfl⟩⟩

/-! ## Frames that return false -/

/-- A composited frame returns false only with no scale request after the scale
handling and the front page reporting ready at line 248. -/
theorem frame_returns_false (c : Constants) (inp : FrameInput) (layer : BaseLayerAndroid)
    (viewport : SkRect) (scale : ℚ) (st : GLWebViewState)
    (hc : layer.contentIsEmpty = false) (hg : layer.hasGLWebViewState = true)
    (hret : (drawBasePictureInGL c inp layer viewport scale st).1 = false) :
    (frameScheduled c inp viewport scale st).1.m_scaleRequestState = .kNoScaleRequest ∧
    inp.frontReadyFinal = true := by
  rw [drawBasePictureInGL_eq c inp layer viewport scale st hc hg, frameFinish_fst] at hret
  simp only [Bool.or_eq_false_iff, decide_eq_false_iff_not, ne_eq, not_not,
    Bool.not_eq_false'] at hret
  obtain ⟨hB, hF⟩ := hret
  refine ⟨?_, hF⟩
  simp only [frameBeforeFinish, frameDisplay_state, frameTransition_state,
    frameReceived_state] at hB
  split_ifs at hB with h1
  exact hB

/-- A composited frame with no scale request after the scale handling and a moving
view ends with updates unlocked. -/
theorem frame_moving_unlocks (c : Constants) (inp : FrameInput) (layer : BaseLayerAndroid)
    (viewport : SkRect) (scale : ℚ) (st : GLWebViewState)
    (hc : layer.contentIsEmpty = false) (hg : layer.hasGLWebViewState = true)
    (hs : (frameScheduled c inp viewport scale st).1.m_scaleRequestState = .kNoScaleRequest)
    (hm : inp.moving = true) :
    (drawBasePictureInGL c inp layer viewport scale st).2.m_baseLayerUpdate = true := by
  rw [drawBasePictureInGL_eq c inp layer viewport scale st hc hg,
    frameBeforeFinish_none c inp layer viewport scale st hs]
  simp only [frameFinish_baseLayerUpdate]
  simp [frameDisplay, hm]

theorem lockedFrameState_fields :
    lockedFrameState.m_scaleRequestState = .kNoScaleRequest ∧
    lockedFrameState.m_updateTime = -1 ∧
    lockedFrameState.m_currentScale = 1 ∧
    lockedFrameState.m_baseLayerUpdate = false := by
  have hS : (frameScheduled sampleConstants (waitingFrame 0) sampleViewport 1
      GLWebViewState.initial).1.m_scaleRequestState = .kNoScaleRequest := by
    simp only [frameScheduled]
    rw [frameSchedule_none _ _ _ _ (by simp [GLWebViewState.initial])
      (by simp [GLWebViewState.initial])]
    simp [GLWebViewState.initial]
  have hU : (frameScheduled sampleConstants (waitingFrame 0) sampleViewport 1
      GLWebViewState.initial).1.m_updateTime = -1 := by
    simp only [frameScheduled]
    rw [frameSchedule_fst]
    simp [GLWebViewState.initial]
  obtain ⟨k1, k2, k3, -⟩ := frame_back_not_ready sampleConstants (waitingFrame 0) sampleLayer
    sampleViewport 1 GLWebViewState.initial rfl rfl rfl rfl _ rfl
    (by
      have := hS
      simp only [frameScheduled] at this
      rw [this]
      decide)
  obtain ⟨-, -, k4, -⟩ := frame_still sampleConstants (waitingFrame 0) sampleLayer
    sampleViewport 1 GLWebViewState.initial rfl rfl hS rfl
  refine ⟨?_, ?_, ?_, ?_⟩
  · show (drawBasePictureInGL sampleConstants (waitingFrame 0) sampleLayer sampleViewport 1
      GLWebViewState.initial).2.m_scaleRequestState = _
    rw [k1]
    exact hS
  · show (drawBasePictureInGL sampleConstants (waitingFrame 0) sampleLayer sampleViewport 1
      GLWebViewState.initial).2.m_updateTime = _
    rw [k2]
    exact hU
  · exact k3
  · show (drawBasePictureInGL sampleConstants (waitingFrame 0) sampleLayer sampleViewport 1
      GLWebViewState.initial).2.m_baseLayerUpdate = _
    rw [k4]
    simp [waitingFrame]

theorem lockedFrame_second :
    (drawBasePictureInGL sampleConstants (frontReadyFrame 1) sampleLayer sampleViewport 1
      lockedFrameState).1 = false ∧
    (drawBasePictureInGL sampleConstants (frontReadyFrame 1) sampleLayer sampleViewport 1
      lockedFrameState).2.m_baseLayerUpdate = false := by
  obtain ⟨h1, h2, h3, h4⟩ := lockedFrameState_fields
  have hS : (frameScheduled sampleConstants (frontReadyFrame 1) sampleViewport 1
      lockedFrameState).1.m_scaleRequestState = .kNoScaleRequest := by
    simp only [frameScheduled]
    rw [frameSchedule_none _ _ _ _ (by simpa using h1) (by simpa using h2)]
    simp [h3]
  obtain ⟨-, -, k4, -⟩ := frame_still sampleConstants (frontReadyFrame 1) sampleLayer
    sampleViewport 1 lockedFrameState rfl rfl hS rfl
  refine ⟨?_, ?_⟩
  · rw [drawBasePictureInGL_eq _ _ _ _ _ _ rfl rfl, frameFinish_fst,
      frameBeforeFinish_none _ _ _ _ _ _ hS]
    simp only [frameDisplay_state, hS]
    simp [frontReadyFrame]
  · rw [k4]
    simp [frontReadyFrame, h4]

/-- C25, as stated, fails: after a still frame at time 0 in which no page reports
ready (updates get locked while the back page is prepared), a still frame at time
1 in which the front page reports ready and the back page does not is composited,
returns false, and leaves updates locked. -/
theorem frame_idle_with_updates_locked :
    Reachable sampleConstants lockedFrameState ∧
    sampleLayer.contentIsEmpty = false ∧ sampleLayer.hasGLWebViewState = true ∧
    (drawBasePictureInGL sampleConstants (frontReadyFrame 1) sampleLayer sampleViewport 1
      lockedFrameState).1 = false ∧
    (drawBasePictureInGL sampleConstants (frontReadyFrame 1) sampleLayer sampleViewport 1
      lockedFrameState).2.m_baseLayerUpdate = false :=
  ⟨⟨_, rfl⟩, rfl, rfl, lockedFrame_second.1, lockedFrame_second.2⟩

/-- C25, amended: whenever `drawBasePictureInGL` composites a frame and returns
false, no scale request is pending after the scale handling, and base-layer
updates are unlocked on return exactly when the view is moving, or the back page
reported ready (line 232), or the front page reported ready at line 227 and
updates were unlocked on entry; otherwise the frame returns false with updates
still locked. -/
theorem frame_idle_lock (c : Constants) (inp : FrameInput) (layer : BaseLayerAndroid)
    (viewport : SkRect) (scale : ℚ) (st : GLWebViewState)
    (hc : layer.contentIsEmpty = false) (hg : layer.hasGLWebViewState = true)
    (hret : (drawBasePictureInGL c inp layer viewport scale st).1 = false) :
    (frameScheduled c inp viewport scale st).1.m_scaleRequestState = .kNoScaleRequest ∧
    ((drawBasePictureInGL c inp layer viewport scale st).2.m_baseLayerUpdate = true ↔
      inp.moving = true ∨ inp.backReadyPre = true ∨
        (inp.frontReadyPre = true ∧ st.m_baseLayerUpdate = true)) := by
  obtain ⟨hs, -⟩ := frame_returns_false c inp layer viewport scale st hc hg hret
  refine ⟨hs, ?_⟩
  by_cases hm : inp.moving = true
  · simp [frame_moving_unlocks c inp layer viewport scale st hc hg hs hm, hm]
  · simp only [Bool.not_eq_true] at hm
    obtain ⟨-, -, k, -⟩ := frame_still c inp layer viewport scale st hc hg hs hm
    rw [k]
    cases inp.backReadyPre <;> cases inp.frontReadyPre <;> simp [hm]

theorem frame_idle_lock_witness :
    sampleLayer.contentIsEmpty = false ∧ sampleLayer.hasGLWebViewState = true ∧
    (drawBasePictureInGL sampleConstants (frontReadyFrame 1) sampleLayer sampleViewport 1
      lockedFrameState).1 = false ∧
    ((drawBasePictureInGL sampleConstants (frontReadyFrame 1) sampleLayer sampleViewport 1
        lockedFrameState).2.m_baseLayerUpdate = true ↔
      (frontReadyFrame 1).moving = true ∨ (frontReadyFrame 1).backReadyPre = true ∨
        ((frontReadyFrame 1).frontReadyPre = true ∧ lockedFrameState.m_baseLayerUpdate = true)) :=
  ⟨rfl, rfl, lockedFrame_second.1,
    (frame_idle_lock sampleConstants (frontReadyFrame 1) sampleLayer sampleViewport 1
      lockedFrameState rfl rfl lockedFrame_second.1).2⟩

/-! ## The frame that receives the new scale -/

theorem crossfadeState_updateTime : crossfadeState.m_updateTime = -1 :=
  @reachable_idle sampleConstants crossfadeState ⟨crossfadeOps, rfl⟩
    (by rw [crossfadeState_fields.1]; decide)

/-- A frame at scale 3 at time 2 in which no page is ready, entered in the crossfade
to scale 2: a new request is scheduled, the recorded window is kept. -/
theorem frame_stale_first (st : GLWebViewState)
    (h1 : st.m_scaleRequestState = .kReceivedNewScale) (hu : st.m_updateTime = -1)
    (h3 : st.m_currentScale = 1) (h4 : st.m_futureScale = 2) :
    (drawBasePictureInGL sampleConstants (waitingFrame 2) sampleLayer sampleViewport 3
        st).2.m_scaleRequestState = .kWillScheduleRequest ∧
    (drawBasePictureInGL sampleConstants (waitingFrame 2) sampleLayer sampleViewport 3
        st).2.m_updateTime = 23 / 10 ∧
    (drawBasePictureInGL sampleConstants (waitingFrame 2) sampleLayer sampleViewport 3
        st).2.m_currentScale = 1 ∧
    (drawBasePictureInGL sampleConstants (waitingFrame 2) sampleLayer sampleViewport 3
        st).2.m_futureScale = 3 ∧
    (drawBasePictureInGL sampleConstants (waitingFrame 2) sampleLayer sampleViewport 3
        st).2.m_usePageA = st.m_usePageA ∧
    (drawBasePictureInGL sampleConstants (waitingFrame 2) sampleLayer sampleViewport 3
        st).2.m_transitionTime = st.m_transitionTime := by
  have h := frame_back_not_ready sampleConstants (waitingFrame 2) sampleLayer sampleViewport 3
    st rfl rfl rfl rfl _ rfl
  have hS : (frameSchedule sampleConstants (waitingFrame 2).currentTime 3
      (framePreZoom 3 (st.setViewport sampleConstants sampleViewport 3))).1
      = { framePreZoom 3 (st.setViewport sampleConstants sampleViewport 3) with
          m_scaleRequestState := .kWillScheduleRequest
          m_updateTime := 23 / 10
          m_futureScale := 3
          m_futureViewportTileBounds :=
            (framePreZoom 3 (st.setViewport sampleConstants sampleViewport
              3)).m_viewportTileBounds } := by
    rw [frameSchedule_fst]
    norm_num [GLWebViewState.scheduleUpdate, h1, h3, h4, hu, waitingFrame, sampleConstants]
  have hr : (frameReceived sampleConstants (waitingFrame 2) sampleLayer sampleViewport 3
      st).m_scaleRequestState ≠ .kReceivedNewScale := by
    rw [frameReceived_state]
    simp only [frameScheduled]
    rw [hS]
    simp
  obtain ⟨k5, k6⟩ := frame_back_not_ready_roles sampleConstants (waitingFrame 2) sampleLayer
    sampleViewport 3 st rfl rfl rfl hr
  rw [hS] at h
  obtain ⟨k1, k2, k3, k4⟩ := h (by simp)
  exact ⟨k1, k2, by rw [← h3]; exact k3, k4, k5, k6⟩

/-- A further frame at scale 3 at time 3 in which no page is ready: the request is
fired, the recorded window is kept. -/
theorem frame_stale_second (st : GLWebViewState)
    (h1 : st.m_scaleRequestState = .kWillScheduleRequest) (h2 : st.m_updateTime = 23 / 10)
    (h3 : st.m_currentScale = 1) (h4 : st.m_futureScale = 3) :
    (drawBasePictureInGL sampleConstants (waitingFrame 3) sampleLayer sampleViewport 3
        st).2.m_scaleRequestState = .kRequestNewScale ∧
    (drawBasePictureInGL sampleConstants (waitingFrame 3) sampleLayer sampleViewport 3
        st).2.m_updateTime = -1 ∧
    (drawBasePictureInGL sampleConstants (waitingFrame 3) sampleLayer sampleViewport 3
        st).2.m_currentScale = 1 ∧
    (drawBasePictureInGL sampleConstants (waitingFrame 3) sampleLayer sampleViewport 3
        st).2.m_futureScale = 3 ∧
    (drawBasePictureInGL sampleConstants (waitingFrame 3) sampleLayer sampleViewport 3
        st).2.m_usePageA = st.m_usePageA ∧
    (drawBasePictureInGL sampleConstants (waitingFrame 3) sampleLayer sampleViewport 3
        st).2.m_transitionTime = st.m_transitionTime := by
  have h := frame_back_not_ready sampleConstants (waitingFrame 3) sampleLayer sampleViewport 3
    st rfl rfl rfl rfl _ rfl
  have hS : (frameSchedule sampleConstants (waitingFrame 3).currentTime 3
      (framePreZoom 3 (st.setViewport sampleConstants sampleViewport 3))).1
      = { framePreZoom 3 (st.setViewport sampleConstants sampleViewport 3) with
          m_scaleRequestState := .kRequestNewScale
          m_updateTime := -1 } := by
    rw [frameSchedule_fst]
    norm_num [GLWebViewState.scheduleUpdate, h1, h2, h3, h4, waitingFrame]
  have hr : (frameReceived sampleConstants (waitingFrame 3) sampleLayer sampleViewport 3
      st).m_scaleRequestState ≠ .kReceivedNewScale := by
    rw [frameReceived_state]
    simp only [frameScheduled]
    rw [hS]
    simp [waitingFrame]
  obtain ⟨k5, k6⟩ := frame_back_not_ready_roles sampleConstants (waitingFrame 3) sampleLayer
    sampleViewport 3 st rfl rfl rfl hr
  rw [hS] at h
  obtain ⟨k1, k2, k3, k4⟩ := h (by simp)
  refine ⟨k1, k2, by rw [← h3]; exact k3, ?_, k5, k6⟩
  rw [k4]
  simpa using h4

theorem staleWillState_fields :
    staleWillState.m_scaleRequestState = .kWillScheduleRequest ∧
    staleWillState.m_updateTime = 23 / 10 ∧
    staleWillState.m_currentScale = 1 ∧ staleWillState.m_futureScale = 3 ∧
    staleWillState.m_usePageA = true ∧ staleWillState.m_transitionTime = 11 / 10 := by
  obtain ⟨h1, h2, h3, h4, h5⟩ := crossfadeState_fields
  obtain ⟨k1, k2, k3, k4, k5, k6⟩ :=
    frame_stale_first crossfadeState h1 crossfadeState_updateTime h3 h4
  exact ⟨k1, k2, k3, k4, k5.trans h5, k6.trans h2⟩

theorem staleWindowState_eq :
    staleWindowState = (drawBasePictureInGL sampleConstants (waitingFrame 3) sampleLayer
      sampleViewport 3 staleWillState).2 := rfl

theorem staleWindowState_fields :
    staleWindowState.m_scaleRequestState = .kRequestNewScale ∧
    staleWindowState.m_updateTime = -1 ∧
    staleWindowState.m_currentScale = 1 ∧ staleWindowState.m_futureScale = 3 ∧
    staleWindowState.m_usePageA = true ∧ staleWindowState.m_transitionTime = 11 / 10 := by
  obtain ⟨h1, h2, h3, h4, h5, h6⟩ := staleWillState_fields
  obtain ⟨k1, k2, k3, k4, k5, k6⟩ := frame_stale_second staleWillState h1 h2 h3 h4
  rw [staleWindowState_eq]
  exact ⟨k1, k2, k3, k4, k5.trans h5, k6.trans h6⟩

theorem staleWindowState_reachable : Reachable sampleConstants staleWindowState :=
  ⟨staleWindowOps, rfl⟩

/-- The frame that receives the new scale, when no transition time is recorded on
entry: the window opens at the clock plus the delay of the direction, the ramp
value is `min 1 (max 0 (delay * inverse delay))`, and with a delay that is not
negative the frame ends in `kReceivedNewScale` without a swap. -/
theorem frame_received_fresh_window (c : Constants) (inp : FrameInput)
    (layer : BaseLayerAndroid) (viewport : SkRect) (scale : ℚ) (st : GLWebViewState)
    (hc : layer.contentIsEmpty = false) (hg : layer.hasGLWebViewState = true)
    (hs : (frameScheduled c inp viewport scale st).1.m_scaleRequestState = .kRequestNewScale)
    (hb : inp.backReadyFuture = true) (hfresh : st.m_transitionTime = -1)
    (hin : 0 ≤ c.s_zoomInTransitionDelay) (hout : 0 ≤ c.s_zoomOutTransitionDelay) :
    (frameReceived c inp layer viewport scale st).m_scaleRequestState = .kReceivedNewScale ∧
    (drawBasePictureInGL c inp layer viewport scale st).2.m_scaleRequestState
      = .kReceivedNewScale ∧
    (drawBasePictureInGL c inp layer viewport scale st).2.m_usePageA = st.m_usePageA ∧
    (drawBasePictureInGL c inp layer viewport scale st).2.m_currentScale = st.m_currentScale ∧
    (¬ scale < st.m_currentScale →
      (drawBasePictureInGL c inp layer viewport scale st).2.m_transitionTime
        = inp.currentTime + c.s_zoomInTransitionDelay ∧
      ((frameReceived c inp layer viewport scale st).zoomInTransparency c inp.currentTime).1
        = min 1 (max 0 (c.s_zoomInTransitionDelay * c.s_invZoomInTransitionDelay))) ∧
    (scale < st.m_currentScale →
      (drawBasePictureInGL c inp layer viewport scale st).2.m_transitionTime
        = inp.currentTime + c.s_zoomOutTransitionDelay ∧
      ((frameReceived c inp layer viewport scale st).zoomOutTransparency c inp.currentTime).1
        = min 1 (max 0 (c.s_zoomOutTransitionDelay * c.s_invZoomOutTransitionDelay))) := by
  have hr : (frameReceived c inp layer viewport scale st).m_scaleRequestState
      = .kReceivedNewScale := by
    rw [frameReceived_state]
    simp [hs, hb]
  have hTin : ((frameReceived c inp layer viewport scale st).zoomInTransitionTime c
      inp.currentTime).1 = inp.currentTime + c.s_zoomInTransitionDelay := by
    simp [GLWebViewState.zoomInTransitionTime, hfresh]
  have hTout : ((frameReceived c inp layer viewport scale st).zoomOutTransitionTime c
      inp.currentTime).1 = inp.currentTime + c.s_zoomOutTransitionDelay := by
    simp [GLWebViewState.zoomOutTransitionTime, hfresh]
  by_cases hz : scale < st.m_currentScale
  · obtain ⟨-, -, hkeep⟩ := frame_crossfade_out c inp layer viewport scale st hc hg hr hz
    obtain ⟨k1, k2, k3, k4, -⟩ := hkeep (by rw [hTout]; linarith)
    refine ⟨hr, k2, k1, k4, fun h => absurd hz h, fun _ => ⟨by rw [k3, hTout], ?_⟩⟩
    simp [GLWebViewState.zoomOutTransparency, GLWebViewState.zoomOutTransitionTime, hfresh]
  · obtain ⟨-, -, hkeep⟩ := frame_crossfade_in c inp layer viewport scale st hc hg hr hz
    obtain ⟨k1, k2, k3, k4, -⟩ := hkeep (by rw [hTin]; linarith)
    refine ⟨hr, k2, k1, k4, fun _ => ⟨by rw [k3, hTin], ?_⟩, fun h => absurd h hz⟩
    simp [GLWebViewState.zoomInTransparency, GLWebViewState.zoomInTransitionTime, hfresh]

/-- C21 fails on the code: after the crossfade to scale 2 (window closing at 11/10)
was interrupted by frames at scale 3 at times 2 and 3, the state is
`kRequestNewScale` with the old window still recorded. The frame at time 4 at
scale 3 that finds the back page ready moves to `kReceivedNewScale`, reads the old
window 11/10 instead of opening one at 4 + 1/10, draws the front page with ramp
value 0, and swaps the pages in that same frame, ending in `kNoScaleRequest` with
the transition time cleared. -/
theorem received_frame_reuses_stale_window :
    Reachable sampleConstants staleWindowState ∧
    staleWindowState.m_scaleRequestState = .kRequestNewScale ∧
    (frameScheduled sampleConstants (readyFrame 4) sampleViewport 3
      staleWindowState).1.m_scaleRequestState = .kRequestNewScale ∧
    (readyFrame 4).backReadyFuture = true ∧
    (frameReceived sampleConstants (readyFrame 4) sampleLayer sampleViewport 3
      staleWindowState).m_scaleRequestState = .kReceivedNewScale ∧
    ((frameReceived sampleConstants (readyFrame 4) sampleLayer sampleViewport 3
      staleWindowState).zoomInTransitionTime sampleConstants (readyFrame 4).currentTime).1
      = 11 / 10 ∧
    (11 / 10 : ℚ) ≠ (readyFrame 4).currentTime + sampleConstants.s_zoomInTransitionDelay ∧
    drawsOf (drawBasePictureInGL sampleConstants (readyFrame 4) sampleLayer sampleViewport 3
        staleWindowState).2.m_calls =
      drawsOf staleWindowState.m_calls ++
        [(staleWindowState.backPage, 1,
          (frameReceived sampleConstants (readyFrame 4) sampleLayer sampleViewport 3
            staleWindowState).m_viewportTileBounds),
         (staleWindowState.frontPage, 0,
          (frameReceived sampleConstants (readyFrame 4) sampleLayer sampleViewport 3
            staleWindowState).m_preZoomBounds)] ∧
    (drawBasePictureInGL sampleConstants (readyFrame 4) sampleLayer sampleViewport 3
      staleWindowState).2.m_usePageA = (!staleWindowState.m_usePageA) ∧
    (drawBasePictureInGL sampleConstants (readyFrame 4) sampleLayer sampleViewport 3
      staleWindowState).2.m_scaleRequestState = .kNoScaleRequest ∧
    (drawBasePictureInGL sampleConstants (readyFrame 4) sampleLayer sampleViewport 3
      staleWindowState).2.m_transitionTime = -1 := by
  obtain ⟨h1, h2, h3, h4, h5, h6⟩ := staleWindowState_fields
  have hS : (frameScheduled sampleConstants (readyFrame 4) sampleViewport 3
      staleWindowState).1 =
      framePreZoom 3 (staleWindowState.setViewport sampleConstants sampleViewport 3) := by
    simp only [frameScheduled]
    rw [frameSchedule_fst]
    simp [h1, h4]
  have hs : (frameScheduled sampleConstants (readyFrame 4) sampleViewport 3
      staleWindowState).1.m_scaleRequestState = .kRequestNewScale := by
    rw [hS]
    simpa using h1
  have hr : (frameReceived sampleConstants (readyFrame 4) sampleLayer sampleViewport 3
      staleWindowState).m_scaleRequestState = .kReceivedNewScale := by
    rw [frameReceived_state, hs]
    simp [readyFrame]
  have hT : ((frameReceived sampleConstants (readyFrame 4) sampleLayer sampleViewport 3
      staleWindowState).zoomInTransitionTime sampleConstants (readyFrame 4).currentTime).1
      = 11 / 10 := by
    norm_num [GLWebViewState.zoomInTransitionTime, h6]
  have hramp : ((frameReceived sampleConstants (readyFrame 4) sampleLayer sampleViewport 3
      staleWindowState).zoomInTransparency sampleConstants (readyFrame 4).currentTime).1
      = 0 := by
    norm_num [GLWebViewState.zoomInTransparency, GLWebViewState.zoomInTransitionTime, h6,
      readyFrame, sampleConstants]
  have hlate : (readyFrame 4).currentTime >
      ((frameReceived sampleConstants (readyFrame 4) sampleLayer sampleViewport 3
        staleWindowState).zoomInTransitionTime sampleConstants (readyFrame 4).currentTime).1 := by
    rw [hT]
    norm_num [readyFrame]
  obtain ⟨hd, hswap, -⟩ := frame_crossfade_in sampleConstants (readyFrame 4) sampleLayer
    sampleViewport 3 staleWindowState rfl rfl hr (by rw [h3]; norm_num)
  obtain ⟨k1, k2, k3, -, -⟩ := hswap hlate
  rw [hramp] at hd
  exact ⟨staleWindowState_reachable, h1, hs, rfl, hr, hT,
    by norm_num [readyFrame, sampleConstants], hd, k1, k2, k3⟩

/-! ## Keyframe selection of transform animations -/

theorem sampleAnimation_progress :
    (sampleAnimation.checkIterationsAndProgress (-1) 14).1 = some (2 / 5) := by
  norm_num [AndroidAnimation.checkIterationsAndProgress, AndroidAnimation.currentProgress,
    sampleAnimation, truncate]

theorem sampleKeyframes_search :
    keyframeLoop sampleKeyframes.length (2 / 5) sampleKeyframes 0 ⟨none, 0, 0⟩
      = ⟨some ⟨1 / 2, 1⟩, 1 / 10, 1⟩ := by
  norm_num [keyframeLoop, keyframeStep, sampleKeyframes, abs_of_nonneg, abs_of_neg]

/-- The result of `evaluate` in terms of the progress and of the outcome of the
search loop, when the keyframe after the chosen one exists. -/
theorem evaluate_blended (inf : Int) (operations : List TransformAnimationValue) (time : ℚ)
    (a : AndroidAnimation) (p : ℚ) (fromValue : TransformAnimationValue) (d : ℚ) (i : Nat)
    (hp : (a.checkIterationsAndProgress inf time).1 = some p) (h0 : ¬ p < 0)
    (hs : keyframeLoop operations.length p operations 0 ⟨none, 0, 0⟩ = ⟨some fromValue, d, i⟩)
    (hi : i + 1 < operations.length) :
    (AndroidTransformAnimation.evaluate inf operations time a).map Prod.fst =
      some (.blended fromValue (operations.get ⟨i + 1, hi⟩)
        ((operations.get ⟨i + 1, hi⟩).keyTime - fromValue.keyTime)
        (if (operations.get ⟨i + 1, hi⟩).keyTime - fromValue.keyTime = 0 then none
          else some ((p - fromValue.keyTime) /
            ((operations.get ⟨i + 1, hi⟩).keyTime - fromValue.keyTime)))) := by
  have hl : ¬ operations.length = 0 := by omega
  unfold AndroidTransformAnimation.evaluate
  simp only [hp]
  rw [if_neg h0, if_neg hl]
  simp only [hs]
  rw [dif_pos hi]
  rfl

/-- C26 fails on the code: for the three keyframes at key times 0, 1/2 and 1 and an
animation whose progress at time 14 is 2/5, the loop of lines 247-257 keeps the
keyframe nearest to the progress, the one at 1/2, as `fromValue` (with the keyframe
at 1 as `toValue`), so `fromValue`'s key time is above the progress and the
remapped progress is (2/5 - 1/2) / (1/2) = -1/5, outside [0, 1]. -/
theorem evaluate_selects_nearest_keyframe :
    2 ≤ sampleKeyframes.length ∧
    sampleKeyframes.map (fun k => k.keyTime) = [0, 1 / 2, 1] ∧
    (sampleAnimation.checkIterationsAndProgress (-1) 14).1 = some (2 / 5) ∧
    (AndroidTransformAnimation.evaluate (-1) sampleKeyframes 14 sampleAnimation).map Prod.fst
      = some (.blended ⟨1 / 2, 1⟩ ⟨1, 2⟩ (1 / 2) (some (-1 / 5))) ∧
    ¬ ((⟨1 / 2, 1⟩ : TransformAnimationValue).keyTime ≤ 2 / 5) ∧
    ¬ ((0 : ℚ) ≤ -1 / 5) := by
  refine ⟨by simp [sampleKeyframes], by simp [sampleKeyframes], sampleAnimation_progress, ?_,
    by norm_num, by norm_num⟩
  rw [evaluate_blended (-1) sampleKeyframes 14 sampleAnimation (2 / 5) ⟨1 / 2, 1⟩ (1 / 10) 1
    sampleAnimation_progress (by norm_num) sampleKeyframes_search (by simp [sampleKeyframes])]
  norm_num [sampleKeyframes]

/-- What the search loop maintains: once a keyframe is chosen it is the keyframe at
index `foundAt`, and `foundAt` is 0 or not the last index. -/
theorem keyframeLoop_spec (p : ℚ) (ops : List TransformAnimationValue) :
    ∀ (rest : List TransformAnimationValue) (i : Nat) (s : KeyframeSearch),
      ops.drop i = rest →
      ((s.fromValue = none ∧ i = 0) ∨
        (s.fromValue.isSome = true ∧ s.fromValue = ops[s.foundAt]? ∧
          (s.foundAt = 0 ∨ s.foundAt + 1 < ops.length))) →
      (((keyframeLoop ops.length p rest i s).fromValue = none ∧ ops = []) ∨
        ((keyframeLoop ops.length p rest i s).fromValue.isSome = true ∧
          (keyframeLoop ops.length p rest i s).fromValue
            = ops[(keyframeLoop ops.length p rest i s).foundAt]? ∧
          ((keyframeLoop ops.length p rest i s).foundAt = 0 ∨
            (keyframeLoop ops.length p rest i s).foundAt + 1 < ops.length))) := by
  intro rest
  induction rest with
  | nil =>
    intro i s hdrop hinv
    simp only [keyframeLoop]
    rcases hinv with ⟨h1, h2⟩ | h
    · left
      subst h2
      exact ⟨h1, by simpa using hdrop⟩
    · exact Or.inr h
  | cons v rest ih =>
    intro i s hdrop hinv
    simp only [keyframeLoop]
    have hi : i < ops.length := by
      by_contra hge
      rw [List.drop_eq_nil_of_le (by omega)] at hdrop
      cases hdrop
    rw [List.drop_eq_getElem_cons hi] at hdrop
    have hv : ops[i] = v := (List.cons.inj hdrop).1
    have hrest : ops.drop (i + 1) = rest := (List.cons.inj hdrop).2
    apply ih (i + 1) _ hrest
    right
    simp only [keyframeStep]
    split_ifs with hcond
    · refine ⟨rfl, ?_, ?_⟩
      · show some v = ops[i]?
        rw [List.getElem?_eq_getElem hi, hv]
      · show i = 0 ∨ i + 1 < ops.length
        rcases hcond with hnone | ⟨-, hlt⟩
        · rcases hinv with ⟨-, h0⟩ | ⟨hsome, -, -⟩
          · exact Or.inl h0
          · rw [Option.isNone_iff_eq_none] at hnone
            rw [hnone] at hsome
            cases hsome
        · exact Or.inr hlt
    · rcases hinv with ⟨hnone, -⟩ | h
      · exact absurd (Or.inl (by rw [hnone]; rfl)) hcond
      · exact h

/-- For at least two keyframes the search loop ends on a keyframe that is not the
last one: `toValue` is the keyframe immediately after `fromValue`. -/
theorem keyframeLoop_found (p : ℚ) (ops : List TransformAnimationValue)
    (hlen : 2 ≤ ops.length) :
    ∃ (i : Nat) (d : ℚ) (hi : i + 1 < ops.length),
      keyframeLoop ops.length p ops 0 ⟨none, 0, 0⟩ = ⟨some (ops.get ⟨i, by omega⟩), d, i⟩ := by
  have h := keyframeLoop_spec p ops ops 0 ⟨none, 0, 0⟩ rfl (Or.inl ⟨rfl, rfl⟩)
  rcases h with ⟨-, hnil⟩ | ⟨hsome, hval, hpos⟩
  · rw [hnil] at hlen
    simp at hlen
  · have hi : (keyframeLoop ops.length p ops 0 ⟨none, 0, 0⟩).foundAt + 1 < ops.length := by
      rcases hpos with h0 | h1
      · omega
      · exact h1
    refine ⟨_, (keyframeLoop ops.length p ops 0 ⟨none, 0, 0⟩).distance, hi, ?_⟩
    rw [List.getElem?_eq_getElem (by omega)] at hval
    have heta : ∀ (r : KeyframeSearch) (h : r.foundAt < ops.length),
        r.fromValue = some ops[r.foundAt] →
        r = ⟨some (ops.get ⟨r.foundAt, h⟩), r.distance, r.foundAt⟩ := by
      intro r h hv
      cases r
      simp only at hv
      simp only [hv, List.get_eq_getElem]
    exact heta _ (by omega) hval

/-- For at least two keyframes with strictly increasing key times and a progress
that is not negative, `evaluate` blends from some keyframe to the keyframe
immediately after it, and the divisor of the remapped progress is positive. -/
theorem evaluate_next_keyframe (inf : Int) (ops : List TransformAnimationValue) (time : ℚ)
    (a : AndroidAnimation) (p : ℚ)
    (hp : (a.checkIterationsAndProgress inf time).1 = some p) (h0 : 0 ≤ p)
    (hlen : 2 ≤ ops.length)
    (hinc : List.Pairwise (fun x y : TransformAnimationValue => x.keyTime < y.keyTime) ops) :
    ∃ (i : Nat) (hi : i + 1 < ops.length),
      0 < (ops.get ⟨i + 1, hi⟩).keyTime - (ops.get ⟨i, by omega⟩).keyTime ∧
      (AndroidTransformAnimation.evaluate inf ops time a).map Prod.fst =
        some (.blended (ops.get ⟨i, by omega⟩) (ops.get ⟨i + 1, hi⟩)
          ((ops.get ⟨i + 1, hi⟩).keyTime - (ops.get ⟨i, by omega⟩).keyTime)
          (some ((p - (ops.get ⟨i, by omega⟩).keyTime) /
            ((ops.get ⟨i + 1, hi⟩).keyTime - (ops.get ⟨i, by omega⟩).keyTime)))) := by
  obtain ⟨i, d, hi, hs⟩ := keyframeLoop_found p ops hlen
  have hlt : (ops.get ⟨i, by omega⟩).keyTime < (ops.get ⟨i + 1, hi⟩).keyTime :=
    List.pairwise_iff_get.mp hinc ⟨i, by omega⟩ ⟨i + 1, hi⟩ (by simp)
  refine ⟨i, hi, by linarith, ?_⟩
  rw [evaluate_blended inf ops time a p _ d i hp (by linarith) hs hi]
  rw [if_neg (by linarith)]

end WebCore
